import Mathlib

/-! # nRF24L01+ driver (khyale/nrf): shallow embedding and verified properties

The driver talks to the radio through `spi_transfer` (src/spidrv.cpp) and the
CE pin.  The radio, the SPI peripheral and the stack garbage found in
uninitialised local buffers form the *world*, an arbitrary type `σ`; a `Host σ`
gives the three primitives the code consumes.  Every driver method is a pure
function on the driver object `nrf σ`, which carries the world, the level of
the CE pin, the two tracked modes and the trace of observable events (bus
transactions, CE writes, delays).

Bytes are natural numbers; every store into a `uint8_t` reduces modulo 256.
-/

namespace Nrf

/-! ## nordic.h -/

/-- `#define BIT(pos) ((uint8_t) (1<<( (uint8_t) (pos) )))` -/
def BIT (pos : Nat) : Nat := (1 <<< (pos % 256)) % 256

def CONFIG : Nat := 0x00
def EN_AA : Nat := 0x01
def EN_RXADDR : Nat := 0x02
def RF_CH : Nat := 0x05
def RF_SETUP : Nat := 0x06
def OBSERVE_TX : Nat := 0x08
def RPD : Nat := 0x09
def RX_ADDR_P0 : Nat := 0x0A
def RX_ADDR_P1 : Nat := 0x0B
def RX_ADDR_P2 : Nat := 0x0C
def RX_ADDR_P3 : Nat := 0x0D
def RX_ADDR_P4 : Nat := 0x0E
def RX_ADDR_P5 : Nat := 0x0F
def TX_ADDR : Nat := 0x10
def RX_PW_P0 : Nat := 0x11
def RX_PW_P1 : Nat := 0x12
def RX_PW_P2 : Nat := 0x13
def RX_PW_P3 : Nat := 0x14
def RX_PW_P4 : Nat := 0x15
def RX_PW_P5 : Nat := 0x16
def STATUS : Nat := 0x07
def FIFO_STATUS : Nat := 0x17
def SETUP_AW : Nat := 0x03
def SETUP_RETR : Nat := 0x04
def DYNPD : Nat := 0x1C
def FEATURE : Nat := 0x1D

def R_REGISTER : Nat := 0x00
def W_REGISTER : Nat := 0x20
def R_RX_PAYLOAD : Nat := 0x61
def W_TX_PAYLOAD : Nat := 0xA0
def FLUSH_TX : Nat := 0xE1
def FLUSH_RX : Nat := 0xE2
def R_RX_PL_WID : Nat := 0x60
def W_TX_PAYLOAD_NOACK : Nat := 0xB0
def NOP : Nat := 0xFF

def MASK_RX_DR : Nat := BIT 6
def MASK_TX_DS : Nat := BIT 5
def MASK_MAX_RT : Nat := BIT 4
def EN_CRC : Nat := BIT 3
def CRCO : Nat := BIT 2
def PWR_UP : Nat := BIT 1
def PRIM_RX : Nat := BIT 0

def RF_DR_LOW : Nat := BIT 5
def RF_DR_HIGH : Nat := BIT 3
def RF_PWR : Nat := 0x06

def RX_DR : Nat := BIT 6
def TX_DS : Nat := BIT 5
def MAX_RT : Nat := BIT 4
def RX_P_NO : Nat := 0x0E

def TX_FIFO_FULL : Nat := BIT 5
def TX_EMPTY : Nat := BIT 4
def RX_EMPTY : Nat := BIT 0

def EN_DPL : Nat := BIT 2

/-- C `~x` on an `int` holding a promoted `uint8_t` (16-bit `int` of the AVR
target); the result is only ever and-ed with a byte. -/
def NOT (x : Nat) : Nat := 0xFFFF ^^^ x

/-! ## nrf.h -/

inductive nrf_int_source_t
  | NRF_MAX_RT
  | NRF_TX_DS
  | NRF_RX_DR
  deriving DecidableEq

inductive nrf_operation_mode_t
  | NRF_POWER_DOWN
  | NRF_STANDBY
  | NRF_TX_MODE
  | NRF_RX_MODE
  deriving DecidableEq

inductive nrf_power_t
  | NRF_18DBM
  | NRF_12DBM
  | NRF_6DBM
  | NRF_0DBM
  deriving DecidableEq

/-- The cast `(uint8_t) power`. -/
def nrf_power_t.val : nrf_power_t → Nat
  | NRF_18DBM => 0
  | NRF_12DBM => 1
  | NRF_6DBM => 2
  | NRF_0DBM => 3

inductive nrf_datarate_t
  | NRF_250KBPS
  | NRF_1MBPS
  | NRF_2MBPS
  deriving DecidableEq

/-- The enumerators carry the values 1, 2, 3 (`NRF_AW_3BYTES = 1`). -/
inductive nrf_address_width_t
  | NRF_AW_3BYTES
  | NRF_AW_4BYTES
  | NRF_AW_5BYTES
  deriving DecidableEq

/-- The cast `(uint8_t) width`. -/
def nrf_address_width_t.val : nrf_address_width_t → Nat
  | NRF_AW_3BYTES => 1
  | NRF_AW_4BYTES => 2
  | NRF_AW_5BYTES => 3

inductive nrf_crc_mode_t
  | NRF_CRC_1BYTE
  | NRF_CRC_2BYTES
  deriving DecidableEq

inductive nrf_address_t
  | NRF_PIPE0
  | NRF_PIPE1
  | NRF_PIPE2
  | NRF_PIPE3
  | NRF_PIPE4
  | NRF_PIPE5
  deriving DecidableEq

/-- The cast `(uint8_t) pipe`. -/
def nrf_address_t.val : nrf_address_t → Nat
  | NRF_PIPE0 => 0
  | NRF_PIPE1 => 1
  | NRF_PIPE2 => 2
  | NRF_PIPE3 => 3
  | NRF_PIPE4 => 4
  | NRF_PIPE5 => 5

open nrf_int_source_t nrf_operation_mode_t nrf_address_width_t nrf_crc_mode_t nrf_address_t
open nrf_power_t nrf_datarate_t

/-! ## The host environment -/

/-- The primitives consumed from the Arduino core, over a world state `σ`. -/
structure Host (σ : Type) where
  /-- `digitalWrite(spi_device, level)` on the chip-select pin -/
  csn_write : σ → Bool → σ
  /-- `SPI.transfer(byte)`: one byte out, one byte in -/
  transfer : σ → Nat → σ × Nat
  /-- content found at index `i` of a local array that the code never initialised -/
  uninit : σ → Nat → Nat

/-- Observable actions of the driver. -/
inductive Event
  | spi (sent : List Nat)
  | ce (level : Bool)
  | delay (ms : Nat)
  | delayMicroseconds (us : Nat)
  deriving DecidableEq

/-- The driver object: private members `_last_mode`, `_current_mode`, the level
driven on the CE pin, the world behind the bus, and the event trace. -/
structure nrf (σ : Type) where
  world : σ
  ce_level : Bool
  _last_mode : nrf_operation_mode_t
  _current_mode : nrf_operation_mode_t
  trace : List Event

variable {σ : Type}

/-! ## spidrv.cpp -/

/-- The loop `while(length-->0) *data++ = SPI.transfer(*data);` -/
def spi_loop (H : Host σ) : σ → List Nat → σ × List Nat
  | w, [] => (w, [])
  | w, b :: bs =>
    let r := H.transfer w b
    let rest := spi_loop H r.1 bs
    (rest.1, r.2 % 256 :: rest.2)

/-- `spi_transfer(_csn, data, length)`: `length` is a `uint8_t`; the first
`length` bytes of `data` are sent and overwritten by the reply. -/
def spi_transfer (H : Host σ) (s : nrf σ) (data : List Nat) (length : Nat) : nrf σ × List Nat :=
  let n := length % 256
  let r := spi_loop H (H.csn_write s.world false) (data.take n)
  ({ s with world := H.csn_write r.1 true, trace := s.trace ++ [Event.spi (data.take n)] },
    r.2 ++ data.drop n)

/-! ## nrf.cpp -/

def chip_enable (s : nrf σ) : nrf σ :=
  { s with ce_level := true, trace := s.trace ++ [Event.ce true] }

def chip_disable (s : nrf σ) : nrf σ :=
  { s with ce_level := false, trace := s.trace ++ [Event.ce false] }

/-- Returns `(status, state)`. -/
def spi_write_register (H : Host σ) (s : nrf σ) (register_addr data : Nat) : Nat × nrf σ :=
  let buff := [(W_REGISTER ||| (register_addr % 256 &&& 0x1F)) % 256, data % 256]
  let r := spi_transfer H s buff 2
  (r.2.getD 0 0, r.1)

/-- Returns `(status, *data, state)`; `buff[1]` is sent uninitialised. -/
def spi_read_register (H : Host σ) (s : nrf σ) (register_addr : Nat) : Nat × Nat × nrf σ :=
  let buff := [(R_REGISTER ||| (register_addr % 256 &&& 0x1F)) % 256, H.uninit s.world 1 % 256]
  let r := spi_transfer H s buff 2
  (r.2.getD 0 0, r.2.getD 1 0, r.1)

def flush_rx_fifo (H : Host σ) (s : nrf σ) : nrf σ :=
  (spi_transfer H s [FLUSH_RX] 1).1

def flush_tx_fifo (H : Host σ) (s : nrf σ) : nrf σ :=
  (spi_transfer H s [FLUSH_TX] 1).1

def get_status (H : Host σ) (s : nrf σ) : Nat × nrf σ :=
  let r := spi_transfer H s [NOP] 1
  (r.2.getD 0 0, r.1)

def clear_all_int_flags (H : Host σ) (s : nrf σ) : nrf σ :=
  let lastValue := get_status H s
  (spi_write_register H lastValue.2 STATUS (lastValue.1 ||| (RX_DR ||| TX_DS ||| MAX_RT))).2

def get_fifo_status (H : Host σ) (s : nrf σ) : Nat × nrf σ :=
  let r := spi_read_register H s FIFO_STATUS
  (r.2.1, r.2.2)

def available (H : Host σ) (s : nrf σ) : Bool × nrf σ :=
  let fifo_status := get_fifo_status H s
  if fifo_status.1 &&& RX_EMPTY = 0 then (true, fifo_status.2) else (false, fifo_status.2)

def clear_int_flag (H : Host σ) (s : nrf σ) (int_source : nrf_int_source_t) : nrf σ :=
  let lastValue := get_status H s
  match int_source with
  | NRF_RX_DR => (spi_write_register H lastValue.2 STATUS (lastValue.1 ||| RX_DR)).2
  | NRF_TX_DS => (spi_write_register H lastValue.2 STATUS (lastValue.1 ||| TX_DS)).2
  | NRF_MAX_RT => (spi_write_register H lastValue.2 STATUS (lastValue.1 ||| MAX_RT)).2

def get_received_payload_width (H : Host σ) (s : nrf σ) : Nat × nrf σ :=
  let buff := [R_RX_PL_WID, H.uninit s.world 1 % 256]
  let r := spi_transfer H s buff 2
  (r.2.getD 1 0, r.1)

/-- Returns `(result, buff, *length, state)`.  The caller's buffer is a map
from index to byte and `length` is the prior content of `*length`.  The
assignments `buff=NULL` only change the callee's copy of the pointer. -/
def read_received_payload (H : Host σ) (s : nrf σ) (buff : Nat → Nat) (length : Nat) :
    Bool × (Nat → Nat) × Nat × nrf σ :=
  let a := available H s
  if !a.1 then (false, buff, length, a.2)
  else
    let w := get_received_payload_width H a.2
    let len := w.1 % 256
    if len > 32 then
      let s1 := flush_rx_fifo H w.2
      let s2 := clear_int_flag H s1 NRF_RX_DR
      (false, buff, len, s2)
    else
      let incoming := R_RX_PAYLOAD :: (List.range len).map (fun i => H.uninit w.2.world (i + 1) % 256)
      let r := spi_transfer H w.2 incoming (len + 1)
      (true, fun i => if i < len then r.2.getD (i + 1) 0 else buff i, len, r.1)

def set_power_up (H : Host σ) (s : nrf σ) (pwr_up : Bool) : nrf σ :=
  let lastValue := spi_read_register H s CONFIG
  if pwr_up then (spi_write_register H lastValue.2.2 CONFIG (lastValue.2.1 ||| PWR_UP)).2
  else (spi_write_register H lastValue.2.2 CONFIG (lastValue.2.1 &&& NOT PWR_UP)).2

def set_primary_rx (H : Host σ) (s : nrf σ) (prim_rx : Bool) : nrf σ :=
  let lastValue := spi_read_register H s CONFIG
  if prim_rx then (spi_write_register H lastValue.2.2 CONFIG (lastValue.2.1 ||| PRIM_RX)).2
  else (spi_write_register H lastValue.2.2 CONFIG (lastValue.2.1 &&& NOT PRIM_RX)).2

/-- Returns `(result, state)`; `buff` is the caller's payload memory. -/
def write_tx_payload (H : Host σ) (s : nrf σ) (buff : Nat → Nat) (length : Nat) (auto_ack : Bool) :
    Bool × nrf σ :=
  let fifo := get_fifo_status H s
  if fifo.1 &&& TX_FIFO_FULL ≠ 0 then (false, fifo.2)
  else
    let len := length % 256
    let outcoming := (if auto_ack then W_TX_PAYLOAD else W_TX_PAYLOAD_NOACK) ::
      (List.range len).map (fun i => buff i % 256)
    (true, (spi_transfer H fifo.2 outcoming (len + 1)).1)

/-- The inner loop `while( !(get_status() & (TX_DS|MAX_RT)) ){}`; `none` when
the fuel runs out before a flag shows. -/
def wait_flag (H : Host σ) : Nat → nrf σ → Option (nrf σ)
  | 0, _ => none
  | fuel + 1, s =>
    let st := get_status H s
    if st.1 &&& (TX_DS ||| MAX_RT) = 0 then wait_flag H fuel st.2 else some st.2

/-- The `do { ... } while(!(get_fifo_status() & TX_EMPTY));` loop of
`wait_packet_sent`; the fuel bounds the iterations of both loops. -/
def wait_packet_sent_loop (H : Host σ) : Nat → nrf σ → Option (Bool × nrf σ)
  | 0, _ => none
  | fuel + 1, s =>
    match wait_flag H (fuel + 1) s with
    | none => none
    | some s1 =>
      let st := get_status H s1
      if st.1 &&& MAX_RT ≠ 0 then
        some (false, flush_tx_fifo H (clear_int_flag H st.2 NRF_MAX_RT))
      else
        let s2 := clear_int_flag H st.2 NRF_TX_DS
        let fifo := get_fifo_status H s2
        if fifo.1 &&& TX_EMPTY = 0 then wait_packet_sent_loop H fuel fifo.2
        else some (true, fifo.2)

/-- `digitalRead(_ce)` reads back the level driven on the output pin. -/
def wait_packet_sent (H : Host σ) (fuel : Nat) (s : nrf σ) : Option (Bool × nrf σ) :=
  let config := spi_read_register H s CONFIG
  if ((config.2.1 &&& PRIM_RX) ||| (if config.2.2.ce_level then 0 else 1) |||
      (if config.2.1 &&& PWR_UP = 0 then 1 else 0)) ≠ 0 then
    some (false, config.2.2)
  else wait_packet_sent_loop H fuel config.2.2

def delay (s : nrf σ) (ms : Nat) : nrf σ :=
  { s with trace := s.trace ++ [Event.delay ms] }

def delayMicroseconds (s : nrf σ) (us : Nat) : nrf σ :=
  { s with trace := s.trace ++ [Event.delayMicroseconds us] }

def set_mode (H : Host σ) (s : nrf σ) (mode : nrf_operation_mode_t) : nrf σ :=
  let s0 := { s with _last_mode := s._current_mode }
  match mode with
  | NRF_POWER_DOWN =>
    let s1 := set_power_up H (chip_disable s0) false
    { s1 with _current_mode := NRF_POWER_DOWN }
  | NRF_STANDBY =>
    let s1 := set_power_up H (chip_disable s0) true
    let s2 := if s1._current_mode = NRF_POWER_DOWN then delay s1 5 else s1
    { s2 with _current_mode := NRF_STANDBY }
  | NRF_RX_MODE =>
    let s1 := chip_enable (set_primary_rx H (set_power_up H (chip_disable s0) true) true)
    let s2 := if s1._current_mode = NRF_STANDBY then delayMicroseconds s1 150 else s1
    let s3 := if s2._current_mode = NRF_POWER_DOWN then delay s2 5 else s2
    { s3 with _current_mode := NRF_RX_MODE }
  | NRF_TX_MODE =>
    let s1 := chip_enable (set_primary_rx H (set_power_up H (chip_disable s0) true) false)
    let s2 := if s1._current_mode = NRF_STANDBY then delayMicroseconds s1 150 else s1
    let s3 := if s2._current_mode = NRF_POWER_DOWN then delay s2 5 else s2
    { s3 with _current_mode := NRF_TX_MODE }

def get_current_mode (s : nrf σ) : nrf_operation_mode_t := s._current_mode

def retrieve_last_mode (H : Host σ) (s : nrf σ) : nrf σ := set_mode H s s._last_mode

/-- The constructor `nrf::nrf(ce, csn)` run on the world `w`, with an empty
trace.  `spi_begin` drives the chip-select pin high. -/
def nrf_new (H : Host σ) (w : σ) : nrf σ :=
  let s0 : nrf σ := chip_disable
    { world := w, ce_level := false, _last_mode := NRF_POWER_DOWN,
      _current_mode := NRF_POWER_DOWN, trace := [] }
  let s1 : nrf σ := { s0 with world := H.csn_write s0.world true }
  let s2 := (spi_write_register H s1 CONFIG EN_CRC).2
  let s3 : nrf σ := { s2 with _current_mode := NRF_POWER_DOWN }
  let s4 : nrf σ := { s3 with _last_mode := s3._current_mode }
  let s5 := delay s4 100
  clear_all_int_flags H (flush_tx_fifo H (flush_rx_fifo H s5))

/-- Returns `(status, state)`; `buff` is the caller's block, `tmp` has
`length + 1` bytes and `sizeof(tmp)` is passed as a `uint8_t`. -/
def spi_write_multibyte_register (H : Host σ) (s : nrf σ) (register_addr : Nat)
    (buff : Nat → Nat) (length : Nat) : Nat × nrf σ :=
  let len := length % 256
  let tmp := (W_REGISTER ||| (register_addr % 256 &&& 0x1F)) % 256 ::
    (List.range len).map (fun i => buff i % 256)
  let r := spi_transfer H s tmp (len + 1)
  (r.2.getD 0 0, r.1)

/-- Returns `(status, buff, state)`; only `data[0]` is initialised before the
transfer. -/
def spi_read_multibyte_register (H : Host σ) (s : nrf σ) (register_addr : Nat)
    (buff : Nat → Nat) (length : Nat) : Nat × (Nat → Nat) × nrf σ :=
  let len := length % 256
  let data := (R_REGISTER ||| (register_addr % 256 &&& 0x1F)) % 256 ::
    (List.range len).map (fun i => H.uninit s.world (i + 1) % 256)
  let r := spi_transfer H s data (len + 1)
  (r.2.getD 0 0, fun i => if i < len then r.2.getD (i + 1) 0 else buff i, r.1)

def set_address_width (H : Host σ) (s : nrf σ) (width : nrf_address_width_t) : nrf σ :=
  (spi_write_register H s SETUP_AW width.val).2

/-- `return reg+2;` converted to the `uint8_t` return type. -/
def get_address_width (H : Host σ) (s : nrf σ) : Nat × nrf σ :=
  let reg := spi_read_register H s SETUP_AW
  ((reg.2.1 + 2) % 256, reg.2.2)

def set_retr_param (H : Host σ) (s : nrf σ) (retr_count retr_delay : Nat) : nrf σ :=
  (spi_write_register H s SETUP_RETR
    (((retr_delay % 256 &&& 0x0F) <<< 4) ||| (retr_count % 256 &&& 0x0F))).2

def get_retr_param (H : Host σ) (s : nrf σ) : Nat × nrf σ :=
  let reg := spi_read_register H s SETUP_RETR
  (reg.2.1, reg.2.2)

def set_crc_mode (H : Host σ) (s : nrf σ) (crc_mode : nrf_crc_mode_t) : nrf σ :=
  let lastValue := spi_read_register H s CONFIG
  match crc_mode with
  | NRF_CRC_1BYTE =>
    (spi_write_register H lastValue.2.2 CONFIG ((lastValue.2.1 &&& NOT CRCO) ||| EN_CRC)).2
  | NRF_CRC_2BYTES =>
    (spi_write_register H lastValue.2.2 CONFIG (lastValue.2.1 ||| CRCO ||| EN_CRC)).2

def get_crc_mode (H : Host σ) (s : nrf σ) : Nat × nrf σ :=
  let reg := spi_read_register H s CONFIG
  if reg.2.1 &&& EN_CRC ≠ 0 then
    if reg.2.1 &&& CRCO ≠ 0 then (0x02, reg.2.2) else (0x01, reg.2.2)
  else (0x00, reg.2.2)

def set_int_source (H : Host σ) (s : nrf σ) (int_source : nrf_int_source_t) (enable : Bool) :
    nrf σ :=
  let config := spi_read_register H s CONFIG
  match int_source with
  | NRF_RX_DR =>
    if enable then (spi_write_register H config.2.2 CONFIG (config.2.1 &&& NOT MASK_RX_DR)).2
    else (spi_write_register H config.2.2 CONFIG (config.2.1 ||| MASK_RX_DR)).2
  | NRF_TX_DS =>
    if enable then (spi_write_register H config.2.2 CONFIG (config.2.1 &&& NOT MASK_TX_DS)).2
    else (spi_write_register H config.2.2 CONFIG (config.2.1 ||| MASK_TX_DS)).2
  | NRF_MAX_RT =>
    if enable then (spi_write_register H config.2.2 CONFIG (config.2.1 &&& NOT MASK_MAX_RT)).2
    else (spi_write_register H config.2.2 CONFIG (config.2.1 ||| MASK_MAX_RT)).2

/-- The `switch(pipe)` lists all six enumerators, so the DYNPD write is always
made. -/
def set_dynamic_payload (H : Host σ) (s : nrf σ) (pipe : nrf_address_t) (dyn_pl : Bool) :
    nrf σ :=
  let last_value := spi_read_register H s DYNPD
  let s1 :=
    if dyn_pl then
      (spi_write_register H last_value.2.2 DYNPD (last_value.2.1 ||| BIT pipe.val)).2
    else (spi_write_register H last_value.2.2 DYNPD (last_value.2.1 &&& NOT (BIT pipe.val))).2
  let last_value2 := spi_read_register H s1 DYNPD
  let feature := spi_read_register H last_value2.2.2 FEATURE
  if last_value2.2.1 ≠ 0 then
    (spi_write_register H feature.2.2 FEATURE (feature.2.1 ||| EN_DPL)).2
  else (spi_write_register H feature.2.2 FEATURE (feature.2.1 &&& NOT EN_DPL)).2

def set_rf_channel (H : Host σ) (s : nrf σ) (rf_channel : Nat) : nrf σ :=
  (spi_write_register H s RF_CH (rf_channel % 256 &&& 0x7F)).2

def get_rf_channel (H : Host σ) (s : nrf σ) : Nat × nrf σ :=
  let channel := spi_read_register H s RF_CH
  (channel.2.1, channel.2.2)

def set_rf_power (H : Host σ) (s : nrf σ) (power : nrf_power_t) : nrf σ :=
  let lastValue := spi_read_register H s RF_SETUP
  (spi_write_register H lastValue.2.2 RF_SETUP
    ((lastValue.2.1 &&& NOT RF_PWR) ||| (power.val <<< 1))).2

def get_rf_power (H : Host σ) (s : nrf σ) : Nat × nrf σ :=
  let reg := spi_read_register H s RF_SETUP
  (((reg.2.1 &&& RF_PWR) >>> 1) % 256, reg.2.2)

def set_rf_datarate (H : Host σ) (s : nrf σ) (speed : nrf_datarate_t) : nrf σ :=
  let lastValue := spi_read_register H s RF_SETUP
  match speed with
  | NRF_250KBPS =>
    (spi_write_register H lastValue.2.2 RF_SETUP
      ((lastValue.2.1 &&& NOT RF_DR_HIGH) ||| RF_DR_LOW)).2
  | NRF_1MBPS =>
    (spi_write_register H lastValue.2.2 RF_SETUP
      (lastValue.2.1 &&& NOT (RF_DR_HIGH ||| RF_DR_LOW))).2
  | NRF_2MBPS =>
    (spi_write_register H lastValue.2.2 RF_SETUP
      ((lastValue.2.1 &&& NOT RF_DR_LOW) ||| RF_DR_HIGH)).2

/-- The decoding `switch(tmp)` of `get_rf_datarate`. -/
def datarate_code (reg : Nat) : Nat :=
  match (((reg &&& RF_DR_LOW) >>> 5) ||| ((reg &&& RF_DR_HIGH) >>> 2)) % 256 with
  | 0 => 0x01
  | 1 => 0x00
  | 2 => 0x02
  | _ => 0x03

def get_rf_datarate (H : Host σ) (s : nrf σ) : Nat × nrf σ :=
  let reg := spi_read_register H s RF_SETUP
  (datarate_code reg.2.1, reg.2.2)

def enable_rx_pipe (H : Host σ) (s : nrf σ) (pipe : nrf_address_t) (auto_ack : Bool) :
    nrf σ :=
  let reg := spi_read_register H s EN_RXADDR
  let s1 := (spi_write_register H reg.2.2 EN_RXADDR (reg.2.1 ||| BIT pipe.val)).2
  let reg2 := spi_read_register H s1 EN_AA
  if auto_ack then (spi_write_register H reg2.2.2 EN_AA (reg2.2.1 ||| BIT pipe.val)).2
  else (spi_write_register H reg2.2.2 EN_AA (reg2.2.1 &&& NOT (BIT pipe.val))).2

def disable_rx_pipe (H : Host σ) (s : nrf σ) (pipe : nrf_address_t) : nrf σ :=
  let reg := spi_read_register H s EN_RXADDR
  let s1 := (spi_write_register H reg.2.2 EN_RXADDR (reg.2.1 &&& NOT (BIT pipe.val))).2
  let reg2 := spi_read_register H s1 EN_AA
  (spi_write_register H reg2.2.2 EN_AA (reg2.2.1 &&& NOT (BIT pipe.val))).2

/-- `addr` is the caller's address buffer, least-significant byte first. -/
def set_rx_address (H : Host σ) (s : nrf σ) (pipe : nrf_address_t) (addr : Nat → Nat)
    (length : Nat) : nrf σ :=
  match pipe with
  | NRF_PIPE0 => (spi_write_multibyte_register H s (RX_ADDR_P0 + pipe.val) addr length).2
  | NRF_PIPE1 => (spi_write_multibyte_register H s (RX_ADDR_P0 + pipe.val) addr length).2
  | _ => (spi_write_register H s (RX_ADDR_P0 + pipe.val) (addr 0)).2

def set_static_payload_width (H : Host σ) (s : nrf σ) (pipe : nrf_address_t) (width : Nat) :
    nrf σ :=
  (spi_write_register H s (RX_PW_P0 + pipe.val) (width % 256 &&& 0x3F)).2

def get_static_payload_width (H : Host σ) (s : nrf σ) (pipe : nrf_address_t) : Nat × nrf σ :=
  let reg := spi_read_register H s (RX_PW_P0 + pipe.val)
  (reg.2.1, reg.2.2)

def set_tx_address (H : Host σ) (s : nrf σ) (addr : Nat → Nat) (length : Nat) : nrf σ :=
  (spi_write_multibyte_register H s TX_ADDR addr length).2

def get_data_source (H : Host σ) (s : nrf σ) : Nat × nrf σ :=
  let reg := get_status H s
  (((reg.1 &&& RX_P_NO) >>> 1) % 256, reg.2)

/-- The loop `while( !(nrf::available()) ){}`; `none` when the fuel runs out. -/
def wait_available (H : Host σ) : Nat → nrf σ → Option (nrf σ)
  | 0, _ => none
  | fuel + 1, s =>
    let a := available H s
    if a.1 then some a.2 else wait_available H fuel a.2

/-- The test `(millis() - currentTime) < timeout` on `unsigned long` (32 bits
on the AVR target) for a clock reading `now`. -/
def within_timeout (currentTime timeout now : Nat) : Bool :=
  decide ((now % 2 ^ 32 + 2 ^ 32 - currentTime % 2 ^ 32) % 2 ^ 32 < timeout % 2 ^ 32)

/-- The loop of `wait_available_timeout` over the readings `millis()` still has
to return; `none` when the readings run out before the loop ends. -/
def wait_available_timeout_loop (H : Host σ) (currentTime timeout : Nat) :
    List Nat → nrf σ → Option (Bool × nrf σ)
  | [], _ => none
  | now :: clock, s =>
    if within_timeout currentTime timeout now then
      let a := available H s
      if a.1 then some (true, a.2) else wait_available_timeout_loop H currentTime timeout clock a.2
    else some (false, s)

/-- `clock` is the sequence of values `millis()` returns, the first one being
the reading stored in `currentTime`. -/
def wait_available_timeout (H : Host σ) (s : nrf σ) (clock : List Nat) (timeout : Nat) :
    Option (Bool × nrf σ) :=
  match clock with
  | [] => none
  | currentTime :: rest => wait_available_timeout_loop H currentTime timeout rest s

/-- `_irq = irq; pinMode(_irq, INPUT);`: the member `_irq` is read by no
method and the pin is not the CE pin, so the modelled state is unchanged. -/
def set_irq_pin (s : nrf σ) (_irq : Nat) : nrf σ := s

/-- Consecutive `spi_read_register` calls whose values are only printed. -/
def read_registers (H : Host σ) : List Nat → nrf σ → nrf σ
  | [], s => s
  | a :: rest, s => read_registers H rest (spi_read_register H s a).2.2

/-- The bus traffic of `print_registers`; the output on `Serial` is not part
of the model.  The local `uint8_t buff[5]` receives `address_width` bytes in
the copy loop of `spi_read_multibyte_register`: when `address_width` exceeds 5
the first block read writes past the array, the behaviour is undefined and the
call has no resulting state (`none`). -/
def print_registers (H : Host σ) (s : nrf σ) : Option (nrf σ) :=
  let s1 := read_registers H [CONFIG, EN_AA, EN_RXADDR] s
  let reg := spi_read_register H s1 SETUP_AW
  let address_width := (reg.2.1 + 2) % 256
  let s2 := read_registers H [SETUP_RETR, RF_CH, RF_SETUP] reg.2.2
  let s3 := (get_status H s2).2
  let s4 := read_registers H [OBSERVE_TX, RPD] s3
  if 5 < address_width then none
  else
    let s5 := (spi_read_multibyte_register H s4 RX_ADDR_P0 (fun i => H.uninit s4.world i)
      address_width).2.2
    let s6 := (spi_read_multibyte_register H s5 RX_ADDR_P1 (fun i => H.uninit s5.world i)
      address_width).2.2
    let s7 := read_registers H [RX_ADDR_P2, RX_ADDR_P3, RX_ADDR_P4, RX_ADDR_P5] s6
    let s8 := (spi_read_multibyte_register H s7 TX_ADDR (fun i => H.uninit s7.world i)
      address_width).2.2
    some (read_registers H [RX_PW_P0, RX_PW_P1, RX_PW_P2, RX_PW_P3, RX_PW_P4, RX_PW_P5,
      FIFO_STATUS, DYNPD, FEATURE] s8)

/-- `print_buffer` only writes to `Serial`. -/
def print_buffer (s : nrf σ) (_buff : Nat → Nat) (_length : Nat) : nrf σ := s

/-! ## The public operations -/

/-- One call of a public method of the class (nrf.h), with its arguments; the
blocking methods carry their fuel or clock readings. -/
inductive Op
  | set_rf_channel (rf_channel : Nat)
  | get_rf_channel
  | set_rf_power (power : nrf_power_t)
  | get_rf_power
  | set_rf_datarate (speed : nrf_datarate_t)
  | get_rf_datarate
  | set_address_width (width : nrf_address_width_t)
  | get_address_width
  | enable_rx_pipe (pipe : nrf_address_t) (auto_ack : Bool)
  | disable_rx_pipe (pipe : nrf_address_t)
  | set_rx_address (pipe : nrf_address_t) (addr : Nat → Nat) (length : Nat)
  | set_static_payload_width (pipe : nrf_address_t) (width : Nat)
  | get_static_payload_width (pipe : nrf_address_t)
  | set_tx_address (addr : Nat → Nat) (length : Nat)
  | set_retr_param (retr_count retr_delay : Nat)
  | get_retr_param
  | set_crc_mode (crc_mode : nrf_crc_mode_t)
  | get_crc_mode
  | available
  | wait_available (fuel : Nat)
  | wait_available_timeout (clock : List Nat) (timeout : Nat)
  | write_tx_payload (buff : Nat → Nat) (length : Nat) (auto_ack : Bool)
  | read_received_payload (buff : Nat → Nat) (length : Nat)
  | wait_packet_sent (fuel : Nat)
  | set_irq_pin (irq : Nat)
  | set_int_source (int_source : nrf_int_source_t) (enable : Bool)
  | set_dynamic_payload (pipe : nrf_address_t) (dyn_pl : Bool)
  | clear_all_int_flags
  | clear_int_flag (int_source : nrf_int_source_t)
  | get_received_payload_width
  | get_data_source
  | set_mode (mode : nrf_operation_mode_t)
  | get_current_mode
  | retrieve_last_mode
  | print_registers
  | print_buffer (buff : Nat → Nat) (length : Nat)

/-- The driver state after a public operation returns; `none` when a blocking
operation does not return within its fuel or clock readings, or when the
operation runs into undefined behaviour (`print_registers`). -/
def run_op (H : Host σ) (op : Op) (s : nrf σ) : Option (nrf σ) :=
  match op with
  | Op.set_rf_channel c => some (set_rf_channel H s c)
  | Op.get_rf_channel => some (get_rf_channel H s).2
  | Op.set_rf_power p => some (set_rf_power H s p)
  | Op.get_rf_power => some (get_rf_power H s).2
  | Op.set_rf_datarate r => some (set_rf_datarate H s r)
  | Op.get_rf_datarate => some (get_rf_datarate H s).2
  | Op.set_address_width w => some (set_address_width H s w)
  | Op.get_address_width => some (get_address_width H s).2
  | Op.enable_rx_pipe p a => some (enable_rx_pipe H s p a)
  | Op.disable_rx_pipe p => some (disable_rx_pipe H s p)
  | Op.set_rx_address p addr n => some (set_rx_address H s p addr n)
  | Op.set_static_payload_width p w => some (set_static_payload_width H s p w)
  | Op.get_static_payload_width p => some (get_static_payload_width H s p).2
  | Op.set_tx_address addr n => some (set_tx_address H s addr n)
  | Op.set_retr_param c d => some (set_retr_param H s c d)
  | Op.get_retr_param => some (get_retr_param H s).2
  | Op.set_crc_mode m => some (set_crc_mode H s m)
  | Op.get_crc_mode => some (get_crc_mode H s).2
  | Op.available => some (available H s).2
  | Op.wait_available fuel => wait_available H fuel s
  | Op.wait_available_timeout clock t => (wait_available_timeout H s clock t).map Prod.snd
  | Op.write_tx_payload buff n a => some (write_tx_payload H s buff n a).2
  | Op.read_received_payload buff n => some (read_received_payload H s buff n).2.2.2
  | Op.wait_packet_sent fuel => (wait_packet_sent H fuel s).map Prod.snd
  | Op.set_irq_pin irq => some (set_irq_pin s irq)
  | Op.set_int_source src e => some (set_int_source H s src e)
  | Op.set_dynamic_payload p b => some (set_dynamic_payload H s p b)
  | Op.clear_all_int_flags => some (clear_all_int_flags H s)
  | Op.clear_int_flag src => some (clear_int_flag H s src)
  | Op.get_received_payload_width => some (get_received_payload_width H s).2
  | Op.get_data_source => some (get_data_source H s).2
  | Op.set_mode m => some (set_mode H s m)
  | Op.get_current_mode => some s
  | Op.retrieve_last_mode => some (retrieve_last_mode H s)
  | Op.print_registers => print_registers H s
  | Op.print_buffer buff n => some (print_buffer s buff n)

/-- The states reachable from the constructor, run on the world `w`, by any
sequence of public operations. -/
inductive reachable (H : Host σ) (w : σ) : nrf σ → Prop
  | construct : reachable H w (nrf_new H w)
  | step (s s1 : nrf σ) (op : Op) : reachable H w s → run_op H op s = some s1 →
      reachable H w s1

/-! ## Test doubles for the device -/

/-- A scripted device: the world is the list of bytes the device will clock
out, one per byte exchanged on the bus (0 once the script is exhausted). -/
def ScriptHost : Host (List Nat) where
  csn_write w _ := w
  transfer w _ := (w.tail, w.headD 0)
  uninit _ _ := 0

/-- A driver object in front of a scripted device, CE at `ce`, empty trace. -/
def scripted (script : List Nat) (ce : Bool) : nrf (List Nat) :=
  { world := script, ce_level := ce, _last_mode := NRF_POWER_DOWN,
    _current_mode := NRF_POWER_DOWN, trace := [] }

/-- Position of the simulated device within one chip-select window. -/
inductive SimPhase
  | command
  | write_reg (addr : Nat)
  | read_reg (addr : Nat)
  | ignore
  deriving DecidableEq

/-- Modelled from the spec: the simulated register file of the design notes
("a mapping from address to byte, standing in for the physical device"); the
repository has no simulator.  `regs` maps a 5-bit register address to its
byte; `phase` follows the command framing of the external-interface section. -/
structure SimDevice where
  regs : Nat → Nat
  phase : SimPhase

/-- Modelled from the spec: one byte exchanged with the simulated register
file.  The first byte after chip-select is the command (`0x00 | addr` reads,
`0x20 | addr` writes, anything else carries no register data) and is answered
with the status register; the next byte is the register data. -/
def sim_transfer (d : SimDevice) (b : Nat) : SimDevice × Nat :=
  match d.phase with
  | SimPhase.command =>
    if b &&& 0xE0 = W_REGISTER then
      ({ d with phase := SimPhase.write_reg (b &&& 0x1F) }, d.regs STATUS)
    else if b &&& 0xE0 = R_REGISTER then
      ({ d with phase := SimPhase.read_reg (b &&& 0x1F) }, d.regs STATUS)
    else ({ d with phase := SimPhase.ignore }, d.regs STATUS)
  | SimPhase.write_reg a =>
    ({ regs := fun r => if r = a then b else d.regs r, phase := SimPhase.ignore }, 0)
  | SimPhase.read_reg a => (d, d.regs a)
  | SimPhase.ignore => (d, 0)

/-- Modelled from the spec: the simulated register file as a host; driving
chip-select low starts a new command, `junk` is the stack garbage. -/
def SimHost (junk : Nat → Nat) : Host SimDevice where
  csn_write d level := if level then d else { d with phase := SimPhase.command }
  transfer := sim_transfer
  uninit _ i := junk i

/-! ## Vocabulary for the transmission scenarios -/

/-- Driver state after `n` consecutive status reads (`get_status`). -/
def status_reads (H : Host σ) : Nat → nrf σ → nrf σ
  | 0, s => s
  | n + 1, s => status_reads H n (get_status H s).2

/-- One "data sent" event as the driver sees it from state `s`: the first `n`
status reads show neither TX_DS nor MAX_RT, the next one shows a flag, and the
status read after that shows MAX_RT clear. -/
def data_sent_after (H : Host σ) (n : Nat) (s : nrf σ) : Prop :=
  (∀ i, i < n → (get_status H (status_reads H i s)).1 &&& 0x30 = 0) ∧
  (get_status H (status_reads H n s)).1 &&& 0x30 ≠ 0 ∧
  (get_status H (status_reads H (n + 1) s)).1 &&& 0x10 = 0

/-- The FIFO_STATUS byte read after that event's TX_DS flag was cleared, and
the driver state at that point. -/
def fifo_after_clear (H : Host σ) (n : Nat) (s : nrf σ) : Nat × nrf σ :=
  get_fifo_status H (clear_int_flag H (status_reads H (n + 2) s) NRF_TX_DS)

/-- The device reports one data-sent event per element of the list (each after
the given number of idle status reads) and never MAX_RT; FIFO_STATUS shows
TX_EMPTY clear after every clearing of TX_DS but the last, and set after the
last. -/
def sends_all (H : Host σ) : List Nat → nrf σ → Prop
  | [], _ => False
  | [n], s => data_sent_after H n s ∧ (fifo_after_clear H n s).1 &&& 0x10 ≠ 0
  | n :: m :: ns, s =>
    data_sent_after H n s ∧ (fifo_after_clear H n s).1 &&& 0x10 = 0 ∧
      sends_all H (m :: ns) (fifo_after_clear H n s).2

/-- Data bytes of the writes to the STATUS register (`[0x27, v]`) in a trace. -/
def status_writes (evs : List Event) : List Nat :=
  evs.filterMap fun e =>
    match e with
    | Event.spi [c, v] => if c = 0x27 then some v else none
    | _ => none

/-! ## Vocabulary for the mode controller -/

/-- An event is a settling delay (`delay` or `delayMicroseconds`). -/
def is_delay : Event → Bool
  | Event.delay _ => true
  | Event.delayMicroseconds _ => true
  | _ => false

/-- The settling-delay table as the specification words it: 5 ms when leaving
PowerDown for Standby, RX or TX; 150 µs when leaving Standby for RX or TX;
nothing in every other case. -/
def settling_delay_table (src dst : nrf_operation_mode_t) : List Event :=
  match src, dst with
  | NRF_POWER_DOWN, NRF_STANDBY => [Event.delay 5]
  | NRF_POWER_DOWN, NRF_RX_MODE => [Event.delay 5]
  | NRF_POWER_DOWN, NRF_TX_MODE => [Event.delay 5]
  | NRF_STANDBY, NRF_RX_MODE => [Event.delayMicroseconds 150]
  | NRF_STANDBY, NRF_TX_MODE => [Event.delayMicroseconds 150]
  | _, _ => []

/-! ## Vocabulary for the configuration and flag claims -/

/-- The STATUS flag of an interrupt source as the specification lists them:
RX_DR is 0x40, TX_DS is 0x20, MAX_RT is 0x10. -/
def flag_bit : nrf_int_source_t → Nat
  | NRF_RX_DR => 0x40
  | NRF_TX_DS => 0x20
  | NRF_MAX_RT => 0x10

/-- The CONFIG mask bit of an interrupt source as the specification lists
them: bit 6 for RX_DR, bit 5 for TX_DS, bit 4 for MAX_RT. -/
def mask_bit : nrf_int_source_t → Nat
  | NRF_RX_DR => 2 ^ 6
  | NRF_TX_DS => 2 ^ 5
  | NRF_MAX_RT => 2 ^ 4

/-- Number of address bytes an enumerator of `nrf_address_width_t` stands for. -/
def address_bytes : nrf_address_width_t → Nat
  | NRF_AW_3BYTES => 3
  | NRF_AW_4BYTES => 4
  | NRF_AW_5BYTES => 5

/-- Modelled from the spec: the write-1-to-clear semantics of the status
register, which belongs to the chip and not to the repository.  A write of
`written` to a status register holding `status` clears each of the three
sticky flags (0x70) whose bit is 1 in `written` and keeps every other bit. -/
def write_one_to_clear (status written : Nat) : Nat :=
  status &&& (0xFF ^^^ (written &&& 0x70))

/-! ## Vocabulary for the timed wait -/

/-- Driver state after `n` consecutive reads of FIFO_STATUS. -/
def fifo_polls (H : Host σ) : Nat → nrf σ → nrf σ
  | 0, s => s
  | n + 1, s => fifo_polls H n (get_fifo_status H s).2

/-- Modelled from the spec: the time elapsed at a clock reading, worded as
`(reading - start) mod 2^32`; the difference is taken over the integers, so a
clock that wrapped past `start` gives the distance travelled. -/
def elapsed (start reading : Nat) : Int :=
  ((reading : Int) - (start : Int)) % 2 ^ 32

/-- Modelled from the spec: among the clock readings `clock` that follow the
start reading, the readings `0..k` all have `(reading - start) mod 2^32 < t`,
the polls made after the readings `0..k-1` reported RX_EMPTY set, and the poll
made after reading `k` reported RX_EMPTY clear. -/
def packet_at_poll (H : Host σ) (start t : Nat) (clock : List Nat) (s : nrf σ)
    (k : Nat) : Prop :=
  k < clock.length ∧
  (∀ i, i ≤ k → elapsed start (clock.getD i 0) < (t : Int)) ∧
  (∀ i, i < k → (get_fifo_status H (fifo_polls H i s)).1 &&& 0x01 ≠ 0) ∧
  (get_fifo_status H (fifo_polls H k s)).1 &&& 0x01 = 0

/-- Modelled from the spec: reading `k` is the first clock reading with
`(reading - start) mod 2^32 >= t`, and every poll made before it reported
RX_EMPTY set. -/
def timeout_at_reading (H : Host σ) (start t : Nat) (clock : List Nat) (s : nrf σ)
    (k : Nat) : Prop :=
  k < clock.length ∧
  (∀ i, i < k → elapsed start (clock.getD i 0) < (t : Int) ∧
    (get_fifo_status H (fifo_polls H i s)).1 &&& 0x01 ≠ 0) ∧
  (t : Int) ≤ elapsed start (clock.getD k 0)

/-! ## Vocabulary for the mode invariant -/

/-- The tracked current mode agrees with the hardware configuration of the
simulated device, as the specification words it: PowerDown, PWR_UP clear and
CE low; Standby, PWR_UP set and CE low; RX, PWR_UP and PRIM_RX set and CE high;
TX, PWR_UP set, PRIM_RX clear and CE high. -/
def mode_agrees (s : nrf SimDevice) : Prop :=
  match s._current_mode with
  | NRF_POWER_DOWN => s.world.regs CONFIG &&& 0x02 = 0 ∧ s.ce_level = false
  | NRF_STANDBY => s.world.regs CONFIG &&& 0x02 = 0x02 ∧ s.ce_level = false
  | NRF_RX_MODE =>
    s.world.regs CONFIG &&& 0x02 = 0x02 ∧ s.world.regs CONFIG &&& 0x01 = 0x01 ∧
      s.ce_level = true
  | NRF_TX_MODE =>
    s.world.regs CONFIG &&& 0x02 = 0x02 ∧ s.world.regs CONFIG &&& 0x01 = 0 ∧
      s.ce_level = true

/-- An operation left the CONFIG register, the CE level and the tracked
current mode as they were. -/
def config_frame (s s1 : nrf SimDevice) : Prop :=
  s1.world.regs CONFIG = s.world.regs CONFIG ∧ s1.ce_level = s.ce_level ∧
  s1._current_mode = s._current_mode

/-! ## Basic facts about the bus primitive -/

theorem spi_loop_length (H : Host σ) (w : σ) (l : List Nat) :
    (spi_loop H w l).2.length = l.length := by
  induction l generalizing w with
  | nil => rfl
  | cons b bs ih => simp [spi_loop, ih]

theorem spi_loop_byte (H : Host σ) (w : σ) (l : List Nat) (i d : Nat) (hi : i < l.length) :
    (spi_loop H w l).2.getD i d < 256 := by
  induction l generalizing w i with
  | nil => simp at hi
  | cons b bs ih =>
    cases i with
    | zero => simp [spi_loop]; omega
    | succ j =>
      simp only [spi_loop, List.getD_cons_succ]
      exact ih _ j (by simpa using hi)

@[simp] theorem spi_transfer_trace (H : Host σ) (s : nrf σ) (data : List Nat) (n : Nat) :
    (spi_transfer H s data n).1.trace = s.trace ++ [Event.spi (data.take (n % 256))] := rfl

@[simp] theorem spi_transfer_ce (H : Host σ) (s : nrf σ) (data : List Nat) (n : Nat) :
    (spi_transfer H s data n).1.ce_level = s.ce_level := rfl

@[simp] theorem spi_transfer_current (H : Host σ) (s : nrf σ) (data : List Nat) (n : Nat) :
    (spi_transfer H s data n).1._current_mode = s._current_mode := rfl

@[simp] theorem spi_transfer_last (H : Host σ) (s : nrf σ) (data : List Nat) (n : Nat) :
    (spi_transfer H s data n).1._last_mode = s._last_mode := rfl

/-- Every byte of the reply of a full-length transaction is a byte. -/
theorem spi_transfer_byte (H : Host σ) (s : nrf σ) (data : List Nat) (i d : Nat)
    (hi : i < data.length) (hn : data.length < 256) :
    (spi_transfer H s data data.length).2.getD i d < 256 := by
  have hlen : data.length % 256 = data.length := Nat.mod_eq_of_lt hn
  simp only [spi_transfer, hlen, List.take_length, List.drop_length, List.append_nil]
  exact spi_loop_byte H _ data i d hi

theorem get_status_byte (H : Host σ) (s : nrf σ) : (get_status H s).1 < 256 :=
  spi_transfer_byte H s [NOP] 0 0 (by simp) (by simp)

theorem get_fifo_status_byte (H : Host σ) (s : nrf σ) : (get_fifo_status H s).1 < 256 :=
  spi_transfer_byte H s [_, _] 1 0 (by simp) (by simp)

theorem get_received_payload_width_byte (H : Host σ) (s : nrf σ) :
    (get_received_payload_width H s).1 < 256 :=
  spi_transfer_byte H s [_, _] 1 0 (by simp) (by simp)

@[simp] theorem get_status_trace (H : Host σ) (s : nrf σ) :
    (get_status H s).2.trace = s.trace ++ [Event.spi [0xFF]] := rfl

@[simp] theorem get_fifo_status_trace (H : Host σ) (s : nrf σ) :
    (get_fifo_status H s).2.trace = s.trace ++ [Event.spi [0x17, H.uninit s.world 1 % 256]] := rfl

@[simp] theorem get_received_payload_width_trace (H : Host σ) (s : nrf σ) :
    (get_received_payload_width H s).2.trace
      = s.trace ++ [Event.spi [0x60, H.uninit s.world 1 % 256]] := rfl

@[simp] theorem flush_rx_fifo_trace (H : Host σ) (s : nrf σ) :
    (flush_rx_fifo H s).trace = s.trace ++ [Event.spi [0xE2]] := rfl

@[simp] theorem flush_tx_fifo_trace (H : Host σ) (s : nrf σ) :
    (flush_tx_fifo H s).trace = s.trace ++ [Event.spi [0xE1]] := rfl

@[simp] theorem spi_write_register_trace (H : Host σ) (s : nrf σ) (a v : Nat) :
    (spi_write_register H s a v).2.trace
      = s.trace ++ [Event.spi [(0x20 ||| (a % 256 &&& 0x1F)) % 256, v % 256]] := rfl

@[simp] theorem spi_read_register_trace (H : Host σ) (s : nrf σ) (a : Nat) :
    (spi_read_register H s a).2.2.trace
      = s.trace ++ [Event.spi [(0x00 ||| (a % 256 &&& 0x1F)) % 256, H.uninit s.world 1 % 256]] := rfl

theorem clear_int_flag_trace (H : Host σ) (s : nrf σ) (src : nrf_int_source_t) :
    (clear_int_flag H s src).trace = s.trace ++ [Event.spi [0xFF], Event.spi [0x27,
      ((get_status H s).1 ||| (match src with
        | NRF_RX_DR => RX_DR | NRF_TX_DS => TX_DS | NRF_MAX_RT => MAX_RT)) % 256]] := by
  cases src <;> simp [clear_int_flag] <;> rfl

/-- Setting one bit of a byte with `|` leaves that bit set after the store. -/
theorem or_bit_stored (x k : Nat) (hk : k < 8) : ((x ||| 2 ^ k) % 256) &&& 2 ^ k = 2 ^ k := by
  apply Nat.eq_of_testBit_eq
  intro i
  have h : (256 : Nat) = 2 ^ 8 := by norm_num
  rw [h]
  simp only [Nat.testBit_and, Nat.testBit_mod_two_pow, Nat.testBit_or, Nat.testBit_two_pow]
  by_cases hi : k = i
  · subst hi; simp [hk]
  · simp [hi]

theorem spi_transfer_length (H : Host σ) (s : nrf σ) (data : List Nat) (n : Nat) :
    (spi_transfer H s data n).2.length = data.length := by
  simp only [spi_transfer, List.length_append, spi_loop_length, List.length_take,
    List.length_drop]
  omega

/-! ## Receiving a payload -/

/-- C1: when the RX FIFO is not empty and the device reports a payload width
above 32, `read_received_payload` returns false, leaves the caller's buffer
untouched, and its bus traffic is exactly: FIFO_STATUS read, width query
(0x60), FLUSH_RX (0xE2), status read, write of STATUS with RX_DR (0x40) set;
no read-RX-payload command (0x61) is issued. -/
theorem read_received_payload_corrupt_width (H : Host σ) (s : nrf σ) (buff : Nat → Nat)
    (length : Nat)
    (h_avail : (get_fifo_status H s).1 &&& RX_EMPTY = 0)
    (h_width : 32 < (get_received_payload_width H (get_fifo_status H s).2).1) :
    (read_received_payload H s buff length).1 = false ∧
    (read_received_payload H s buff length).2.1 = buff ∧
    ∃ j1 j2 st, st &&& 0x40 = 0x40 ∧
      (read_received_payload H s buff length).2.2.2.trace = s.trace ++
        [Event.spi [0x17, j1], Event.spi [0x60, j2], Event.spi [0xE2], Event.spi [0xFF],
         Event.spi [0x27, st]] := by
  have hb := get_received_payload_width_byte H (get_fifo_status H s).2
  have hm : (get_received_payload_width H (get_fifo_status H s).2).1 % 256
      = (get_received_payload_width H (get_fifo_status H s).2).1 := Nat.mod_eq_of_lt hb
  refine ⟨?_, ?_, H.uninit s.world 1 % 256, H.uninit (get_fifo_status H s).2.world 1 % 256,
    ((get_status H (flush_rx_fifo H
      (get_received_payload_width H (get_fifo_status H s).2).2)).1 ||| RX_DR) % 256, ?_, ?_⟩
  · simp [read_received_payload, available, h_avail, hm, h_width]
  · simp [read_received_payload, available, h_avail, hm, h_width]
  · exact or_bit_stored _ 6 (by norm_num)
  · simp [read_received_payload, available, h_avail, hm, h_width, clear_int_flag_trace]

theorem read_received_payload_corrupt_width_witness :
    (get_fifo_status ScriptHost (scripted [0x40, 0x00, 0x40, 33, 0, 0x4E, 0] true)).1
      &&& RX_EMPTY = 0 ∧
    (read_received_payload ScriptHost (scripted [0x40, 0x00, 0x40, 33, 0, 0x4E, 0] true)
      (fun _ => 0xAA) 0).1 = false :=
  ⟨by decide, (read_received_payload_corrupt_width ScriptHost
    (scripted [0x40, 0x00, 0x40, 33, 0, 0x4E, 0] true) (fun _ => 0xAA) 0
    (by decide) (by decide)).1⟩

/-- C2 (as stated) fails: with the length output holding 0 at entry and a
device that reports width 33, the call returns false and has stored 33 in the
caller's length output. -/
theorem read_received_payload_stores_corrupt_width :
    (read_received_payload ScriptHost (scripted [0x40, 0x00, 0x40, 33, 0, 0x4E, 0] true)
      (fun _ => 0) 0).1 = false ∧
    (read_received_payload ScriptHost (scripted [0x40, 0x00, 0x40, 33, 0, 0x4E, 0] true)
      (fun _ => 0) 0).2.2.1 = 33 ∧
    ¬ (read_received_payload ScriptHost (scripted [0x40, 0x00, 0x40, 33, 0, 0x4E, 0] true)
      (fun _ => 0) 0).2.2.1 ≤ 32 := by
  decide

/-- C2 (amended): whenever `read_received_payload` returns true, the value in
the caller's length output is at most 32. -/
theorem read_received_payload_length_le (H : Host σ) (s : nrf σ) (buff : Nat → Nat)
    (length : Nat) (h_ok : (read_received_payload H s buff length).1 = true) :
    (read_received_payload H s buff length).2.2.1 ≤ 32 := by
  unfold read_received_payload at h_ok ⊢
  by_cases ha : (available H s).1 = true
  · by_cases hw : (get_received_payload_width H (available H s).2).1 % 256 > 32
    · simp [ha, hw] at h_ok
    · simp only [ha, hw]
      simp only [Bool.not_true, Bool.false_eq_true, if_false]
      omega
  · simp [ha] at h_ok

theorem read_received_payload_length_le_witness :
    (read_received_payload ScriptHost (scripted [0x40, 0x00, 0x40, 2, 0x40, 0x11, 0x22] true)
      (fun _ => 0) 0).1 = true ∧
    (read_received_payload ScriptHost (scripted [0x40, 0x00, 0x40, 2, 0x40, 0x11, 0x22] true)
      (fun _ => 0) 0).2.2.1 ≤ 32 :=
  ⟨by decide, read_received_payload_length_le ScriptHost
    (scripted [0x40, 0x00, 0x40, 2, 0x40, 0x11, 0x22] true) (fun _ => 0) 0 (by decide)⟩

/-- C7: when the RX FIFO is not empty and the device reports a width `w ≤ 32`,
`read_received_payload` returns true with length output `w`; after the
FIFO_STATUS read and the width query it issues one transaction of `w + 1`
bytes starting with 0x61, copies reply bytes `1..w` to `buff[0..w)` and leaves
`buff` unchanged from index `w` on. -/
theorem read_received_payload_ok (H : Host σ) (s : nrf σ) (buff : Nat → Nat) (length : Nat)
    (h_avail : (get_fifo_status H s).1 &&& RX_EMPTY = 0)
    (h_width : (get_received_payload_width H (get_fifo_status H s).2).1 ≤ 32) :
    (read_received_payload H s buff length).1 = true ∧
    (read_received_payload H s buff length).2.2.1
      = (get_received_payload_width H (get_fifo_status H s).2).1 ∧
    ∃ j1 j2 sent reply,
      sent.length = (get_received_payload_width H (get_fifo_status H s).2).1 + 1 ∧
      sent.head? = some 0x61 ∧
      reply.length = sent.length ∧
      spi_transfer H (get_received_payload_width H (get_fifo_status H s).2).2 sent sent.length
        = ((read_received_payload H s buff length).2.2.2, reply) ∧
      (read_received_payload H s buff length).2.2.2.trace = s.trace ++
        [Event.spi [0x17, j1], Event.spi [0x60, j2], Event.spi sent] ∧
      (∀ i, i < (get_received_payload_width H (get_fifo_status H s).2).1 →
        (read_received_payload H s buff length).2.1 i = reply.getD (i + 1) 0) ∧
      (∀ i, (get_received_payload_width H (get_fifo_status H s).2).1 ≤ i →
        (read_received_payload H s buff length).2.1 i = buff i) := by
  have hb := get_received_payload_width_byte H (get_fifo_status H s).2
  have hm : (get_received_payload_width H (get_fifo_status H s).2).1 % 256
      = (get_received_payload_width H (get_fifo_status H s).2).1 := Nat.mod_eq_of_lt hb
  have hw : ¬ 32 < (get_received_payload_width H (get_fifo_status H s).2).1 := by omega
  generalize hwd : get_received_payload_width H (get_fifo_status H s).2 = wd at *
  have hr : read_received_payload H s buff length =
      (true, (fun i => if i < wd.1 then (spi_transfer H wd.2 (R_RX_PAYLOAD ::
          (List.range wd.1).map (fun i => H.uninit wd.2.world (i + 1) % 256)) (wd.1 + 1)).2.getD
            (i + 1) 0 else buff i), wd.1,
        (spi_transfer H wd.2 (R_RX_PAYLOAD ::
          (List.range wd.1).map (fun i => H.uninit wd.2.world (i + 1) % 256)) (wd.1 + 1)).1) := by
    simp [read_received_payload, available, h_avail, hwd, hm, hw]
  rw [hr]
  have hlen : (R_RX_PAYLOAD ::
      (List.range wd.1).map (fun i => H.uninit wd.2.world (i + 1) % 256)).length = wd.1 + 1 := by
    simp
  refine ⟨rfl, rfl, H.uninit s.world 1 % 256, H.uninit (get_fifo_status H s).2.world 1 % 256,
    R_RX_PAYLOAD :: (List.range wd.1).map (fun i => H.uninit wd.2.world (i + 1) % 256),
    (spi_transfer H wd.2 (R_RX_PAYLOAD ::
      (List.range wd.1).map (fun i => H.uninit wd.2.world (i + 1) % 256)) (wd.1 + 1)).2,
    hlen, rfl, ?_, ?_, ?_, ?_, ?_⟩
  · rw [spi_transfer_length]
  · rw [hlen]
  · have h256 : (wd.1 + 1) % 256 = wd.1 + 1 := Nat.mod_eq_of_lt (by omega)
    have htake : List.take (wd.1 + 1) (R_RX_PAYLOAD ::
        (List.range wd.1).map (fun i => H.uninit wd.2.world (i + 1) % 256))
        = R_RX_PAYLOAD :: (List.range wd.1).map (fun i => H.uninit wd.2.world (i + 1) % 256) := by
      rw [← hlen, List.take_length]
    have hs : wd.2.trace = s.trace ++ [Event.spi [0x17, H.uninit s.world 1 % 256],
        Event.spi [0x60, H.uninit (get_fifo_status H s).2.world 1 % 256]] := by
      rw [← hwd]; simp
    simp only [spi_transfer_trace, h256, htake, hs, List.append_assoc, List.cons_append,
      List.nil_append]
  · intro i hi
    simp only [hi, if_true]
  · intro i hi
    have : ¬ i < wd.1 := by omega
    simp only [this, if_false]

theorem read_received_payload_ok_witness :
    (get_fifo_status ScriptHost (scripted [0x40, 0x00, 0x40, 2, 0x40, 0x11, 0x22] true)).1
      &&& RX_EMPTY = 0 ∧
    (read_received_payload ScriptHost (scripted [0x40, 0x00, 0x40, 2, 0x40, 0x11, 0x22] true)
      (fun _ => 0) 0).2.2.1 = 2 :=
  ⟨by decide, (read_received_payload_ok ScriptHost
    (scripted [0x40, 0x00, 0x40, 2, 0x40, 0x11, 0x22] true) (fun _ => 0) 0
    (by decide) (by decide)).2.1⟩

/-! ## Submitting a payload -/

/-- C6: for a payload of `n ≤ 32` bytes, `write_tx_payload` first reads
FIFO_STATUS; if TX_FIFO_FULL (bit 5) is set it returns false with no further
transaction; otherwise it returns true after exactly one more transaction of
`n + 1` bytes: 0xA0 (auto_ack) or 0xB0 (no ack), then the payload in order. -/
theorem write_tx_payload_spec (H : Host σ) (s : nrf σ) (buff : Nat → Nat) (n : Nat)
    (auto_ack : Bool) (hn : n ≤ 32) (h_bytes : ∀ i, i < n → buff i < 256) :
    ((get_fifo_status H s).1 &&& 0x20 ≠ 0 →
      (write_tx_payload H s buff n auto_ack).1 = false ∧
      (write_tx_payload H s buff n auto_ack).2 = (get_fifo_status H s).2 ∧
      (write_tx_payload H s buff n auto_ack).2.trace
        = s.trace ++ [Event.spi [0x17, H.uninit s.world 1 % 256]]) ∧
    ((get_fifo_status H s).1 &&& 0x20 = 0 →
      (write_tx_payload H s buff n auto_ack).1 = true ∧
      ((if auto_ack then 0xA0 else 0xB0) :: (List.range n).map buff).length = n + 1 ∧
      (write_tx_payload H s buff n auto_ack).2.trace
        = s.trace ++ [Event.spi [0x17, H.uninit s.world 1 % 256],
            Event.spi ((if auto_ack then 0xA0 else 0xB0) :: (List.range n).map buff)]) := by
  have hfull : TX_FIFO_FULL = 0x20 := by decide
  have hmap : (List.range n).map (fun i => buff i % 256) = (List.range n).map buff := by
    apply List.map_congr_left
    intro i hi
    exact Nat.mod_eq_of_lt (h_bytes i (List.mem_range.mp hi))
  have hn256 : n % 256 = n := Nat.mod_eq_of_lt (by omega)
  have h256 : (n + 1) % 256 = n + 1 := Nat.mod_eq_of_lt (by omega)
  constructor
  · intro hf
    simp [write_tx_payload, hfull, hf]
  · intro hf
    refine ⟨by simp [write_tx_payload, hfull, hf], by simp, ?_⟩
    have htake : ∀ c : Nat, List.take (n + 1) (c :: (List.range n).map buff)
        = c :: (List.range n).map buff := by
      intro c
      apply List.take_of_length_le
      simp
    cases auto_ack <;>
      simp [write_tx_payload, hfull, hf, hn256, h256, hmap, htake, W_TX_PAYLOAD,
        W_TX_PAYLOAD_NOACK]

theorem write_tx_payload_spec_witness :
    (write_tx_payload ScriptHost (scripted [0x0E, 0x11, 0x0E, 0, 0, 0] true)
      (fun i => i + 1) 3 false).2.trace
      = [Event.spi [0x17, 0], Event.spi [0xB0, 1, 2, 3]] :=
  ((write_tx_payload_spec ScriptHost (scripted [0x0E, 0x11, 0x0E, 0, 0, 0] true)
    (fun i => i + 1) 3 false (by decide) (by intro i hi; show i + 1 < 256; omega)).2
    (by decide)).2.2

/-! ## Waiting for the end of a transmission -/

set_option maxRecDepth 100000 in
/-- The entry test of `wait_packet_sent` on a CONFIG byte `c` and CE level. -/
theorem entry_test_iff (c : Nat) (hc : c < 256) (ce : Bool) :
    ((c &&& PRIM_RX) ||| (if ce then 0 else 1) ||| (if c &&& PWR_UP = 0 then 1 else 0)) ≠ 0
      ↔ (c &&& 0x01 ≠ 0 ∨ c &&& 0x02 = 0 ∨ ce = false) := by
  revert c ce
  decide

theorem spi_read_register_byte (H : Host σ) (s : nrf σ) (a : Nat) :
    (spi_read_register H s a).2.1 < 256 :=
  spi_transfer_byte H s [_, _] 1 0 (by simp) (by simp)

theorem wait_flag_first_event (H : Host σ) (fuel : Nat) (s s1 : nrf σ)
    (h : wait_flag H fuel s = some s1) :
    ∃ rest, s1.trace = s.trace ++ Event.spi [0xFF] :: rest := by
  induction fuel generalizing s with
  | zero => simp [wait_flag] at h
  | succ f ih =>
    simp only [wait_flag] at h
    split at h
    · obtain ⟨rest, hr⟩ := ih _ h
      exact ⟨Event.spi [0xFF] :: rest, by simp [hr]⟩
    · injection h with h
      exact ⟨[], by simp [← h]⟩

theorem wait_packet_sent_loop_first_event (H : Host σ) (fuel : Nat) (s : nrf σ)
    (r : Bool × nrf σ) (h : wait_packet_sent_loop H fuel s = some r) :
    ∃ rest, r.2.trace = s.trace ++ Event.spi [0xFF] :: rest := by
  induction fuel generalizing s with
  | zero => simp [wait_packet_sent_loop] at h
  | succ f ih =>
    simp only [wait_packet_sent_loop] at h
    split at h
    · exact absurd h (by simp)
    · rename_i s1 hs1
      obtain ⟨rest1, hr1⟩ := wait_flag_first_event H _ s s1 hs1
      split at h
      · injection h with h
        exact ⟨rest1 ++ [Event.spi [0xFF], Event.spi [0xFF], Event.spi [0x27,
          ((get_status H (get_status H s1).2).1 ||| MAX_RT) % 256], Event.spi [0xE1]],
          by simp [← h, clear_int_flag_trace, hr1]⟩
      · split at h
        · obtain ⟨rest, hr⟩ := ih _ h
          refine ⟨rest1 ++ Event.spi [0xFF] :: Event.spi [0xFF] :: Event.spi [0x27,
            ((get_status H (get_status H s1).2).1 ||| TX_DS) % 256] :: Event.spi [0x17,
            H.uninit (clear_int_flag H (get_status H s1).2 NRF_TX_DS).world 1 % 256] ::
            Event.spi [0xFF] :: rest, ?_⟩
          simp [hr, clear_int_flag_trace, hr1]
        · injection h with h
          refine ⟨rest1 ++ [Event.spi [0xFF], Event.spi [0xFF], Event.spi [0x27,
            ((get_status H (get_status H s1).2).1 ||| TX_DS) % 256], Event.spi [0x17,
            H.uninit (clear_int_flag H (get_status H s1).2 NRF_TX_DS).world 1 % 256]], ?_⟩
          simp [← h, clear_int_flag_trace, hr1]

theorem wait_packet_sent_not_tx (H : Host σ) (fuel : Nat) (s : nrf σ)
    (h : (spi_read_register H s CONFIG).2.1 &&& 0x01 ≠ 0 ∨
      (spi_read_register H s CONFIG).2.1 &&& 0x02 = 0 ∨ s.ce_level = false) :
    wait_packet_sent H fuel s = some (false, (spi_read_register H s CONFIG).2.2) := by
  have hce : (spi_read_register H s CONFIG).2.2.ce_level = s.ce_level := rfl
  have ht := entry_test_iff _ (spi_read_register_byte H s CONFIG) s.ce_level
  simp only [wait_packet_sent, hce]
  rw [if_pos (ht.mpr h)]

theorem wait_packet_sent_tx (H : Host σ) (fuel : Nat) (s : nrf σ)
    (h : ¬ ((spi_read_register H s CONFIG).2.1 &&& 0x01 ≠ 0 ∨
      (spi_read_register H s CONFIG).2.1 &&& 0x02 = 0 ∨ s.ce_level = false)) :
    wait_packet_sent H fuel s
      = wait_packet_sent_loop H fuel (spi_read_register H s CONFIG).2.2 := by
  have hce : (spi_read_register H s CONFIG).2.2.ce_level = s.ce_level := rfl
  have ht := entry_test_iff _ (spi_read_register_byte H s CONFIG) s.ce_level
  simp only [wait_packet_sent, hce]
  rw [if_neg (fun hh => h (ht.mp hh))]

/-- C5: `wait_packet_sent` reads CONFIG once.  If PRIM_RX is set, PWR_UP is
clear or CE is low, it returns false at once — for any fuel, the CONFIG read
being its only bus transaction.  Otherwise it enters the polling loop: any
result it gives is preceded by a status poll after the CONFIG read. -/
theorem wait_packet_sent_entry (H : Host σ) (fuel : Nat) (s : nrf σ) :
    (((spi_read_register H s CONFIG).2.1 &&& 0x01 ≠ 0 ∨
      (spi_read_register H s CONFIG).2.1 &&& 0x02 = 0 ∨ s.ce_level = false) →
        wait_packet_sent H fuel s = some (false, (spi_read_register H s CONFIG).2.2) ∧
        (spi_read_register H s CONFIG).2.2.trace
          = s.trace ++ [Event.spi [0x00, H.uninit s.world 1 % 256]]) ∧
    (¬ ((spi_read_register H s CONFIG).2.1 &&& 0x01 ≠ 0 ∨
      (spi_read_register H s CONFIG).2.1 &&& 0x02 = 0 ∨ s.ce_level = false) →
        wait_packet_sent H fuel s
          = wait_packet_sent_loop H fuel (spi_read_register H s CONFIG).2.2 ∧
        ∀ r, wait_packet_sent H fuel s = some r → ∃ rest, r.2.trace
          = s.trace ++ Event.spi [0x00, H.uninit s.world 1 % 256] :: Event.spi [0xFF] :: rest) := by
  constructor
  · intro h
    exact ⟨wait_packet_sent_not_tx H fuel s h, rfl⟩
  · intro h
    have hloop := wait_packet_sent_tx H fuel s h
    refine ⟨hloop, ?_⟩
    intro r hr
    rw [hloop] at hr
    obtain ⟨rest, hrest⟩ := wait_packet_sent_loop_first_event H fuel _ r hr
    refine ⟨rest, ?_⟩
    rw [hrest]
    have : (spi_read_register H s CONFIG).2.2.trace
        = s.trace ++ [Event.spi [0x00, H.uninit s.world 1 % 256]] := rfl
    rw [this]
    simp

theorem wait_packet_sent_entry_witness :
    wait_packet_sent ScriptHost 0 (scripted [0x0E, 0x0B] true)
      = some (false, (spi_read_register ScriptHost (scripted [0x0E, 0x0B] true) CONFIG).2.2) :=
  ((wait_packet_sent_entry ScriptHost 0 (scripted [0x0E, 0x0B] true)).1
    (Or.inl (by decide))).1

set_option maxRecDepth 100000 in
theorem flag_of_max_rt (st : Nat) (hst : st < 256) (h : st &&& 0x10 ≠ 0) :
    st &&& (TX_DS ||| MAX_RT) ≠ 0 ∧ st &&& MAX_RT ≠ 0 := by
  revert st
  decide

/-- C3: in transmit configuration (PWR_UP set, PRIM_RX clear, CE high), if the
status reads that follow the CONFIG read show MAX_RT — whatever the other
status bits, TX_DS included — then with any positive fuel `wait_packet_sent`
returns false, and its bus traffic is: CONFIG read, three status reads, a write
of STATUS with MAX_RT (0x10) set, and FLUSH_TX (0xE1) last. -/
theorem wait_packet_sent_max_retries (H : Host σ) (fuel : Nat) (s : nrf σ)
    (h_fuel : 0 < fuel)
    (h_pwr : (spi_read_register H s CONFIG).2.1 &&& 0x02 ≠ 0)
    (h_ptx : (spi_read_register H s CONFIG).2.1 &&& 0x01 = 0)
    (h_ce : s.ce_level = true)
    (h_poll : (get_status H (spi_read_register H s CONFIG).2.2).1 &&& 0x10 ≠ 0)
    (h_again : (get_status H (get_status H (spi_read_register H s CONFIG).2.2).2).1
      &&& 0x10 ≠ 0) :
    ∃ s1 j v, wait_packet_sent H fuel s = some (false, s1) ∧ v &&& 0x10 = 0x10 ∧
      s1.trace = s.trace ++ [Event.spi [0x00, j], Event.spi [0xFF], Event.spi [0xFF],
        Event.spi [0xFF], Event.spi [0x27, v], Event.spi [0xE1]] := by
  obtain ⟨f, rfl⟩ : ∃ f, fuel = f + 1 := ⟨fuel - 1, by omega⟩
  have hentry := wait_packet_sent_tx H (f + 1) s
    (by rw [not_or, not_or]; exact ⟨not_not.mpr h_ptx, h_pwr, by simp [h_ce]⟩)
  generalize hs0 : (spi_read_register H s CONFIG).2.2 = s0 at *
  have h1 := flag_of_max_rt _ (get_status_byte H s0) h_poll
  have h2 := flag_of_max_rt _ (get_status_byte H (get_status H s0).2) h_again
  have hwf : wait_flag H (f + 1) s0 = some (get_status H s0).2 := by
    simp only [wait_flag]
    rw [if_neg h1.1]
  have hloop : wait_packet_sent_loop H (f + 1) s0 = some (false,
      flush_tx_fifo H (clear_int_flag H (get_status H (get_status H s0).2).2 NRF_MAX_RT)) := by
    simp only [wait_packet_sent_loop, hwf]
    rw [if_pos h2.2]
  refine ⟨_, H.uninit s.world 1 % 256,
    ((get_status H (get_status H (get_status H s0).2).2).1 ||| MAX_RT) % 256,
    hentry.trans hloop, or_bit_stored _ 4 (by norm_num), ?_⟩
  have ht0 : s0.trace = s.trace ++ [Event.spi [0x00, H.uninit s.world 1 % 256]] := by
    rw [← hs0]; rfl
  simp [clear_int_flag_trace, ht0]

theorem wait_packet_sent_max_retries_witness :
    ∃ s1 j v, wait_packet_sent ScriptHost 1
        (scripted [0x3E, 0x0A, 0x3E, 0x3E, 0x3E, 0x3E, 0, 0x0E] true) = some (false, s1) ∧
      v &&& 0x10 = 0x10 ∧
      s1.trace = (scripted [0x3E, 0x0A, 0x3E, 0x3E, 0x3E, 0x3E, 0, 0x0E] true).trace ++
        [Event.spi [0x00, j], Event.spi [0xFF], Event.spi [0xFF],
          Event.spi [0xFF], Event.spi [0x27, v], Event.spi [0xE1]] :=
  wait_packet_sent_max_retries ScriptHost 1
    (scripted [0x3E, 0x0A, 0x3E, 0x3E, 0x3E, 0x3E, 0, 0x0E] true)
    (by decide) (by decide) (by decide) rfl (by decide) (by decide)

theorem status_reads_succ (H : Host σ) (n : Nat) (s : nrf σ) :
    status_reads H (n + 1) s = (get_status H (status_reads H n s)).2 := by
  induction n generalizing s with
  | zero => rfl
  | succ k ih =>
    show status_reads H (k + 1) (get_status H s).2 = _
    rw [ih]
    rfl

theorem status_reads_trace (H : Host σ) (n : Nat) (s : nrf σ) :
    (status_reads H n s).trace = s.trace ++ List.replicate n (Event.spi [0xFF]) := by
  induction n generalizing s with
  | zero => simp [status_reads]
  | succ k ih =>
    show (status_reads H k (get_status H s).2).trace = _
    rw [ih]
    simp [List.replicate_succ]

set_option maxRecDepth 100000 in
theorem flags_test (st : Nat) (hst : st < 256) :
    (st &&& (TX_DS ||| MAX_RT) = 0 ↔ st &&& 0x30 = 0) ∧ (st &&& MAX_RT = 0 ↔ st &&& 0x10 = 0) ∧
    (st &&& TX_EMPTY = 0 ↔ st &&& 0x10 = 0) := by
  revert st
  decide

/-- With enough fuel the inner polling loop stops right after the first status
read that shows a flag. -/
theorem wait_flag_after_idle (H : Host σ) (n fuel : Nat) (s : nrf σ)
    (h_idle : ∀ i, i < n → (get_status H (status_reads H i s)).1 &&& 0x30 = 0)
    (h_flag : (get_status H (status_reads H n s)).1 &&& 0x30 ≠ 0)
    (h_fuel : n + 1 ≤ fuel) :
    wait_flag H fuel s = some (status_reads H (n + 1) s) := by
  induction n generalizing s fuel with
  | zero =>
    obtain ⟨f, rfl⟩ : ∃ f, fuel = f + 1 := ⟨fuel - 1, by omega⟩
    have hne : ¬ (get_status H s).1 &&& (TX_DS ||| MAX_RT) = 0 :=
      fun hh => h_flag ((flags_test _ (get_status_byte H s)).1.mp hh)
    simp only [wait_flag]
    rw [if_neg hne]
    rfl
  | succ k ih =>
    obtain ⟨f, rfl⟩ : ∃ f, fuel = f + 1 := ⟨fuel - 1, by omega⟩
    have h0 : (get_status H s).1 &&& (TX_DS ||| MAX_RT) = 0 :=
      (flags_test _ (get_status_byte H s)).1.mpr (h_idle 0 (by omega))
    simp only [wait_flag]
    rw [if_pos h0]
    exact ih f (get_status H s).2 (fun i hi => h_idle (i + 1) (by omega)) h_flag (by omega)

/-- One pass through the body of the `do ... while` loop for a data-sent event. -/
theorem wait_packet_sent_loop_step (H : Host σ) (n fuel : Nat) (s : nrf σ)
    (h_ev : data_sent_after H n s) (h_fuel : n ≤ fuel) :
    wait_packet_sent_loop H (fuel + 1) s =
      if (fifo_after_clear H n s).1 &&& 0x10 = 0 then
        wait_packet_sent_loop H fuel (fifo_after_clear H n s).2
      else some (true, (fifo_after_clear H n s).2) := by
  have hwf := wait_flag_after_idle H n (fuel + 1) s h_ev.1 h_ev.2.1 (by omega)
  have hmax : ¬ (get_status H (status_reads H (n + 1) s)).1 &&& MAX_RT ≠ 0 := by
    rw [not_not]
    exact (flags_test _ (get_status_byte H _)).2.1.mpr h_ev.2.2
  have hsucc : (get_status H (status_reads H (n + 1) s)).2 = status_reads H (n + 2) s :=
    (status_reads_succ H (n + 1) s).symm
  simp only [wait_packet_sent_loop, hwf]
  rw [if_neg hmax, hsucc]
  show (if (fifo_after_clear H n s).1 &&& TX_EMPTY = 0 then _ else _) = _
  by_cases he : (fifo_after_clear H n s).1 &&& 0x10 = 0
  · have hT : (fifo_after_clear H n s).1 &&& TX_EMPTY = 0 :=
      (flags_test _ (get_fifo_status_byte H _)).2.2.mpr he
    rw [if_pos he, if_pos hT]
    rfl
  · have hT : ¬ (fifo_after_clear H n s).1 &&& TX_EMPTY = 0 :=
      fun hh => he ((flags_test _ (get_fifo_status_byte H _)).2.2.mp hh)
    rw [if_neg he, if_neg hT]
    rfl

theorem fifo_after_clear_trace (H : Host σ) (n : Nat) (s : nrf σ) :
    (fifo_after_clear H n s).2.trace = s.trace ++ (List.replicate (n + 2) (Event.spi [0xFF]) ++
      [Event.spi [0xFF],
       Event.spi [0x27, ((get_status H (status_reads H (n + 2) s)).1 ||| TX_DS) % 256],
       Event.spi [0x17, H.uninit (clear_int_flag H (status_reads H (n + 2) s) NRF_TX_DS).world 1
        % 256]]) := by
  simp only [fifo_after_clear, get_fifo_status_trace, clear_int_flag_trace, status_reads_trace]
  simp

theorem status_writes_append (a b : List Event) :
    status_writes (a ++ b) = status_writes a ++ status_writes b := by
  simp [status_writes, List.filterMap_append]

theorem status_writes_polls (n : Nat) :
    status_writes (List.replicate n (Event.spi [0xFF])) = [] := by
  induction n with
  | zero => rfl
  | succ k ih =>
    rw [List.replicate_succ]
    show status_writes ([Event.spi [0xFF]] ++ _) = []
    rw [status_writes_append, ih]
    rfl

/-- The events of one data-sent cycle: one STATUS write, with TX_DS set, and
no FLUSH_TX. -/
theorem fifo_after_clear_events (H : Host σ) (n : Nat) (s : nrf σ) :
    ∃ seg v, (fifo_after_clear H n s).2.trace = s.trace ++ seg ∧
      status_writes seg = [v] ∧ v &&& 0x20 = 0x20 ∧ Event.spi [0xE1] ∉ seg := by
  refine ⟨_, ((get_status H (status_reads H (n + 2) s)).1 ||| TX_DS) % 256,
    fifo_after_clear_trace H n s, ?_, or_bit_stored _ 5 (by norm_num), ?_⟩
  · rw [status_writes_append, status_writes_polls]
    rfl
  · simp [List.mem_replicate]

/-- The `do ... while` loop on a device that reports the data-sent events `ns`. -/
theorem wait_packet_sent_loop_sends_all (H : Host σ) (ns : List Nat) (fuel : Nat) (s : nrf σ)
    (h_dev : sends_all H ns s) (h_fuel : ns.sum + ns.length ≤ fuel) :
    ∃ s1 evs, wait_packet_sent_loop H fuel s = some (true, s1) ∧
      s1.trace = s.trace ++ evs ∧
      (status_writes evs).length = ns.length ∧
      (∀ v, v ∈ status_writes evs → v &&& 0x20 = 0x20) ∧
      Event.spi [0xE1] ∉ evs := by
  induction ns generalizing s fuel with
  | nil => exact absurd h_dev (by simp [sends_all])
  | cons n tl ih =>
    obtain ⟨seg, v0, hseg, hsw, hv0, hnf⟩ := fifo_after_clear_events H n s
    cases tl with
    | nil =>
      simp only [sends_all] at h_dev
      simp only [List.sum_cons, List.sum_nil, List.length_cons, List.length_nil] at h_fuel
      obtain ⟨f, rfl⟩ : ∃ f, fuel = f + 1 := ⟨fuel - 1, by omega⟩
      have hstep := wait_packet_sent_loop_step H n f s h_dev.1 (by omega)
      rw [if_neg h_dev.2] at hstep
      refine ⟨_, seg, hstep, hseg, ?_, ?_, hnf⟩
      · rw [hsw]; rfl
      · intro v hv
        rw [hsw, List.mem_singleton] at hv
        rw [hv]
        exact hv0
    | cons m ms =>
      simp only [sends_all] at h_dev
      simp only [List.sum_cons, List.length_cons] at h_fuel
      obtain ⟨f, rfl⟩ : ∃ f, fuel = f + 1 := ⟨fuel - 1, by omega⟩
      have hstep := wait_packet_sent_loop_step H n f s h_dev.1 (by omega)
      rw [if_pos h_dev.2.1] at hstep
      obtain ⟨s1, evs, hres, htr, hlen, hbits, hflush⟩ :=
        ih f (fifo_after_clear H n s).2 h_dev.2.2
          (by simp only [List.sum_cons, List.length_cons]; omega)
      refine ⟨s1, seg ++ evs, hstep.trans hres, ?_, ?_, ?_, ?_⟩
      · rw [htr, hseg, List.append_assoc]
      · rw [status_writes_append, hsw]
        simp only [List.length_append, List.length_cons, List.length_nil, hlen]
        omega
      · intro v hv
        rw [status_writes_append, hsw, List.mem_append, List.mem_singleton] at hv
        rcases hv with hv | hv
        · rw [hv]
          exact hv0
        · exact hbits v hv
      · rw [List.mem_append, not_or]
        exact ⟨hnf, hflush⟩

/-- C4: in transmit configuration, on a device that never shows MAX_RT and
reports `k = ns.length ≥ 1` data-sent events (the `i`-th after `ns[i]` idle
status reads), with TX_EMPTY clear after each of the first `k - 1` clearings
of TX_DS and set after the `k`-th, `wait_packet_sent` with enough fuel returns
true; its trace grows by exactly `k` writes of STATUS, each with TX_DS (0x20)
set, and by no FLUSH_TX. -/
theorem wait_packet_sent_data_sent (H : Host σ) (ns : List Nat) (fuel : Nat) (s : nrf σ)
    (h_pwr : (spi_read_register H s CONFIG).2.1 &&& 0x02 ≠ 0)
    (h_ptx : (spi_read_register H s CONFIG).2.1 &&& 0x01 = 0)
    (h_ce : s.ce_level = true)
    (h_dev : sends_all H ns (spi_read_register H s CONFIG).2.2)
    (h_fuel : ns.sum + ns.length ≤ fuel) :
    ∃ s1 evs, wait_packet_sent H fuel s = some (true, s1) ∧
      s1.trace = s.trace ++ evs ∧
      (status_writes evs).length = ns.length ∧
      (∀ v, v ∈ status_writes evs → v &&& 0x20 = 0x20) ∧
      Event.spi [0xE1] ∉ evs := by
  have hentry := wait_packet_sent_tx H fuel s
    (by rw [not_or, not_or]; exact ⟨not_not.mpr h_ptx, h_pwr, by simp [h_ce]⟩)
  obtain ⟨s1, evs, hres, htr, hlen, hbits, hflush⟩ :=
    wait_packet_sent_loop_sends_all H ns fuel _ h_dev h_fuel
  refine ⟨s1, Event.spi [0x00, H.uninit s.world 1 % 256] :: evs, hentry.trans hres, ?_, ?_,
    ?_, ?_⟩
  · have h0 : (spi_read_register H s CONFIG).2.2.trace
        = s.trace ++ [Event.spi [0x00, H.uninit s.world 1 % 256]] := rfl
    rw [htr, h0]
    simp
  · show (status_writes ([Event.spi [0x00, H.uninit s.world 1 % 256]] ++ evs)).length = _
    rw [status_writes_append]
    simpa [status_writes] using hlen
  · intro v hv
    have : status_writes (Event.spi [0x00, H.uninit s.world 1 % 256] :: evs)
        = status_writes evs := by
      show status_writes ([Event.spi [0x00, H.uninit s.world 1 % 256]] ++ evs) = _
      rw [status_writes_append]
      simp [status_writes]
    rw [this] at hv
    exact hbits v hv
  · simp [hflush]

/-- The state after submitting a 3-byte payload to a scripted device that then
shows one idle status, the data-sent flag, and an empty TX FIFO. -/
theorem wait_packet_sent_data_sent_witness :
    ∃ s1 evs, wait_packet_sent ScriptHost 2
        (write_tx_payload ScriptHost (scripted [0x0E, 0x11, 0x0E, 0, 0, 0, 0x0E, 0x0A, 0x0E,
          0x2E, 0x2E, 0x2E, 0x2E, 0, 0x0E, 0x11] true) (fun i => i + 1) 3 true).2
        = some (true, s1) ∧
      s1.trace = (write_tx_payload ScriptHost (scripted [0x0E, 0x11, 0x0E, 0, 0, 0, 0x0E, 0x0A,
          0x0E, 0x2E, 0x2E, 0x2E, 0x2E, 0, 0x0E, 0x11] true) (fun i => i + 1) 3 true).2.trace
          ++ evs ∧
      (status_writes evs).length = [1].length ∧
      (∀ v, v ∈ status_writes evs → v &&& 0x20 = 0x20) ∧
      Event.spi [0xE1] ∉ evs :=
  wait_packet_sent_data_sent ScriptHost [1] 2
    (write_tx_payload ScriptHost (scripted [0x0E, 0x11, 0x0E, 0, 0, 0, 0x0E, 0x0A, 0x0E,
      0x2E, 0x2E, 0x2E, 0x2E, 0, 0x0E, 0x11] true) (fun i => i + 1) 3 true).2
    (by decide) (by decide) rfl
    ⟨⟨by decide, by decide, by decide⟩, by decide⟩ (by decide)

/-! ## The mode controller -/

theorem set_power_up_frame (H : Host σ) (s : nrf σ) (b : Bool) :
    (set_power_up H s b)._current_mode = s._current_mode ∧
    (set_power_up H s b)._last_mode = s._last_mode ∧
    (set_power_up H s b).ce_level = s.ce_level := by
  cases b <;> exact ⟨rfl, rfl, rfl⟩

theorem set_primary_rx_frame (H : Host σ) (s : nrf σ) (b : Bool) :
    (set_primary_rx H s b)._current_mode = s._current_mode ∧
    (set_primary_rx H s b)._last_mode = s._last_mode ∧
    (set_primary_rx H s b).ce_level = s.ce_level := by
  cases b <;> exact ⟨rfl, rfl, rfl⟩

theorem set_power_up_trace (H : Host σ) (s : nrf σ) (b : Bool) :
    ∃ j v, (set_power_up H s b).trace = s.trace ++ [Event.spi [0x00, j], Event.spi [0x20, v]] := by
  cases b
  · refine ⟨H.uninit s.world 1 % 256, ((spi_read_register H s CONFIG).2.1 &&& NOT PWR_UP) % 256, ?_⟩
    show (s.trace ++ [_]) ++ [_] = _
    rw [List.append_assoc]
    rfl
  · refine ⟨H.uninit s.world 1 % 256, ((spi_read_register H s CONFIG).2.1 ||| PWR_UP) % 256, ?_⟩
    show (s.trace ++ [_]) ++ [_] = _
    rw [List.append_assoc]
    rfl

theorem set_primary_rx_trace (H : Host σ) (s : nrf σ) (b : Bool) :
    ∃ j v, (set_primary_rx H s b).trace
      = s.trace ++ [Event.spi [0x00, j], Event.spi [0x20, v]] := by
  cases b
  · refine ⟨H.uninit s.world 1 % 256, ((spi_read_register H s CONFIG).2.1 &&& NOT PRIM_RX) % 256,
      ?_⟩
    show (s.trace ++ [_]) ++ [_] = _
    rw [List.append_assoc]
    rfl
  · refine ⟨H.uninit s.world 1 % 256, ((spi_read_register H s CONFIG).2.1 ||| PRIM_RX) % 256, ?_⟩
    show (s.trace ++ [_]) ++ [_] = _
    rw [List.append_assoc]
    rfl

/-- The state `set_mode` works on once CE has been driven low. -/
theorem set_mode_active_trace (H : Host σ) (s : nrf σ) (rx : Bool) :
    ∃ bus, bus.filter is_delay = [] ∧
      (chip_enable (set_primary_rx H (set_power_up H
        (chip_disable { s with _last_mode := s._current_mode }) true) rx)).trace
        = s.trace ++ bus ∧
      (chip_enable (set_primary_rx H (set_power_up H
        (chip_disable { s with _last_mode := s._current_mode }) true) rx))._current_mode
        = s._current_mode := by
  obtain ⟨j, v, h⟩ := set_power_up_trace H (chip_disable { s with _last_mode := s._current_mode })
    true
  obtain ⟨j2, v2, h2⟩ := set_primary_rx_trace H
    (set_power_up H (chip_disable { s with _last_mode := s._current_mode }) true) rx
  refine ⟨[Event.ce false, Event.spi [0x00, j], Event.spi [0x20, v], Event.spi [0x00, j2],
    Event.spi [0x20, v2], Event.ce true], rfl, ?_, ?_⟩
  · show (set_primary_rx H _ rx).trace ++ [Event.ce true] = _
    rw [h2, h]
    show ((s.trace ++ [Event.ce false]) ++ _) ++ _ ++ _ = _
    simp
  · show (set_primary_rx H _ rx)._current_mode = _
    rw [(set_primary_rx_frame H _ rx).1, (set_power_up_frame H _ true).1]
    rfl

theorem set_mode_active_frame (H : Host σ) (s : nrf σ) (rx : Bool) :
    (chip_enable (set_primary_rx H (set_power_up H
      (chip_disable { s with _last_mode := s._current_mode }) true) rx))._last_mode
      = s._current_mode ∧
    (chip_enable (set_primary_rx H (set_power_up H
      (chip_disable { s with _last_mode := s._current_mode }) true) rx)).ce_level = true := by
  refine ⟨?_, rfl⟩
  show (set_primary_rx H _ rx)._last_mode = _
  rw [(set_primary_rx_frame H _ rx).2.1, (set_power_up_frame H _ true).2.1]
  rfl

/-- The events of `set_mode`: CE writes and bus transactions, then the
settling delay of the table for the pair (tracked current mode, target). -/
theorem set_mode_trace (H : Host σ) (s : nrf σ) (m : nrf_operation_mode_t) :
    ∃ bus, bus.filter is_delay = [] ∧
      (set_mode H s m).trace = s.trace ++ bus ++ settling_delay_table s._current_mode m := by
  cases m
  · -- NRF_POWER_DOWN
    obtain ⟨j, v, h⟩ := set_power_up_trace H (chip_disable { s with _last_mode := s._current_mode })
      false
    refine ⟨[Event.ce false, Event.spi [0x00, j], Event.spi [0x20, v]], rfl, ?_⟩
    have ht : settling_delay_table s._current_mode NRF_POWER_DOWN = [] := by
      cases s._current_mode <;> rfl
    rw [ht]
    show (set_power_up H (chip_disable { s with _last_mode := s._current_mode }) false).trace = _
    rw [h]
    show (s.trace ++ [Event.ce false]) ++ _ = _
    simp
  · -- NRF_STANDBY
    obtain ⟨j, v, h⟩ := set_power_up_trace H (chip_disable { s with _last_mode := s._current_mode })
      true
    have hc : (set_power_up H (chip_disable { s with _last_mode := s._current_mode })
        true)._current_mode = s._current_mode := by
      rw [(set_power_up_frame H _ true).1]
      rfl
    have h0 : (chip_disable { s with _last_mode := s._current_mode }).trace
        = s.trace ++ [Event.ce false] := rfl
    refine ⟨[Event.ce false, Event.spi [0x00, j], Event.spi [0x20, v]], rfl, ?_⟩
    rw [show (set_mode H s NRF_STANDBY).trace
      = (if (set_power_up H (chip_disable { s with _last_mode := s._current_mode })
          true)._current_mode = NRF_POWER_DOWN then
          delay (set_power_up H (chip_disable { s with _last_mode := s._current_mode }) true) 5
        else set_power_up H (chip_disable { s with _last_mode := s._current_mode }) true).trace
      from rfl, hc]
    rw [h0] at h
    generalize set_power_up H (chip_disable { s with _last_mode := s._current_mode }) true = s1
      at h
    cases hm : s._current_mode <;> simp [h, delay, settling_delay_table]
  · -- NRF_TX_MODE
    obtain ⟨bus, hbus, ht, hc⟩ := set_mode_active_trace H s false
    refine ⟨bus, hbus, ?_⟩
    have hsm : ∀ s1, s1 = chip_enable (set_primary_rx H (set_power_up H
        (chip_disable { s with _last_mode := s._current_mode }) true) false) →
        (set_mode H s NRF_TX_MODE).trace
          = (if (if s1._current_mode = NRF_STANDBY then delayMicroseconds s1 150
              else s1)._current_mode = NRF_POWER_DOWN then
              delay (if s1._current_mode = NRF_STANDBY then delayMicroseconds s1 150 else s1) 5
            else (if s1._current_mode = NRF_STANDBY then delayMicroseconds s1 150
              else s1)).trace := by
      intro s1 h1
      rw [h1]
      rfl
    rw [hsm _ rfl]
    generalize chip_enable (set_primary_rx H (set_power_up H
      (chip_disable { s with _last_mode := s._current_mode }) true) false) = s1 at ht hc
    cases hm : s._current_mode <;> rw [hm] at hc <;>
      simp [hc, ht, delay, delayMicroseconds, settling_delay_table]
  · -- NRF_RX_MODE
    obtain ⟨bus, hbus, ht, hc⟩ := set_mode_active_trace H s true
    refine ⟨bus, hbus, ?_⟩
    have hsm : ∀ s1, s1 = chip_enable (set_primary_rx H (set_power_up H
        (chip_disable { s with _last_mode := s._current_mode }) true) true) →
        (set_mode H s NRF_RX_MODE).trace
          = (if (if s1._current_mode = NRF_STANDBY then delayMicroseconds s1 150
              else s1)._current_mode = NRF_POWER_DOWN then
              delay (if s1._current_mode = NRF_STANDBY then delayMicroseconds s1 150 else s1) 5
            else (if s1._current_mode = NRF_STANDBY then delayMicroseconds s1 150
              else s1)).trace := by
      intro s1 h1
      rw [h1]
      rfl
    rw [hsm _ rfl]
    generalize chip_enable (set_primary_rx H (set_power_up H
      (chip_disable { s with _last_mode := s._current_mode }) true) true) = s1 at ht hc
    cases hm : s._current_mode <;> rw [hm] at hc <;>
      simp [hc, ht, delay, delayMicroseconds, settling_delay_table]

theorem settling_delay_table_filter (a b : nrf_operation_mode_t) :
    (settling_delay_table a b).filter is_delay = settling_delay_table a b := by
  cases a <;> cases b <;> rfl

theorem set_mode_delays (H : Host σ) (s : nrf σ) (m : nrf_operation_mode_t) :
    ∃ evs, (set_mode H s m).trace = s.trace ++ evs ∧
      evs.filter is_delay = settling_delay_table s._current_mode m := by
  obtain ⟨bus, hbus, ht⟩ := set_mode_trace H s m
  refine ⟨bus ++ settling_delay_table s._current_mode m, ?_, ?_⟩
  · rw [ht, List.append_assoc]
  · rw [List.filter_append, hbus, settling_delay_table_filter, List.nil_append]

theorem set_mode_modes (H : Host σ) (s : nrf σ) (m : nrf_operation_mode_t) :
    (set_mode H s m)._current_mode = m ∧ (set_mode H s m)._last_mode = s._current_mode := by
  cases m
  · refine ⟨rfl, ?_⟩
    show (set_power_up H _ false)._last_mode = _
    rw [(set_power_up_frame H _ false).2.1]
    rfl
  · refine ⟨rfl, ?_⟩
    show (if (set_power_up H (chip_disable { s with _last_mode := s._current_mode })
      true)._current_mode = NRF_POWER_DOWN then delay (set_power_up H _ true) 5
      else set_power_up H _ true)._last_mode = _
    split
    · show (set_power_up H _ true)._last_mode = _
      rw [(set_power_up_frame H _ true).2.1]
      rfl
    · rw [(set_power_up_frame H _ true).2.1]
      rfl
  · refine ⟨rfl, ?_⟩
    have hl := (set_mode_active_frame H s false).1
    generalize hs1 : chip_enable (set_primary_rx H (set_power_up H
        (chip_disable { s with _last_mode := s._current_mode }) true) false) = s1 at hl
    have hsm : (set_mode H s NRF_TX_MODE)._last_mode
        = (if (if s1._current_mode = NRF_STANDBY then delayMicroseconds s1 150
              else s1)._current_mode = NRF_POWER_DOWN then
              delay (if s1._current_mode = NRF_STANDBY then delayMicroseconds s1 150 else s1) 5
            else (if s1._current_mode = NRF_STANDBY then delayMicroseconds s1 150
              else s1))._last_mode := by
      rw [← hs1]
      rfl
    rw [hsm]
    split <;> split <;> exact hl
  · refine ⟨rfl, ?_⟩
    have hl := (set_mode_active_frame H s true).1
    generalize hs1 : chip_enable (set_primary_rx H (set_power_up H
        (chip_disable { s with _last_mode := s._current_mode }) true) true) = s1 at hl
    have hsm : (set_mode H s NRF_RX_MODE)._last_mode
        = (if (if s1._current_mode = NRF_STANDBY then delayMicroseconds s1 150
              else s1)._current_mode = NRF_POWER_DOWN then
              delay (if s1._current_mode = NRF_STANDBY then delayMicroseconds s1 150 else s1) 5
            else (if s1._current_mode = NRF_STANDBY then delayMicroseconds s1 150
              else s1))._last_mode := by
      rw [← hs1]
      rfl
    rw [hsm]
    split <;> split <;> exact hl

/-- C9: the delay events `set_mode` adds to the trace are exactly those of the
table: 5 ms from PowerDown to Standby, RX or TX; 150 µs from Standby to RX or
TX; none for every other pair (tracked current mode, target). -/
theorem set_mode_settling_delay (H : Host σ) (s : nrf σ) (m : nrf_operation_mode_t) :
    ∃ evs, (set_mode H s m).trace = s.trace ++ evs ∧
      evs.filter is_delay = settling_delay_table s._current_mode m :=
  set_mode_delays H s m

/-- C10: `set_mode m` turns the tracked pair (current `c`, previous `l`) into
`(m, c)`, also when `m = c`; `retrieve_last_mode` turns it into `(l, c)`; two
calls of `retrieve_last_mode` restore `(c, l)`. -/
theorem set_mode_tracks_pair (H : Host σ) (s : nrf σ) (m : nrf_operation_mode_t) :
    ((set_mode H s m)._current_mode = m ∧ (set_mode H s m)._last_mode = s._current_mode) ∧
    ((retrieve_last_mode H s)._current_mode = s._last_mode ∧
      (retrieve_last_mode H s)._last_mode = s._current_mode) ∧
    ((retrieve_last_mode H (retrieve_last_mode H s))._current_mode = s._current_mode ∧
      (retrieve_last_mode H (retrieve_last_mode H s))._last_mode = s._last_mode) := by
  have h1 := set_mode_modes H s s._last_mode
  have h2 := set_mode_modes H (retrieve_last_mode H s) (retrieve_last_mode H s)._last_mode
  refine ⟨set_mode_modes H s m, h1, ?_, ?_⟩
  · show (set_mode H (retrieve_last_mode H s) (retrieve_last_mode H s)._last_mode)._current_mode
      = _
    rw [h2.1]
    exact h1.2
  · show (set_mode H (retrieve_last_mode H s) (retrieve_last_mode H s)._last_mode)._last_mode = _
    rw [h2.2]
    exact h1.1

/-! ## The simulated register file -/

set_option maxRecDepth 100000 in
theorem command_bytes (a : Nat) (ha : a < 32) :
    ((W_REGISTER ||| (a % 256 &&& 0x1F)) % 256) &&& 0xE0 = W_REGISTER ∧
    ((W_REGISTER ||| (a % 256 &&& 0x1F)) % 256) &&& 0x1F = a ∧
    ((R_REGISTER ||| (a % 256 &&& 0x1F)) % 256) &&& 0xE0 ≠ W_REGISTER ∧
    ((R_REGISTER ||| (a % 256 &&& 0x1F)) % 256) &&& 0xE0 = R_REGISTER ∧
    ((R_REGISTER ||| (a % 256 &&& 0x1F)) % 256) &&& 0x1F = a := by
  revert a
  decide

/-- A register write stores the byte at its address. -/
theorem sim_write_register (junk : Nat → Nat) (s : nrf SimDevice) (a v : Nat) (ha : a < 32) :
    (spi_write_register (SimHost junk) s a v).2.world.regs
      = fun r => if r = a then v % 256 else s.world.regs r := by
  obtain ⟨h1, h2, -, -, -⟩ := command_bytes a ha
  generalize hb : (W_REGISTER ||| (a % 256 &&& 0x1F)) % 256 = b at h1 h2
  simp [spi_write_register, spi_transfer, spi_loop, SimHost, sim_transfer, hb, h1, h2]

/-- A register read yields the byte at its address and changes no register. -/
theorem sim_read_register (junk : Nat → Nat) (s : nrf SimDevice) (a : Nat) (ha : a < 32) :
    (spi_read_register (SimHost junk) s a).2.1 = s.world.regs a % 256 ∧
    (spi_read_register (SimHost junk) s a).2.2.world.regs = s.world.regs := by
  obtain ⟨-, -, -, h4, h5⟩ := command_bytes a ha
  generalize hb : (R_REGISTER ||| (a % 256 &&& 0x1F)) % 256 = b at h4 h5
  have hRW : ¬ (R_REGISTER = W_REGISTER) := by decide
  simp [spi_read_register, spi_transfer, spi_loop, SimHost, sim_transfer, hb, h4, h5, hRW]

/-- A one-byte command other than a register write changes no register and is
answered with the status register. -/
theorem sim_command_only (junk : Nat → Nat) (s : nrf SimDevice) (c : Nat)
    (hw : c &&& 0xE0 ≠ W_REGISTER) :
    (spi_transfer (SimHost junk) s [c] 1).1.world.regs = s.world.regs ∧
    (spi_transfer (SimHost junk) s [c] 1).2.getD 0 0 = s.world.regs STATUS % 256 := by
  have hRW : ¬ (R_REGISTER = W_REGISTER) := by decide
  by_cases hr : c &&& 0xE0 = R_REGISTER <;>
    simp [spi_transfer, spi_loop, SimHost, sim_transfer, hw, hr, hRW]

theorem sim_set_power_up (junk : Nat → Nat) (s : nrf SimDevice) (b : Bool) :
    (set_power_up (SimHost junk) s b).world.regs CONFIG
      = if b then (s.world.regs CONFIG % 256 ||| PWR_UP) % 256
        else (s.world.regs CONFIG % 256 &&& NOT PWR_UP) % 256 := by
  have hr := sim_read_register junk s CONFIG (by decide)
  cases b
  · show (spi_write_register (SimHost junk) _ CONFIG _).2.world.regs CONFIG = _
    rw [sim_write_register junk _ CONFIG _ (by decide), hr.1]
    simp
  · show (spi_write_register (SimHost junk) _ CONFIG _).2.world.regs CONFIG = _
    rw [sim_write_register junk _ CONFIG _ (by decide), hr.1]
    simp

theorem sim_set_primary_rx (junk : Nat → Nat) (s : nrf SimDevice) (b : Bool) :
    (set_primary_rx (SimHost junk) s b).world.regs CONFIG
      = if b then (s.world.regs CONFIG % 256 ||| PRIM_RX) % 256
        else (s.world.regs CONFIG % 256 &&& NOT PRIM_RX) % 256 := by
  have hr := sim_read_register junk s CONFIG (by decide)
  cases b
  · show (spi_write_register (SimHost junk) _ CONFIG _).2.world.regs CONFIG = _
    rw [sim_write_register junk _ CONFIG _ (by decide), hr.1]
    simp
  · show (spi_write_register (SimHost junk) _ CONFIG _).2.world.regs CONFIG = _
    rw [sim_write_register junk _ CONFIG _ (by decide), hr.1]
    simp

/-- World and CE level after `set_mode(NRF_RX_MODE)`. -/
theorem set_mode_rx_state (H : Host σ) (s : nrf σ) :
    (set_mode H s NRF_RX_MODE).world = (set_primary_rx H (set_power_up H
      (chip_disable { s with _last_mode := s._current_mode }) true) true).world ∧
    (set_mode H s NRF_RX_MODE).ce_level = true := by
  generalize hs1 : chip_enable (set_primary_rx H (set_power_up H
      (chip_disable { s with _last_mode := s._current_mode }) true) true) = s1
  have hw : s1.world = (set_primary_rx H (set_power_up H
      (chip_disable { s with _last_mode := s._current_mode }) true) true).world := by
    rw [← hs1]; rfl
  have hce : s1.ce_level = true := by rw [← hs1]; rfl
  have hsm : set_mode H s NRF_RX_MODE
      = { (if (if s1._current_mode = NRF_STANDBY then delayMicroseconds s1 150
            else s1)._current_mode = NRF_POWER_DOWN then
            delay (if s1._current_mode = NRF_STANDBY then delayMicroseconds s1 150 else s1) 5
          else (if s1._current_mode = NRF_STANDBY then delayMicroseconds s1 150 else s1))
          with _current_mode := NRF_RX_MODE } := by
    rw [← hs1]; rfl
  rw [hsm, ← hw]
  constructor
  · show (if _ then _ else _ : nrf σ).world = _
    split <;> split <;> rfl
  · show (if _ then _ else _ : nrf σ).ce_level = _
    split <;> split <;> exact hce

/-- C8: over the simulated register file, from the state left by the
constructor (tracked mode PowerDown) `set_mode(NRF_RX_MODE)` leaves CONFIG with
PWR_UP and PRIM_RX set and CE high, and its only delay is `delay(5)`; in the
sequence RX, Standby, RX the only delay of the second entry into RX is
`delayMicroseconds(150)`. -/
theorem set_mode_rx_after_construction (junk : Nat → Nat) (d : SimDevice) :
    (nrf_new (SimHost junk) d)._current_mode = NRF_POWER_DOWN ∧
    (set_mode (SimHost junk) (nrf_new (SimHost junk) d) NRF_RX_MODE).world.regs CONFIG
      &&& PWR_UP = PWR_UP ∧
    (set_mode (SimHost junk) (nrf_new (SimHost junk) d) NRF_RX_MODE).world.regs CONFIG
      &&& PRIM_RX = PRIM_RX ∧
    (set_mode (SimHost junk) (nrf_new (SimHost junk) d) NRF_RX_MODE).ce_level = true ∧
    (∃ evs, (set_mode (SimHost junk) (nrf_new (SimHost junk) d) NRF_RX_MODE).trace
        = (nrf_new (SimHost junk) d).trace ++ evs ∧
      evs.filter is_delay = [Event.delay 5]) ∧
    (∃ evs, (set_mode (SimHost junk) (set_mode (SimHost junk)
        (set_mode (SimHost junk) (nrf_new (SimHost junk) d) NRF_RX_MODE) NRF_STANDBY)
          NRF_RX_MODE).trace
        = (set_mode (SimHost junk) (set_mode (SimHost junk) (nrf_new (SimHost junk) d)
            NRF_RX_MODE) NRF_STANDBY).trace ++ evs ∧
      evs.filter is_delay = [Event.delayMicroseconds 150]) := by
  have hpd : (nrf_new (SimHost junk) d)._current_mode = NRF_POWER_DOWN := rfl
  have hcfg : (set_mode (SimHost junk) (nrf_new (SimHost junk) d) NRF_RX_MODE).world.regs CONFIG
      = 0x0B := by
    have h8 : (chip_disable { nrf_new (SimHost junk) d with
        _last_mode := (nrf_new (SimHost junk) d)._current_mode }).world.regs CONFIG = 8 := rfl
    rw [(set_mode_rx_state (SimHost junk) (nrf_new (SimHost junk) d)).1, sim_set_primary_rx,
      sim_set_power_up, h8]
    decide
  refine ⟨hpd, ?_, ?_, (set_mode_rx_state _ _).2, ?_, ?_⟩
  · rw [hcfg]; decide
  · rw [hcfg]; decide
  · obtain ⟨evs, ht, hf⟩ := set_mode_delays (SimHost junk) (nrf_new (SimHost junk) d) NRF_RX_MODE
    rw [hpd] at hf
    exact ⟨evs, ht, hf⟩
  · obtain ⟨evs, ht, hf⟩ := set_mode_delays (SimHost junk) (set_mode (SimHost junk)
      (set_mode (SimHost junk) (nrf_new (SimHost junk) d) NRF_RX_MODE) NRF_STANDBY) NRF_RX_MODE
    rw [(set_mode_modes (SimHost junk) _ NRF_STANDBY).1] at hf
    exact ⟨evs, ht, hf⟩

/-! ## The register interface -/

set_option maxRecDepth 100000 in
theorem command_byte_eq (a : Nat) (ha : a < 256) :
    (W_REGISTER ||| (a % 256 &&& 0x1F)) % 256 = 0x20 ||| (a &&& 0x1F) ∧
    (R_REGISTER ||| (a % 256 &&& 0x1F)) % 256 = a &&& 0x1F := by
  revert a
  decide

theorem map_bytes (buff : Nat → Nat) (n : Nat) (h : ∀ i, i < n → buff i < 256) :
    (List.range n).map (fun i => buff i % 256) = (List.range n).map buff := by
  apply List.map_congr_left
  intro i hi
  exact Nat.mod_eq_of_lt (h i (List.mem_range.mp hi))

theorem take_block (c n : Nat) (l : List Nat) (hl : l.length = n) (hn : n ≤ 32) :
    List.take ((n + 1) % 256) (c :: l) = c :: l := by
  rw [Nat.mod_eq_of_lt (by omega)]
  apply List.take_of_length_le
  simp [hl]

/-- C15: for a register address `a` and a data byte `v`, `spi_write_register`
issues the single transaction `[0x20 | (a & 0x1F), v]` and `spi_read_register`
a single 2-byte transaction starting with `a & 0x1F`, yielding reply byte 1;
for a block of `n ≤ 32` bytes the block variants issue one transaction of
`n + 1` bytes, the same command byte followed by the block (write) or with
reply bytes `1..n` copied to the caller's block (read); all four return reply
byte 0 as the status. -/
theorem register_interface (H : Host σ) (s : nrf σ) (a v n : Nat) (buff : Nat → Nat)
    (ha : a < 256) (hv : v < 256) (hn : n ≤ 32) (h_bytes : ∀ i, i < n → buff i < 256) :
    ((spi_write_register H s a v).2.trace = s.trace ++ [Event.spi [0x20 ||| (a &&& 0x1F), v]] ∧
      (spi_write_register H s a v).1
        = (spi_transfer H s [0x20 ||| (a &&& 0x1F), v] 2).2.getD 0 0) ∧
    (∃ j, (spi_read_register H s a).2.2.trace = s.trace ++ [Event.spi [a &&& 0x1F, j]] ∧
      (spi_read_register H s a).2.1 = (spi_transfer H s [a &&& 0x1F, j] 2).2.getD 1 0 ∧
      (spi_read_register H s a).1 = (spi_transfer H s [a &&& 0x1F, j] 2).2.getD 0 0) ∧
    ((spi_write_multibyte_register H s a buff n).2.trace
        = s.trace ++ [Event.spi ((0x20 ||| (a &&& 0x1F)) :: (List.range n).map buff)] ∧
      ((0x20 ||| (a &&& 0x1F)) :: (List.range n).map buff).length = n + 1 ∧
      (spi_write_multibyte_register H s a buff n).1
        = (spi_transfer H s ((0x20 ||| (a &&& 0x1F)) :: (List.range n).map buff)
            (n + 1)).2.getD 0 0) ∧
    (∃ sent, sent.length = n + 1 ∧ sent.head? = some (a &&& 0x1F) ∧
      (spi_read_multibyte_register H s a buff n).2.2.trace = s.trace ++ [Event.spi sent] ∧
      (spi_transfer H s sent (n + 1)).2.length = n + 1 ∧
      (∀ i, i < n → (spi_read_multibyte_register H s a buff n).2.1 i
        = (spi_transfer H s sent (n + 1)).2.getD (i + 1) 0) ∧
      (∀ i, n ≤ i → (spi_read_multibyte_register H s a buff n).2.1 i = buff i) ∧
      (spi_read_multibyte_register H s a buff n).1
        = (spi_transfer H s sent (n + 1)).2.getD 0 0) := by
  obtain ⟨hw, hr⟩ := command_byte_eq a ha
  have hvm : v % 256 = v := Nat.mod_eq_of_lt hv
  have hnm : n % 256 = n := Nat.mod_eq_of_lt (by omega)
  refine ⟨?_, ?_, ?_, ?_⟩
  · constructor
    · rw [spi_write_register_trace, ← hw, hvm]
      rfl
    · simp only [spi_write_register, hw, hvm]
  · refine ⟨H.uninit s.world 1 % 256, ?_, ?_, ?_⟩
    · rw [spi_read_register_trace, ← hr]
      rfl
    · simp only [spi_read_register, hr]
    · simp only [spi_read_register, hr]
  · refine ⟨?_, by simp, ?_⟩
    · simp only [spi_write_multibyte_register, hw, hnm, map_bytes buff n h_bytes,
        spi_transfer_trace]
      rw [take_block _ n _ (by simp) hn]
    · simp only [spi_write_multibyte_register, hw, hnm, map_bytes buff n h_bytes]
  · refine ⟨(a &&& 0x1F) :: (List.range n).map (fun i => H.uninit s.world (i + 1) % 256),
      by simp, rfl, ?_, ?_, ?_, ?_, ?_⟩
    · simp only [spi_read_multibyte_register, hr, hnm, spi_transfer_trace]
      rw [take_block _ n _ (by simp) hn]
    · rw [spi_transfer_length]
      simp
    · intro i hi
      simp only [spi_read_multibyte_register, hr, hnm, hi, if_true]
    · intro i hi
      have : ¬ i < n := by omega
      simp only [spi_read_multibyte_register, hnm, this, if_false]
    · simp only [spi_read_multibyte_register, hr, hnm]

theorem register_interface_witness :
    (spi_write_multibyte_register ScriptHost (scripted [0x0E, 0, 0, 0] false) 0x10
      (fun i => i + 1) 3).2.trace = [Event.spi [0x30, 1, 2, 3]] :=
  (register_interface ScriptHost (scripted [0x0E, 0, 0, 0] false) 0x10 7 3 (fun i => i + 1)
    (by decide) (by decide) (by decide) (by intro i hi; show i + 1 < 256; omega)).2.2.1.1

/-! ## Construction and the interrupt flags -/

set_option maxRecDepth 100000 in
theorem or_flags_stored (st : Nat) (hst : st < 256) :
    (st ||| RX_DR) % 256 = st ||| 0x40 ∧ (st ||| TX_DS) % 256 = st ||| 0x20 ∧
    (st ||| MAX_RT) % 256 = st ||| 0x10 ∧
    (st ||| (RX_DR ||| TX_DS ||| MAX_RT)) % 256 = st ||| 0x70 ∧
    (st ||| 0x70) &&& 0x70 = 0x70 := by
  revert st
  decide

set_option maxRecDepth 100000 in
theorem cleared_by_write (v : Nat) (hv : v < 256) :
    (v &&& 0x40 = 0x40 → (0xFF ^^^ (v &&& 0x70)) &&& 0x40 = 0) ∧
    (v &&& 0x20 = 0x20 → (0xFF ^^^ (v &&& 0x70)) &&& 0x20 = 0) ∧
    (v &&& 0x10 = 0x10 → (0xFF ^^^ (v &&& 0x70)) &&& 0x10 = 0) ∧
    (v &&& 0x70 = 0x70 → (0xFF ^^^ (v &&& 0x70)) &&& 0x70 = 0) := by
  revert v
  decide

set_option maxRecDepth 100000 in
theorem or_flag_bits (st : Nat) (hst : st < 256) :
    st ||| 0x40 < 256 ∧ st ||| 0x20 < 256 ∧ st ||| 0x10 < 256 ∧ st ||| 0x70 < 256 ∧
    (st ||| 0x40) &&& 0x40 = 0x40 ∧ (st ||| 0x20) &&& 0x20 = 0x20 ∧
    (st ||| 0x10) &&& 0x10 = 0x10 := by
  revert st
  decide

/-- C16: the constructor drives CE low, writes 0x08 to CONFIG (PWR_UP, PRIM_RX
and the three mask bits clear, EN_CRC set), delays 100 ms, issues FLUSH_RX and
FLUSH_TX, reads the status and writes STATUS with the bits 0x70 set, in this
order and nothing else; both tracked modes are then NRF_POWER_DOWN. -/
theorem nrf_new_sequence (H : Host σ) (w : σ) :
    (∃ st, st &&& 0x70 = 0x70 ∧
      (nrf_new H w).trace = [Event.ce false, Event.spi [0x20, 0x08], Event.delay 100,
        Event.spi [0xE2], Event.spi [0xE1], Event.spi [0xFF], Event.spi [0x27, st]]) ∧
    (0x08 &&& PWR_UP = 0 ∧ 0x08 &&& PRIM_RX = 0 ∧ 0x08 &&& EN_CRC = EN_CRC ∧
      0x08 &&& (MASK_RX_DR ||| MASK_TX_DS ||| MASK_MAX_RT) = 0) ∧
    get_current_mode (nrf_new H w) = NRF_POWER_DOWN ∧
    (nrf_new H w)._last_mode = NRF_POWER_DOWN := by
  refine ⟨?_, by decide, rfl, rfl⟩
  obtain ⟨s5, hnew, ht5⟩ : ∃ s5, nrf_new H w = clear_all_int_flags H s5 ∧
      s5.trace = [Event.ce false, Event.spi [0x20, 0x08], Event.delay 100,
        Event.spi [0xE2], Event.spi [0xE1]] := ⟨_, rfl, rfl⟩
  have hst := or_flags_stored _ (get_status_byte H s5)
  refine ⟨(get_status H s5).1 ||| 0x70, hst.2.2.2.2, ?_⟩
  rw [hnew]
  show (spi_write_register H (get_status H s5).2 STATUS _).2.trace = _
  rw [spi_write_register_trace, get_status_trace, ht5, hst.2.2.2.1]
  rfl

/-- C18: `clear_int_flag` reads the status `s` with 0xFF and writes to STATUS
(command 0x27) the byte `s | bit` of the source (0x40, 0x20, 0x10);
`clear_all_int_flags` writes `s | 0x70`.  With write-1-to-clear semantics on
the status register, whatever it holds when written, the named flag
(respectively all three) reads as clear afterwards. -/
theorem clear_int_flag_writes (H : Host σ) (s : nrf σ) (src : nrf_int_source_t)
    (status : Nat) :
    (clear_int_flag H s src).trace = s.trace ++
      [Event.spi [0xFF], Event.spi [0x27, (get_status H s).1 ||| flag_bit src]] ∧
    (clear_all_int_flags H s).trace = s.trace ++
      [Event.spi [0xFF], Event.spi [0x27, (get_status H s).1 ||| 0x70]] ∧
    write_one_to_clear status ((get_status H s).1 ||| flag_bit src) &&& flag_bit src = 0 ∧
    write_one_to_clear status ((get_status H s).1 ||| 0x70) &&& 0x70 = 0 := by
  have hst := or_flags_stored _ (get_status_byte H s)
  have hb := or_flag_bits _ (get_status_byte H s)
  refine ⟨?_, ?_, ?_, ?_⟩
  · rw [clear_int_flag_trace]
    cases src
    · show _ ++ [_, Event.spi [0x27, ((get_status H s).1 ||| MAX_RT) % 256]] = _
      rw [hst.2.2.1]; rfl
    · show _ ++ [_, Event.spi [0x27, ((get_status H s).1 ||| TX_DS) % 256]] = _
      rw [hst.2.1]; rfl
    · show _ ++ [_, Event.spi [0x27, ((get_status H s).1 ||| RX_DR) % 256]] = _
      rw [hst.1]; rfl
  · show (spi_write_register H (get_status H s).2 STATUS _).2.trace = _
    rw [spi_write_register_trace, get_status_trace, hst.2.2.2.1]
    simp
    rfl
  · unfold write_one_to_clear
    rw [Nat.and_assoc]
    cases src
    · show status &&& ((0xFF ^^^ (((get_status H s).1 ||| 0x10) &&& 0x70)) &&& 0x10) = 0
      rw [(cleared_by_write _ hb.2.2.1).2.2.1 hb.2.2.2.2.2.2, Nat.and_zero]
    · show status &&& ((0xFF ^^^ (((get_status H s).1 ||| 0x20) &&& 0x70)) &&& 0x20) = 0
      rw [(cleared_by_write _ hb.2.1).2.1 hb.2.2.2.2.2.1, Nat.and_zero]
    · show status &&& ((0xFF ^^^ (((get_status H s).1 ||| 0x40) &&& 0x70)) &&& 0x40) = 0
      rw [(cleared_by_write _ hb.1).1 hb.2.2.2.2.1, Nat.and_zero]
  · unfold write_one_to_clear
    rw [Nat.and_assoc, (cleared_by_write _ hb.2.2.2.1).2.2.2 hst.2.2.2.2, Nat.and_zero]

/-- C19: when FIFO_STATUS has RX_EMPTY (bit 0) set, `read_received_payload`
returns false with the FIFO_STATUS read as its only event; the caller's buffer
and length output are unchanged. -/
theorem read_received_payload_empty (H : Host σ) (s : nrf σ) (buff : Nat → Nat) (length : Nat)
    (h_empty : (get_fifo_status H s).1 &&& 0x01 ≠ 0) :
    (read_received_payload H s buff length).1 = false ∧
    (read_received_payload H s buff length).2.1 = buff ∧
    (read_received_payload H s buff length).2.2.1 = length ∧
    (read_received_payload H s buff length).2.2.2.trace
      = s.trace ++ [Event.spi [0x17, H.uninit s.world 1 % 256]] := by
  have hrx : RX_EMPTY = 0x01 := by decide
  have ha : available H s = (false, (get_fifo_status H s).2) := by
    simp only [available, hrx]
    rw [if_neg h_empty]
  simp [read_received_payload, ha]

theorem read_received_payload_empty_witness :
    (get_fifo_status ScriptHost (scripted [0x0E, 0x11] true)).1 &&& 0x01 ≠ 0 ∧
    (read_received_payload ScriptHost (scripted [0x0E, 0x11] true) (fun _ => 0xAA) 5).2.2.1 = 5 :=
  ⟨by decide, (read_received_payload_empty ScriptHost (scripted [0x0E, 0x11] true)
    (fun _ => 0xAA) 5 (by decide)).2.2.1⟩

/-! ## Configuration over the simulated register file -/

/-- Read-modify-write of one register: the register holds the written byte
and every other register is unchanged. -/
theorem sim_read_write (junk : Nat → Nat) (s : nrf SimDevice) (a v : Nat) (ha : a < 32) :
    (spi_write_register (SimHost junk) (spi_read_register (SimHost junk) s a).2.2 a v).2.world.regs
      = fun r => if r = a then v % 256 else s.world.regs r := by
  rw [sim_write_register junk _ a v ha, (sim_read_register junk s a ha).2]

set_option maxRecDepth 100000 in
theorem mask_bit_facts (c : Nat) (hc : c < 256) (src : nrf_int_source_t) :
    ((c &&& NOT (mask_bit src)) % 256 &&& mask_bit src = 0 ∧
      (c &&& NOT (mask_bit src)) % 256 &&& (0xFF ^^^ mask_bit src)
        = c &&& (0xFF ^^^ mask_bit src)) ∧
    ((c ||| mask_bit src) % 256 &&& mask_bit src = mask_bit src ∧
      (c ||| mask_bit src) % 256 &&& (0xFF ^^^ mask_bit src)
        = c &&& (0xFF ^^^ mask_bit src)) := by
  cases src <;> revert c <;> decide

theorem sim_set_int_source (junk : Nat → Nat) (s : nrf SimDevice) (src : nrf_int_source_t)
    (enable : Bool) :
    (set_int_source (SimHost junk) s src enable).world.regs CONFIG
      = if enable then (s.world.regs CONFIG % 256 &&& NOT (mask_bit src)) % 256
        else (s.world.regs CONFIG % 256 ||| mask_bit src) % 256 := by
  have hr := (sim_read_register junk s CONFIG (by decide)).1
  cases src <;> cases enable <;>
    · show (spi_write_register (SimHost junk) (spi_read_register (SimHost junk) s CONFIG).2.2
        CONFIG _).2.world.regs CONFIG = _
      rw [sim_read_write junk s CONFIG _ (by decide), hr]
      simp
      rfl

/-- C17: over the simulated register file, for every CONFIG byte and source,
`set_int_source(src, true)` clears and `set_int_source(src, false)` sets the
mask bit of the source in CONFIG (bit 6 for RX_DR, 5 for TX_DS, 4 for
MAX_RT); every other bit of CONFIG, the other two mask bits among them, is
unchanged. -/
theorem set_int_source_mask (junk : Nat → Nat) (s : nrf SimDevice) (src : nrf_int_source_t)
    (enable : Bool) (hc : s.world.regs CONFIG < 256) :
    (set_int_source (SimHost junk) s src enable).world.regs CONFIG &&& mask_bit src
      = (if enable then 0 else mask_bit src) ∧
    (set_int_source (SimHost junk) s src enable).world.regs CONFIG &&& (0xFF ^^^ mask_bit src)
      = s.world.regs CONFIG &&& (0xFF ^^^ mask_bit src) ∧
    (∀ other, other ≠ src →
      (set_int_source (SimHost junk) s src enable).world.regs CONFIG &&& mask_bit other
        = s.world.regs CONFIG &&& mask_bit other) := by
  have hm := mask_bit_facts _ hc src
  have hcm : s.world.regs CONFIG % 256 = s.world.regs CONFIG := Nat.mod_eq_of_lt hc
  have h12 : (set_int_source (SimHost junk) s src enable).world.regs CONFIG &&& mask_bit src
        = (if enable then 0 else mask_bit src) ∧
      (set_int_source (SimHost junk) s src enable).world.regs CONFIG
        &&& (0xFF ^^^ mask_bit src) = s.world.regs CONFIG &&& (0xFF ^^^ mask_bit src) := by
    rw [sim_set_int_source, hcm]
    cases enable
    · exact hm.2
    · exact hm.1
  refine ⟨h12.1, h12.2, ?_⟩
  intro other ho
  have hsub : mask_bit other &&& (0xFF ^^^ mask_bit src) = mask_bit other := by
    cases other <;> cases src <;> first | exact absurd rfl ho | decide
  rw [← hsub, ← Nat.and_assoc, ← Nat.and_assoc]
  rw [Nat.and_comm _ (mask_bit other), Nat.and_comm _ (mask_bit other), Nat.and_assoc,
    Nat.and_assoc, h12.2]

theorem set_int_source_mask_witness :
    (set_int_source (SimHost fun _ => 0)
      { world := { regs := fun _ => 0x0A, phase := SimPhase.ignore }, ce_level := false,
        _last_mode := NRF_STANDBY, _current_mode := NRF_STANDBY, trace := [] }
      NRF_TX_DS false).world.regs CONFIG &&& mask_bit NRF_TX_DS
      = (if false then 0 else mask_bit NRF_TX_DS) :=
  (set_int_source_mask (fun _ => 0)
    { world := { regs := fun _ => 0x0A, phase := SimPhase.ignore }, ce_level := false,
      _last_mode := NRF_STANDBY, _current_mode := NRF_STANDBY, trace := [] }
    NRF_TX_DS false (by decide)).1

/-- C13: for each width of 3, 4 or 5 bytes `set_address_width` writes the
width minus 2 to SETUP_AW (command 0x23), and over the simulated register
file a following `get_address_width` returns the width. -/
theorem address_width_roundtrip (junk : Nat → Nat) (s : nrf SimDevice)
    (w : nrf_address_width_t) :
    (set_address_width (SimHost junk) s w).trace
      = s.trace ++ [Event.spi [0x23, address_bytes w - 2]] ∧
    (set_address_width (SimHost junk) s w).world.regs SETUP_AW = address_bytes w - 2 ∧
    (get_address_width (SimHost junk) (set_address_width (SimHost junk) s w)).1
      = address_bytes w := by
  have hreg : (set_address_width (SimHost junk) s w).world.regs SETUP_AW = address_bytes w - 2 := by
    show (spi_write_register (SimHost junk) s SETUP_AW w.val).2.world.regs SETUP_AW = _
    rw [sim_write_register junk s SETUP_AW _ (by decide)]
    cases w <;> rfl
  refine ⟨?_, hreg, ?_⟩
  · show (spi_write_register (SimHost junk) s SETUP_AW w.val).2.trace = _
    rw [spi_write_register_trace]
    cases w <;> rfl
  · show ((spi_read_register (SimHost junk) _ SETUP_AW).2.1 + 2) % 256 = _
    rw [(sim_read_register junk _ SETUP_AW (by decide)).1, hreg]
    cases w <;> rfl

set_option maxRecDepth 100000 in
theorem low_nibble (x : Nat) (hx : x < 256) : x &&& 0x0F = x % 16 := by
  revert x
  decide

set_option maxRecDepth 100000 in
theorem pack_nibbles (a : Nat) (ha : a < 16) (b : Nat) (hb : b < 16) :
    ((a <<< 4) ||| b) % 256 = 16 * a + b := by
  revert b
  revert a
  decide

theorem retr_byte (c d : Nat) :
    (((d % 256 &&& 0x0F) <<< 4) ||| (c % 256 &&& 0x0F)) % 256 = 16 * (d % 16) + c % 16 := by
  have hd : d % 256 &&& 0x0F = d % 16 := by
    rw [low_nibble _ (Nat.mod_lt _ (by norm_num))]
    omega
  have hc : c % 256 &&& 0x0F = c % 16 := by
    rw [low_nibble _ (Nat.mod_lt _ (by norm_num))]
    omega
  rw [hd, hc]
  exact pack_nibbles _ (Nat.mod_lt _ (by norm_num)) _ (Nat.mod_lt _ (by norm_num))

/-- C14: over the simulated register file, after `set_retr_param(c, d)` the
register SETUP_RETR holds `16 * (d mod 16) + (c mod 16)` for arbitrary
arguments, `get_retr_param` returns that byte, and for `c, d` in `0..15` it is
`16 * d + c`. -/
theorem retr_param_roundtrip (junk : Nat → Nat) (s : nrf SimDevice) (c d : Nat) :
    (set_retr_param (SimHost junk) s c d).world.regs SETUP_RETR = 16 * (d % 16) + c % 16 ∧
    (get_retr_param (SimHost junk) (set_retr_param (SimHost junk) s c d)).1
      = 16 * (d % 16) + c % 16 ∧
    (c < 16 → d < 16 →
      (get_retr_param (SimHost junk) (set_retr_param (SimHost junk) s c d)).1 = 16 * d + c) := by
  have hreg : (set_retr_param (SimHost junk) s c d).world.regs SETUP_RETR
      = 16 * (d % 16) + c % 16 := by
    show (spi_write_register (SimHost junk) s SETUP_RETR _).2.world.regs SETUP_RETR = _
    rw [sim_write_register junk s SETUP_RETR _ (by decide)]
    simp only [if_true]
    exact retr_byte c d
  have hget : (get_retr_param (SimHost junk) (set_retr_param (SimHost junk) s c d)).1
      = 16 * (d % 16) + c % 16 := by
    show (spi_read_register (SimHost junk) _ SETUP_RETR).2.1 = _
    rw [(sim_read_register junk _ SETUP_RETR (by decide)).1, hreg]
    omega
  refine ⟨hreg, hget, ?_⟩
  intro hc hd
  rw [hget, Nat.mod_eq_of_lt hc, Nat.mod_eq_of_lt hd]

theorem retr_param_roundtrip_witness :
    (get_retr_param (SimHost fun _ => 0) (set_retr_param (SimHost fun _ => 0)
      { world := { regs := fun _ => 0, phase := SimPhase.ignore }, ce_level := false,
        _last_mode := NRF_STANDBY, _current_mode := NRF_STANDBY, trace := [] } 3 10)).1
      = 16 * 10 + 3 :=
  (retr_param_roundtrip (fun _ => 0)
    { world := { regs := fun _ => 0, phase := SimPhase.ignore }, ce_level := false,
      _last_mode := NRF_STANDBY, _current_mode := NRF_STANDBY, trace := [] } 3 10).2.2
    (by decide) (by decide)

set_option maxRecDepth 100000 in
theorem crc_bits (c : Nat) (hc : c < 256) :
    (((c &&& NOT CRCO) ||| EN_CRC) % 256 &&& EN_CRC = EN_CRC ∧
      ((c &&& NOT CRCO) ||| EN_CRC) % 256 &&& CRCO = 0 ∧
      ((c &&& NOT CRCO) ||| EN_CRC) % 256 % 256 &&& EN_CRC ≠ 0 ∧
      ¬ ((c &&& NOT CRCO) ||| EN_CRC) % 256 % 256 &&& CRCO ≠ 0) ∧
    ((c ||| CRCO ||| EN_CRC) % 256 &&& EN_CRC = EN_CRC ∧
      (c ||| CRCO ||| EN_CRC) % 256 &&& CRCO = CRCO ∧
      (c ||| CRCO ||| EN_CRC) % 256 % 256 &&& EN_CRC ≠ 0 ∧
      (c ||| CRCO ||| EN_CRC) % 256 % 256 &&& CRCO ≠ 0) := by
  revert c
  decide

theorem sim_set_crc_mode (junk : Nat → Nat) (s : nrf SimDevice) (m : nrf_crc_mode_t) :
    (set_crc_mode (SimHost junk) s m).world.regs CONFIG
      = match m with
        | NRF_CRC_1BYTE => ((s.world.regs CONFIG % 256 &&& NOT CRCO) ||| EN_CRC) % 256
        | NRF_CRC_2BYTES => (s.world.regs CONFIG % 256 ||| CRCO ||| EN_CRC) % 256 := by
  have hr := (sim_read_register junk s CONFIG (by decide)).1
  cases m <;>
    · show (spi_write_register (SimHost junk) (spi_read_register (SimHost junk) s CONFIG).2.2
        CONFIG _).2.world.regs CONFIG = _
      rw [sim_read_write junk s CONFIG _ (by decide), hr]
      simp

/-- C20: over the simulated register file, for every CONFIG content, after
`set_crc_mode(m)` the EN_CRC bit is set, the CRCO bit is set exactly when
`m = NRF_CRC_2BYTES`, and `get_crc_mode` returns 1 for NRF_CRC_1BYTE and 2 for
NRF_CRC_2BYTES, never 0. -/
theorem crc_mode_roundtrip (junk : Nat → Nat) (s : nrf SimDevice) (m : nrf_crc_mode_t) :
    (set_crc_mode (SimHost junk) s m).world.regs CONFIG &&& EN_CRC = EN_CRC ∧
    ((set_crc_mode (SimHost junk) s m).world.regs CONFIG &&& CRCO = CRCO ↔ m = NRF_CRC_2BYTES) ∧
    ((set_crc_mode (SimHost junk) s m).world.regs CONFIG &&& CRCO = 0 ↔ m = NRF_CRC_1BYTE) ∧
    (get_crc_mode (SimHost junk) (set_crc_mode (SimHost junk) s m)).1
      = (match m with
        | NRF_CRC_1BYTE => 1
        | NRF_CRC_2BYTES => 2) ∧
    (get_crc_mode (SimHost junk) (set_crc_mode (SimHost junk) s m)).1 ≠ 0 := by
  have hb := crc_bits (s.world.regs CONFIG % 256) (Nat.mod_lt _ (by norm_num))
  have hget : (get_crc_mode (SimHost junk) (set_crc_mode (SimHost junk) s m)).1
      = (match m with
        | NRF_CRC_1BYTE => 1
        | NRF_CRC_2BYTES => 2) := by
    simp only [get_crc_mode]
    rw [(sim_read_register junk _ CONFIG (by decide)).1, sim_set_crc_mode]
    cases m
    · simp only []
      rw [if_pos hb.1.2.2.1, if_neg hb.1.2.2.2]
    · simp only []
      rw [if_pos hb.2.2.2.1, if_pos hb.2.2.2.2]
  have hcrco : CRCO ≠ 0 := by decide
  refine ⟨?_, ?_, ?_, hget, ?_⟩
  · rw [sim_set_crc_mode]
    cases m
    · exact hb.1.1
    · exact hb.2.1
  · rw [sim_set_crc_mode]
    cases m
    · simp only []
      rw [hb.1.2.1]
      constructor
      · intro h; exact absurd h.symm hcrco
      · intro h; cases h
    · simp only []
      rw [hb.2.2.1]
      simp
  · rw [sim_set_crc_mode]
    cases m
    · simp only []
      rw [hb.1.2.1]
      simp
    · simp only []
      rw [hb.2.2.1]
      constructor
      · intro h; exact absurd h hcrco
      · intro h; cases h
  · rw [hget]
    cases m <;> simp

/-- The second half of `set_dynamic_payload`: DYNPD is read back and EN_DPL is
set or cleared in FEATURE. -/
theorem sim_feature_update (junk : Nat → Nat) (s1 : nrf SimDevice) :
    (if (spi_read_register (SimHost junk) s1 DYNPD).2.1 ≠ 0 then
      (spi_write_register (SimHost junk)
        (spi_read_register (SimHost junk) (spi_read_register (SimHost junk) s1 DYNPD).2.2
          FEATURE).2.2 FEATURE
        ((spi_read_register (SimHost junk) (spi_read_register (SimHost junk) s1 DYNPD).2.2
          FEATURE).2.1 ||| EN_DPL)).2
    else
      (spi_write_register (SimHost junk)
        (spi_read_register (SimHost junk) (spi_read_register (SimHost junk) s1 DYNPD).2.2
          FEATURE).2.2 FEATURE
        ((spi_read_register (SimHost junk) (spi_read_register (SimHost junk) s1 DYNPD).2.2
          FEATURE).2.1 &&& NOT EN_DPL)).2).world.regs
      = fun r => if r = FEATURE then
          (if s1.world.regs DYNPD % 256 ≠ 0 then (s1.world.regs FEATURE % 256 ||| EN_DPL) % 256
            else (s1.world.regs FEATURE % 256 &&& NOT EN_DPL) % 256)
        else s1.world.regs r := by
  have hd := sim_read_register junk s1 DYNPD (by decide)
  have hf := sim_read_register junk (spi_read_register (SimHost junk) s1 DYNPD).2.2 FEATURE
    (by decide)
  rw [hd.2] at hf
  rw [hd.1]
  split
  · rw [sim_read_write junk _ FEATURE _ (by decide), hf.1, hd.2]
  · rw [sim_read_write junk _ FEATURE _ (by decide), hf.1, hd.2]

/-- DYNPD and FEATURE after `set_dynamic_payload` over the simulated register
file. -/
theorem sim_set_dynamic_payload (junk : Nat → Nat) (s : nrf SimDevice) (p : nrf_address_t)
    (b : Bool) :
    (set_dynamic_payload (SimHost junk) s p b).world.regs DYNPD
      = (if b then (s.world.regs DYNPD % 256 ||| BIT p.val) % 256
        else (s.world.regs DYNPD % 256 &&& NOT (BIT p.val)) % 256) ∧
    (set_dynamic_payload (SimHost junk) s p b).world.regs FEATURE
      = (if (if b then (s.world.regs DYNPD % 256 ||| BIT p.val) % 256
            else (s.world.regs DYNPD % 256 &&& NOT (BIT p.val)) % 256) % 256 ≠ 0 then
          (s.world.regs FEATURE % 256 ||| EN_DPL) % 256
        else (s.world.regs FEATURE % 256 &&& NOT EN_DPL) % 256) := by
  have hr := (sim_read_register junk s DYNPD (by decide)).1
  have hDF : ¬ (DYNPD = FEATURE) := by decide
  have hFD : ¬ (FEATURE = DYNPD) := by decide
  cases b
  · have h1 := sim_read_write junk s DYNPD
      ((spi_read_register (SimHost junk) s DYNPD).2.1 &&& NOT (BIT p.val)) (by decide)
    have h2 := sim_feature_update junk (spi_write_register (SimHost junk)
      (spi_read_register (SimHost junk) s DYNPD).2.2 DYNPD
      ((spi_read_register (SimHost junk) s DYNPD).2.1 &&& NOT (BIT p.val))).2
    rw [h1] at h2
    constructor
    · exact (congrFun h2 DYNPD).trans (by simp [hDF, hr])
    · exact (congrFun h2 FEATURE).trans (by simp [hFD, hr])
  · have h1 := sim_read_write junk s DYNPD
      ((spi_read_register (SimHost junk) s DYNPD).2.1 ||| BIT p.val) (by decide)
    have h2 := sim_feature_update junk (spi_write_register (SimHost junk)
      (spi_read_register (SimHost junk) s DYNPD).2.2 DYNPD
      ((spi_read_register (SimHost junk) s DYNPD).2.1 ||| BIT p.val)).2
    rw [h1] at h2
    constructor
    · exact (congrFun h2 DYNPD).trans (by simp [hDF, hr])
    · exact (congrFun h2 FEATURE).trans (by simp [hFD, hr])

set_option maxRecDepth 100000 in
theorem dynpd_enable_bits (D : Nat) (hD : D < 256) (p : nrf_address_t) :
    (D ||| BIT p.val) % 256 &&& BIT p.val = BIT p.val ∧
    (D ||| BIT p.val) % 256 % 256 ≠ 0 ∧
    (D ||| BIT p.val) % 256 &&& (0xFF ^^^ BIT p.val) = D &&& (0xFF ^^^ BIT p.val) ∧
    (D &&& NOT (BIT p.val)) % 256 &&& (0xFF ^^^ BIT p.val) = D &&& (0xFF ^^^ BIT p.val) ∧
    (D &&& 0xC0 = 0 → D &&& 0x3F = BIT p.val → (D &&& NOT (BIT p.val)) % 256 = 0) := by
  cases p <;> revert D <;> decide

set_option maxRecDepth 100000 in
theorem feature_bits (F : Nat) (hF : F < 256) :
    (F ||| EN_DPL) % 256 &&& EN_DPL = EN_DPL ∧
    (F ||| EN_DPL) % 256 &&& (0xFF ^^^ EN_DPL) = F &&& (0xFF ^^^ EN_DPL) ∧
    (F &&& NOT EN_DPL) % 256 &&& EN_DPL = 0 ∧
    (F &&& NOT EN_DPL) % 256 &&& (0xFF ^^^ EN_DPL) = F &&& (0xFF ^^^ EN_DPL) := by
  revert F
  decide

/-- A bit kept by the mask `0xFF ^ m` is read the same in two bytes that agree
under that mask. -/
theorem bit_of_masked (x y m b : Nat) (hsub : b &&& (0xFF ^^^ m) = b)
    (h : x &&& (0xFF ^^^ m) = y &&& (0xFF ^^^ m)) : x &&& b = y &&& b := by
  rw [← hsub, ← Nat.and_assoc, ← Nat.and_assoc, Nat.and_comm x b, Nat.and_comm y b,
    Nat.and_assoc, Nat.and_assoc, h]

theorem other_pipe_bit (p q : nrf_address_t) (h : q ≠ p) :
    BIT q.val &&& (0xFF ^^^ BIT p.val) = BIT q.val := by
  cases p <;> cases q <;> first | exact absurd rfl h | decide

/-- C11: over the simulated register file with DYNPD bits 6-7 zero, for every
pipe `p`: `set_dynamic_payload(p, true)` leaves DYNPD bit `p` and the FEATURE
bit EN_DPL set; `set_dynamic_payload(p, false)`, when `p` is the only pipe
whose DYNPD bit is set, leaves DYNPD equal to 0 and EN_DPL clear; in both
cases the DYNPD bits of the other pipes and the FEATURE bits other than EN_DPL
are unchanged. -/
theorem set_dynamic_payload_bits (junk : Nat → Nat) (s : nrf SimDevice) (p : nrf_address_t)
    (hD : s.world.regs DYNPD < 256) (h_reserved : s.world.regs DYNPD &&& 0xC0 = 0)
    (hF : s.world.regs FEATURE < 256) :
    ((set_dynamic_payload (SimHost junk) s p true).world.regs DYNPD &&& BIT p.val = BIT p.val ∧
      (set_dynamic_payload (SimHost junk) s p true).world.regs FEATURE &&& EN_DPL = EN_DPL ∧
      (∀ q, q ≠ p → (set_dynamic_payload (SimHost junk) s p true).world.regs DYNPD &&& BIT q.val
        = s.world.regs DYNPD &&& BIT q.val) ∧
      (set_dynamic_payload (SimHost junk) s p true).world.regs FEATURE &&& (0xFF ^^^ EN_DPL)
        = s.world.regs FEATURE &&& (0xFF ^^^ EN_DPL)) ∧
    (s.world.regs DYNPD &&& 0x3F = BIT p.val →
      (set_dynamic_payload (SimHost junk) s p false).world.regs DYNPD = 0 ∧
      (set_dynamic_payload (SimHost junk) s p false).world.regs FEATURE &&& EN_DPL = 0 ∧
      (∀ q, q ≠ p → (set_dynamic_payload (SimHost junk) s p false).world.regs DYNPD &&& BIT q.val
        = s.world.regs DYNPD &&& BIT q.val) ∧
      (set_dynamic_payload (SimHost junk) s p false).world.regs FEATURE &&& (0xFF ^^^ EN_DPL)
        = s.world.regs FEATURE &&& (0xFF ^^^ EN_DPL)) := by
  have hDm : s.world.regs DYNPD % 256 = s.world.regs DYNPD := Nat.mod_eq_of_lt hD
  have hFm : s.world.regs FEATURE % 256 = s.world.regs FEATURE := Nat.mod_eq_of_lt hF
  have hd := dynpd_enable_bits _ hD p
  have hf := feature_bits _ hF
  constructor
  · have ht := sim_set_dynamic_payload junk s p true
    simp only [if_true, hDm, hFm] at ht
    rw [if_pos hd.2.1] at ht
    rw [ht.1, ht.2]
    refine ⟨hd.1, hf.1, ?_, hf.2.1⟩
    intro q hq
    exact bit_of_masked _ _ _ _ (other_pipe_bit p q hq) hd.2.2.1
  · intro h_only
    have ht := sim_set_dynamic_payload junk s p false
    simp only [Bool.false_eq_true, if_false, hDm, hFm] at ht
    have hz := hd.2.2.2.2 h_reserved h_only
    rw [hz] at ht
    simp only [Nat.zero_mod, ne_eq, not_true_eq_false, if_false] at ht
    rw [ht.1, ht.2]
    refine ⟨rfl, hf.2.2.1, ?_, hf.2.2.2⟩
    intro q hq
    have := bit_of_masked _ _ _ _ (other_pipe_bit p q hq) hd.2.2.2.1
    rw [hz] at this
    exact this

theorem set_dynamic_payload_bits_witness :
    (set_dynamic_payload (SimHost fun _ => 0)
      { world := { regs := fun r => if r = 0x1C then 0x02 else 0, phase := SimPhase.ignore },
        ce_level := false, _last_mode := NRF_STANDBY, _current_mode := NRF_STANDBY,
        trace := [] } NRF_PIPE1 false).world.regs DYNPD = 0 :=
  ((set_dynamic_payload_bits (fun _ => 0)
    { world := { regs := fun r => if r = 0x1C then 0x02 else 0, phase := SimPhase.ignore },
      ce_level := false, _last_mode := NRF_STANDBY, _current_mode := NRF_STANDBY,
      trace := [] } NRF_PIPE1 (by decide) (by decide) (by decide)).2 (by decide)).1

/-- C12 (as stated) fails: with DYNPD holding 0x40 (reserved bit 6) and
FEATURE 0, after `set_dynamic_payload(NRF_PIPE0, false)` EN_DPL is set although
none of the six per-pipe bits of DYNPD is. -/
theorem set_dynamic_payload_reserved_bit :
    (set_dynamic_payload (SimHost fun _ => 0)
      { world := { regs := fun r => if r = 0x1C then 0x40 else 0, phase := SimPhase.ignore },
        ce_level := false, _last_mode := NRF_STANDBY, _current_mode := NRF_STANDBY,
        trace := [] } NRF_PIPE0 false).world.regs FEATURE &&& EN_DPL = EN_DPL ∧
    (set_dynamic_payload (SimHost fun _ => 0)
      { world := { regs := fun r => if r = 0x1C then 0x40 else 0, phase := SimPhase.ignore },
        ce_level := false, _last_mode := NRF_STANDBY, _current_mode := NRF_STANDBY,
        trace := [] } NRF_PIPE0 false).world.regs DYNPD &&& 0x3F = 0 := by
  decide

set_option maxRecDepth 100000 in
theorem dynpd_pipe_bits (D : Nat) (hD : D < 256) (h_reserved : D &&& 0xC0 = 0)
    (p : nrf_address_t) :
    ((D ||| BIT p.val) % 256 ≠ 0 ↔ (D ||| BIT p.val) % 256 &&& 0x3F ≠ 0) ∧
    ((D &&& NOT (BIT p.val)) % 256 ≠ 0 ↔ (D &&& NOT (BIT p.val)) % 256 &&& 0x3F ≠ 0) := by
  cases p <;> revert D <;> decide

/-- C12 (amended): for every prior content of DYNPD and FEATURE, pipe and
flag, after `set_dynamic_payload` EN_DPL is set if and only if the DYNPD byte
is non-zero; when DYNPD is a byte with bits 6-7 zero, that is if and only if
at least one of the six per-pipe bits is set. -/
theorem set_dynamic_payload_consistent (junk : Nat → Nat) (s : nrf SimDevice)
    (p : nrf_address_t) (flag : Bool) :
    ((set_dynamic_payload (SimHost junk) s p flag).world.regs FEATURE &&& EN_DPL = EN_DPL ↔
      (set_dynamic_payload (SimHost junk) s p flag).world.regs DYNPD ≠ 0) ∧
    (s.world.regs DYNPD < 256 → s.world.regs DYNPD &&& 0xC0 = 0 →
      ((set_dynamic_payload (SimHost junk) s p flag).world.regs FEATURE &&& EN_DPL = EN_DPL ↔
        (set_dynamic_payload (SimHost junk) s p flag).world.regs DYNPD &&& 0x3F ≠ 0)) := by
  have ht := sim_set_dynamic_payload junk s p flag
  have hf := feature_bits (s.world.regs FEATURE % 256) (Nat.mod_lt _ (by norm_num))
  have hen : EN_DPL ≠ 0 := by decide
  have h1 : (set_dynamic_payload (SimHost junk) s p flag).world.regs FEATURE &&& EN_DPL = EN_DPL ↔
      (set_dynamic_payload (SimHost junk) s p flag).world.regs DYNPD ≠ 0 := by
    rw [ht.2, ← ht.1]
    generalize (set_dynamic_payload (SimHost junk) s p flag).world.regs DYNPD = D1 at ht
    have hD1 : D1 % 256 = D1 := by
      rw [ht.1]
      cases flag <;> simp
    rw [hD1]
    by_cases hz : D1 = 0
    · rw [if_neg (not_not.mpr hz), hf.2.2.1]
      constructor
      · intro h; exact absurd h.symm hen
      · intro h; exact absurd hz h
    · rw [if_pos hz, hf.1]
      exact ⟨fun _ => hz, fun _ => rfl⟩
  refine ⟨h1, ?_⟩
  intro hD hres
  rw [h1, ht.1, Nat.mod_eq_of_lt hD]
  have hb := dynpd_pipe_bits _ hD hres p
  cases flag
  · simpa using hb.2
  · simpa using hb.1

theorem set_dynamic_payload_consistent_witness :
    ((set_dynamic_payload (SimHost fun _ => 0)
      { world := { regs := fun r => if r = 0x1C then 0x02 else 0, phase := SimPhase.ignore },
        ce_level := false, _last_mode := NRF_STANDBY, _current_mode := NRF_STANDBY,
        trace := [] } NRF_PIPE0 true).world.regs FEATURE &&& EN_DPL = EN_DPL ↔
      (set_dynamic_payload (SimHost fun _ => 0)
      { world := { regs := fun r => if r = 0x1C then 0x02 else 0, phase := SimPhase.ignore },
        ce_level := false, _last_mode := NRF_STANDBY, _current_mode := NRF_STANDBY,
        trace := [] } NRF_PIPE0 true).world.regs DYNPD &&& 0x3F ≠ 0) :=
  (set_dynamic_payload_consistent (fun _ => 0)
    { world := { regs := fun r => if r = 0x1C then 0x02 else 0, phase := SimPhase.ignore },
      ce_level := false, _last_mode := NRF_STANDBY, _current_mode := NRF_STANDBY,
      trace := [] } NRF_PIPE0 true).2 (by decide) (by decide)

/-! ## RF parameters -/

set_option maxRecDepth 100000 in
theorem datarate_code_cases (reg : Nat) (hreg : reg < 256) :
    datarate_code reg ≤ 3 ∧
    (datarate_code reg = 3 ↔ reg &&& 0x20 ≠ 0 ∧ reg &&& 0x08 ≠ 0) ∧
    (datarate_code reg = 0 ↔ reg &&& 0x20 ≠ 0 ∧ reg &&& 0x08 = 0) ∧
    (datarate_code reg = 1 ↔ reg &&& 0x20 = 0 ∧ reg &&& 0x08 = 0) ∧
    (datarate_code reg = 2 ↔ reg &&& 0x20 = 0 ∧ reg &&& 0x08 ≠ 0) := by
  revert reg
  decide

/-- C22: for every RF_SETUP byte the device returns, `get_rf_datarate` returns
a value in `0..3`: 3 exactly when RF_DR_LOW (bit 5) and RF_DR_HIGH (bit 3) are
both set, 0 when only RF_DR_LOW is, 1 when neither is, 2 when only RF_DR_HIGH
is; the other bits play no part. -/
theorem get_rf_datarate_cases (H : Host σ) (s : nrf σ) :
    (get_rf_datarate H s).1 ≤ 3 ∧
    ((get_rf_datarate H s).1 = 3 ↔ (spi_read_register H s RF_SETUP).2.1 &&& 0x20 ≠ 0 ∧
      (spi_read_register H s RF_SETUP).2.1 &&& 0x08 ≠ 0) ∧
    ((get_rf_datarate H s).1 = 0 ↔ (spi_read_register H s RF_SETUP).2.1 &&& 0x20 ≠ 0 ∧
      (spi_read_register H s RF_SETUP).2.1 &&& 0x08 = 0) ∧
    ((get_rf_datarate H s).1 = 1 ↔ (spi_read_register H s RF_SETUP).2.1 &&& 0x20 = 0 ∧
      (spi_read_register H s RF_SETUP).2.1 &&& 0x08 = 0) ∧
    ((get_rf_datarate H s).1 = 2 ↔ (spi_read_register H s RF_SETUP).2.1 &&& 0x20 = 0 ∧
      (spi_read_register H s RF_SETUP).2.1 &&& 0x08 ≠ 0) :=
  datarate_code_cases _ (spi_read_register_byte H s RF_SETUP)

set_option maxRecDepth 100000 in
theorem datarate_bits (c : Nat) (hc : c < 256) :
    (datarate_code (((c &&& NOT RF_DR_HIGH) ||| RF_DR_LOW) % 256 % 256) = 0 ∧
      ((c &&& NOT RF_DR_HIGH) ||| RF_DR_LOW) % 256 &&& (0xFF ^^^ 0x28) = c &&& (0xFF ^^^ 0x28) ∧
      ((((c &&& NOT RF_DR_HIGH) ||| RF_DR_LOW) % 256 % 256 &&& RF_PWR) >>> 1) % 256
        = ((c &&& RF_PWR) >>> 1) % 256) ∧
    (datarate_code ((c &&& NOT (RF_DR_HIGH ||| RF_DR_LOW)) % 256 % 256) = 1 ∧
      (c &&& NOT (RF_DR_HIGH ||| RF_DR_LOW)) % 256 &&& (0xFF ^^^ 0x28) = c &&& (0xFF ^^^ 0x28) ∧
      (((c &&& NOT (RF_DR_HIGH ||| RF_DR_LOW)) % 256 % 256 &&& RF_PWR) >>> 1) % 256
        = ((c &&& RF_PWR) >>> 1) % 256) ∧
    (datarate_code (((c &&& NOT RF_DR_LOW) ||| RF_DR_HIGH) % 256 % 256) = 2 ∧
      ((c &&& NOT RF_DR_LOW) ||| RF_DR_HIGH) % 256 &&& (0xFF ^^^ 0x28) = c &&& (0xFF ^^^ 0x28) ∧
      ((((c &&& NOT RF_DR_LOW) ||| RF_DR_HIGH) % 256 % 256 &&& RF_PWR) >>> 1) % 256
        = ((c &&& RF_PWR) >>> 1) % 256) := by
  revert c
  decide

theorem sim_set_rf_datarate (junk : Nat → Nat) (s : nrf SimDevice) (r : nrf_datarate_t) :
    (set_rf_datarate (SimHost junk) s r).world.regs RF_SETUP
      = match r with
        | NRF_250KBPS => ((s.world.regs RF_SETUP % 256 &&& NOT RF_DR_HIGH) ||| RF_DR_LOW) % 256
        | NRF_1MBPS => (s.world.regs RF_SETUP % 256 &&& NOT (RF_DR_HIGH ||| RF_DR_LOW)) % 256
        | NRF_2MBPS => ((s.world.regs RF_SETUP % 256 &&& NOT RF_DR_LOW) ||| RF_DR_HIGH) % 256 := by
  have hr := (sim_read_register junk s RF_SETUP (by decide)).1
  cases r <;>
    · show (spi_write_register (SimHost junk) (spi_read_register (SimHost junk) s RF_SETUP).2.2
        RF_SETUP _).2.world.regs RF_SETUP = _
      rw [sim_read_write junk s RF_SETUP _ (by decide), hr]
      simp

/-- C21: over the simulated register file, for every RF_SETUP byte and every
rate, after `set_rf_datarate` `get_rf_datarate` returns the code of the rate
(0 for 250 kbps, 1 for 1 Mbps, 2 for 2 Mbps), RF_SETUP is unchanged outside
RF_DR_LOW (bit 5) and RF_DR_HIGH (bit 3), and `get_rf_power` returns what it
returned before. -/
theorem rf_datarate_roundtrip (junk : Nat → Nat) (s : nrf SimDevice) (r : nrf_datarate_t)
    (hc : s.world.regs RF_SETUP < 256) :
    (get_rf_datarate (SimHost junk) (set_rf_datarate (SimHost junk) s r)).1
      = (match r with
        | NRF_250KBPS => 0
        | NRF_1MBPS => 1
        | NRF_2MBPS => 2) ∧
    (set_rf_datarate (SimHost junk) s r).world.regs RF_SETUP &&& (0xFF ^^^ 0x28)
      = s.world.regs RF_SETUP &&& (0xFF ^^^ 0x28) ∧
    (get_rf_power (SimHost junk) (set_rf_datarate (SimHost junk) s r)).1
      = (get_rf_power (SimHost junk) s).1 := by
  have hb := datarate_bits _ hc
  have hcm : s.world.regs RF_SETUP % 256 = s.world.regs RF_SETUP := Nat.mod_eq_of_lt hc
  have hset := sim_set_rf_datarate junk s r
  rw [hcm] at hset
  have hget : (get_rf_datarate (SimHost junk) (set_rf_datarate (SimHost junk) s r)).1
      = datarate_code ((set_rf_datarate (SimHost junk) s r).world.regs RF_SETUP % 256) := by
    show datarate_code (spi_read_register (SimHost junk) _ RF_SETUP).2.1 = _
    rw [(sim_read_register junk _ RF_SETUP (by decide)).1]
  have hpow : ∀ t : nrf SimDevice, (get_rf_power (SimHost junk) t).1
      = ((t.world.regs RF_SETUP % 256 &&& RF_PWR) >>> 1) % 256 := by
    intro t
    show (((spi_read_register (SimHost junk) t RF_SETUP).2.1 &&& RF_PWR) >>> 1) % 256 = _
    rw [(sim_read_register junk t RF_SETUP (by decide)).1]
  rw [hget, hpow, hpow, hset, hcm]
  cases r
  · exact hb.1
  · exact hb.2.1
  · exact hb.2.2

theorem rf_datarate_roundtrip_witness :
    (get_rf_datarate (SimHost fun _ => 0) (set_rf_datarate (SimHost fun _ => 0)
      { world := { regs := fun _ => 0x0F, phase := SimPhase.ignore }, ce_level := false,
        _last_mode := NRF_STANDBY, _current_mode := NRF_STANDBY, trace := [] } NRF_250KBPS)).1
      = 0 :=
  (rf_datarate_roundtrip (fun _ => 0)
    { world := { regs := fun _ => 0x0F, phase := SimPhase.ignore }, ce_level := false,
      _last_mode := NRF_STANDBY, _current_mode := NRF_STANDBY, trace := [] } NRF_250KBPS
    (by decide)).1

/-! ## Pipes -/

set_option maxRecDepth 100000 in
theorem pipe_bits (x : Nat) (hx : x < 256) (p : nrf_address_t) :
    ((x ||| BIT p.val) % 256 &&& BIT p.val = BIT p.val ∧
      (x ||| BIT p.val) % 256 &&& (0xFF ^^^ BIT p.val) = x &&& (0xFF ^^^ BIT p.val)) ∧
    ((x &&& NOT (BIT p.val)) % 256 &&& BIT p.val = 0 ∧
      (x &&& NOT (BIT p.val)) % 256 &&& (0xFF ^^^ BIT p.val) = x &&& (0xFF ^^^ BIT p.val)) := by
  cases p <;> revert x <;> decide

/-- EN_RXADDR and EN_AA after the two read-modify-writes of `enable_rx_pipe`
and `disable_rx_pipe`, for the values `f`, `g` computed from the bytes read. -/
theorem sim_two_registers (junk : Nat → Nat) (s : nrf SimDevice) (f g : Nat → Nat) :
    (spi_write_register (SimHost junk)
      (spi_read_register (SimHost junk)
        (spi_write_register (SimHost junk) (spi_read_register (SimHost junk) s EN_RXADDR).2.2
          EN_RXADDR (f (spi_read_register (SimHost junk) s EN_RXADDR).2.1)).2 EN_AA).2.2
      EN_AA (g (spi_read_register (SimHost junk)
        (spi_write_register (SimHost junk) (spi_read_register (SimHost junk) s EN_RXADDR).2.2
          EN_RXADDR (f (spi_read_register (SimHost junk) s EN_RXADDR).2.1)).2
            EN_AA).2.1)).2.world.regs
      = fun r => if r = EN_AA then g (s.world.regs EN_AA % 256) % 256
        else if r = EN_RXADDR then f (s.world.regs EN_RXADDR % 256) % 256
        else s.world.regs r := by
  have h1 := sim_read_write junk s EN_RXADDR (f (spi_read_register (SimHost junk) s EN_RXADDR).2.1)
    (by decide)
  have hr1 := (sim_read_register junk s EN_RXADDR (by decide)).1
  have hr2 := (sim_read_register junk (spi_write_register (SimHost junk)
    (spi_read_register (SimHost junk) s EN_RXADDR).2.2 EN_RXADDR
    (f (spi_read_register (SimHost junk) s EN_RXADDR).2.1)).2 EN_AA (by decide)).1
  rw [sim_read_write junk _ EN_AA _ (by decide), hr2, h1, hr1]
  have hne : ¬ (EN_AA = EN_RXADDR) := by decide
  simp [hne]

/-- C23: over the simulated register file, for every pipe, auto-ack flag and
prior EN_RXADDR and EN_AA bytes: after `enable_rx_pipe(p, a)` bit `p` of
EN_RXADDR is set and bit `p` of EN_AA equals `a`; after `disable_rx_pipe(p)`
bit `p` is clear in both; in both cases the two registers are unchanged outside
bit `p`. -/
theorem rx_pipe_bits (junk : Nat → Nat) (s : nrf SimDevice) (p : nrf_address_t) (a : Bool)
    (hE : s.world.regs EN_RXADDR < 256) (hA : s.world.regs EN_AA < 256) :
    ((enable_rx_pipe (SimHost junk) s p a).world.regs EN_RXADDR &&& BIT p.val = BIT p.val ∧
      (enable_rx_pipe (SimHost junk) s p a).world.regs EN_AA &&& BIT p.val
        = (if a then BIT p.val else 0) ∧
      (enable_rx_pipe (SimHost junk) s p a).world.regs EN_RXADDR &&& (0xFF ^^^ BIT p.val)
        = s.world.regs EN_RXADDR &&& (0xFF ^^^ BIT p.val) ∧
      (enable_rx_pipe (SimHost junk) s p a).world.regs EN_AA &&& (0xFF ^^^ BIT p.val)
        = s.world.regs EN_AA &&& (0xFF ^^^ BIT p.val)) ∧
    ((disable_rx_pipe (SimHost junk) s p).world.regs EN_RXADDR &&& BIT p.val = 0 ∧
      (disable_rx_pipe (SimHost junk) s p).world.regs EN_AA &&& BIT p.val = 0 ∧
      (disable_rx_pipe (SimHost junk) s p).world.regs EN_RXADDR &&& (0xFF ^^^ BIT p.val)
        = s.world.regs EN_RXADDR &&& (0xFF ^^^ BIT p.val) ∧
      (disable_rx_pipe (SimHost junk) s p).world.regs EN_AA &&& (0xFF ^^^ BIT p.val)
        = s.world.regs EN_AA &&& (0xFF ^^^ BIT p.val)) := by
  have hEm : s.world.regs EN_RXADDR % 256 = s.world.regs EN_RXADDR := Nat.mod_eq_of_lt hE
  have hAm : s.world.regs EN_AA % 256 = s.world.regs EN_AA := Nat.mod_eq_of_lt hA
  have hbE := pipe_bits _ hE p
  have hbA := pipe_bits _ hA p
  have hne : ¬ (EN_RXADDR = EN_AA) := by decide
  constructor
  · cases a
    · have h := sim_two_registers junk s (fun x => x ||| BIT p.val)
        (fun x => x &&& NOT (BIT p.val))
      have hw : (enable_rx_pipe (SimHost junk) s p false).world.regs = _ := h
      rw [hw]
      simp only [hne, if_true, if_false, hEm, hAm]
      exact ⟨hbE.1.1, hbA.2.1, hbE.1.2, hbA.2.2⟩
    · have h := sim_two_registers junk s (fun x => x ||| BIT p.val)
        (fun x => x ||| BIT p.val)
      have hw : (enable_rx_pipe (SimHost junk) s p true).world.regs = _ := h
      rw [hw]
      simp only [hne, if_true, if_false, hEm, hAm]
      exact ⟨hbE.1.1, hbA.1.1, hbE.1.2, hbA.1.2⟩
  · have h := sim_two_registers junk s (fun x => x &&& NOT (BIT p.val))
      (fun x => x &&& NOT (BIT p.val))
    have hw : (disable_rx_pipe (SimHost junk) s p).world.regs = _ := h
    rw [hw]
    simp only [hne, if_true, if_false, hEm, hAm]
    exact ⟨hbE.2.1, hbA.2.1, hbE.2.2, hbA.2.2⟩

theorem rx_pipe_bits_witness :
    (enable_rx_pipe (SimHost fun _ => 0)
      { world := { regs := fun _ => 0x03, phase := SimPhase.ignore }, ce_level := false,
        _last_mode := NRF_STANDBY, _current_mode := NRF_STANDBY, trace := [] }
      NRF_PIPE2 false).world.regs EN_RXADDR &&& BIT NRF_PIPE2.val = BIT NRF_PIPE2.val :=
  (rx_pipe_bits (fun _ => 0)
    { world := { regs := fun _ => 0x03, phase := SimPhase.ignore }, ce_level := false,
      _last_mode := NRF_STANDBY, _current_mode := NRF_STANDBY, trace := [] }
    NRF_PIPE2 false (by decide) (by decide)).1.1

theorem width_field (w : Nat) : w % 256 &&& 0x3F = w % 64 := by
  have h := Nat.and_pow_two_sub_one_eq_mod (w % 256) 6
  have h63 : (2 : Nat) ^ 6 - 1 = 0x3F := by norm_num
  rw [h63] at h
  rw [h]
  omega

theorem width_register (p : nrf_address_t) :
    RX_PW_P0 + p.val = 0x11 + p.val ∧ 0x11 + p.val < 32 ∧
    (0x20 ||| ((RX_PW_P0 + p.val) % 256 &&& 0x1F)) % 256 = 0x31 + p.val := by
  cases p <;> decide

theorem width_register_inj (p q : nrf_address_t) (h : q ≠ p) :
    ¬ (RX_PW_P0 + q.val = RX_PW_P0 + p.val) := by
  cases p <;> cases q <;> first | exact absurd rfl h | decide

/-- C25: for every pipe `p` and width `w`, `set_static_payload_width(p, w)`
writes `w mod 64` to register `0x11 + p`; over the simulated register file a
following `get_static_payload_width(p)` returns `w mod 64`, hence `w` for
`w ≤ 32`, and the width registers of the other pipes are unchanged. -/
theorem static_payload_width_roundtrip (junk : Nat → Nat) (s : nrf SimDevice)
    (p : nrf_address_t) (w : Nat) :
    (set_static_payload_width (SimHost junk) s p w).trace
      = s.trace ++ [Event.spi [0x31 + p.val, w % 64]] ∧
    (set_static_payload_width (SimHost junk) s p w).world.regs (0x11 + p.val) = w % 64 ∧
    (get_static_payload_width (SimHost junk)
      (set_static_payload_width (SimHost junk) s p w) p).1 = w % 64 ∧
    (w ≤ 32 → (get_static_payload_width (SimHost junk)
      (set_static_payload_width (SimHost junk) s p w) p).1 = w) ∧
    (∀ q, q ≠ p → (set_static_payload_width (SimHost junk) s p w).world.regs (0x11 + q.val)
      = s.world.regs (0x11 + q.val)) := by
  obtain ⟨ha, hlt, hcmd⟩ := width_register p
  have hlt2 : RX_PW_P0 + p.val < 32 := by rw [ha]; exact hlt
  have hregs := sim_write_register junk s (RX_PW_P0 + p.val) (w % 256 &&& 0x3F) hlt2
  have hw64 : w % 256 &&& 0x3F = w % 64 := width_field w
  have h64 : w % 64 % 256 = w % 64 := by omega
  have hreg : (set_static_payload_width (SimHost junk) s p w).world.regs (0x11 + p.val)
      = w % 64 := by
    show (spi_write_register (SimHost junk) s (RX_PW_P0 + p.val) _).2.world.regs _ = _
    rw [hregs, hw64, h64, ← ha]
    simp
  have hget : (get_static_payload_width (SimHost junk)
      (set_static_payload_width (SimHost junk) s p w) p).1 = w % 64 := by
    show (spi_read_register (SimHost junk) _ (RX_PW_P0 + p.val)).2.1 = _
    rw [(sim_read_register junk _ (RX_PW_P0 + p.val) hlt2).1, ha, hreg]
    omega
  refine ⟨?_, hreg, hget, ?_, ?_⟩
  · show (spi_write_register (SimHost junk) s (RX_PW_P0 + p.val) _).2.trace = _
    rw [spi_write_register_trace, hw64, h64]
    show s.trace ++ [Event.spi [(0x20 ||| ((RX_PW_P0 + p.val) % 256 &&& 0x1F)) % 256, _]] = _
    rw [hcmd]
  · intro hw
    rw [hget]
    omega
  · intro q hq
    show (spi_write_register (SimHost junk) s (RX_PW_P0 + p.val) _).2.world.regs _ = _
    rw [hregs, ← (width_register q).1]
    simp [width_register_inj p q hq]

theorem static_payload_width_roundtrip_witness :
    (get_static_payload_width (SimHost fun _ => 0)
      (set_static_payload_width (SimHost fun _ => 0)
        { world := { regs := fun _ => 0, phase := SimPhase.ignore }, ce_level := false,
          _last_mode := NRF_STANDBY, _current_mode := NRF_STANDBY, trace := [] }
        NRF_PIPE3 32) NRF_PIPE3).1 = 32 :=
  (static_payload_width_roundtrip (fun _ => 0)
    { world := { regs := fun _ => 0, phase := SimPhase.ignore }, ce_level := false,
      _last_mode := NRF_STANDBY, _current_mode := NRF_STANDBY, trace := [] }
    NRF_PIPE3 32).2.2.2.1 (by decide)

/-- C26 fails on the code: over the simulated register file, after
`set_rf_channel(126)` the channel `get_rf_channel` returns is 126, outside
`0..125`; the setter masks with 0x7F and does not clamp. -/
theorem rf_channel_above_125 :
    (get_rf_channel (SimHost fun _ => 0) (set_rf_channel (SimHost fun _ => 0)
      { world := { regs := fun _ => 0, phase := SimPhase.ignore }, ce_level := false,
        _last_mode := NRF_POWER_DOWN, _current_mode := NRF_POWER_DOWN, trace := [] } 126)).1
      = 126 ∧
    ¬ (get_rf_channel (SimHost fun _ => 0) (set_rf_channel (SimHost fun _ => 0)
      { world := { regs := fun _ => 0, phase := SimPhase.ignore }, ce_level := false,
        _last_mode := NRF_POWER_DOWN, _current_mode := NRF_POWER_DOWN, trace := [] } 126)).1
      ≤ 125 := by
  decide

theorem take_whole (c n : Nat) (l : List Nat) (hl : l.length = n) (hn : n ≤ 254) :
    List.take ((n + 1) % 256) (c :: l) = c :: l := by
  rw [Nat.mod_eq_of_lt (by omega)]
  apply List.take_of_length_le
  simp [hl]

theorem address_register (p : nrf_address_t) :
    (0x20 ||| ((RX_ADDR_P0 + p.val) % 256 &&& 0x1F)) % 256 = 0x2A + p.val := by
  cases p <;> decide

/-- C24 (as stated) fails for `n = 255`: the size `n + 1 = 256` of the block is
passed to `spi_transfer` as a `uint8_t`, so the transaction for pipe 0 carries
no byte at all. -/
theorem set_rx_address_wraps :
    (set_rx_address ScriptHost (scripted [0x0E, 0, 0, 0] false) NRF_PIPE0 (fun i => i + 1)
      255).trace = [Event.spi []] := by
  decide

/-- C24 (amended): for pipes 0 and 1 and `n ≤ 254`, `set_rx_address(p, addr, n)`
issues one write-register transaction to register `0x0A + p` (command byte
`0x2A + p`) carrying `addr[0..n)` in order; for pipes 2 to 5 it issues the
two-byte transaction `[0x2A + p, addr[0]]` whatever the length argument is. -/
theorem set_rx_address_spec (H : Host σ) (s : nrf σ) (p : nrf_address_t) (addr : Nat → Nat)
    (n : Nat) (hn : n ≤ 254) (h_bytes : ∀ i, i < n → addr i < 256) (h0 : addr 0 < 256) :
    ((p = NRF_PIPE0 ∨ p = NRF_PIPE1) →
      (set_rx_address H s p addr n).trace
        = s.trace ++ [Event.spi ((0x2A + p.val) :: (List.range n).map addr)] ∧
      ((0x2A + p.val) :: (List.range n).map addr).length = n + 1) ∧
    (p ≠ NRF_PIPE0 → p ≠ NRF_PIPE1 → ∀ m,
      (set_rx_address H s p addr m).trace = s.trace ++ [Event.spi [0x2A + p.val, addr 0]]) := by
  have hcmd := address_register p
  have hnm : n % 256 = n := Nat.mod_eq_of_lt (by omega)
  have hmulti : (spi_write_multibyte_register H s (RX_ADDR_P0 + p.val) addr n).2.trace
      = s.trace ++ [Event.spi ((0x2A + p.val) :: (List.range n).map addr)] := by
    simp only [spi_write_multibyte_register, hnm, map_bytes addr n h_bytes, spi_transfer_trace]
    rw [take_whole _ n _ (by simp) hn]
    show s.trace ++ [Event.spi ((0x20 ||| ((RX_ADDR_P0 + p.val) % 256 &&& 0x1F)) % 256 :: _)] = _
    rw [hcmd]
  have hsingle : (spi_write_register H s (RX_ADDR_P0 + p.val) (addr 0)).2.trace
      = s.trace ++ [Event.spi [0x2A + p.val, addr 0]] := by
    rw [spi_write_register_trace, Nat.mod_eq_of_lt h0]
    show s.trace ++ [Event.spi [(0x20 ||| ((RX_ADDR_P0 + p.val) % 256 &&& 0x1F)) % 256, _]] = _
    rw [hcmd]
  constructor
  · intro hp
    refine ⟨?_, by simp⟩
    rcases hp with hp | hp <;> subst hp <;> exact hmulti
  · intro h0p h1p m
    cases p
    · exact absurd rfl h0p
    · exact absurd rfl h1p
    all_goals exact hsingle

theorem set_rx_address_spec_witness :
    (set_rx_address ScriptHost (scripted [0x0E, 0, 0, 0, 0, 0] false) NRF_PIPE1
      (fun i => i + 1) 5).trace = [Event.spi [0x2B, 1, 2, 3, 4, 5]] :=
  ((set_rx_address_spec ScriptHost (scripted [0x0E, 0, 0, 0, 0, 0] false) NRF_PIPE1
    (fun i => i + 1) 5 (by decide) (by intro i hi; show i + 1 < 256; omega) (by decide)).1
    (Or.inr rfl)).1

/-! ## No payload ceiling on submission, and flags cleared together -/

/-- C29 (as stated) fails: with the TX FIFO not full, `write_tx_payload` of a
33-byte payload returns true and sends a write-TX-payload transaction of 34
bytes. -/
theorem write_tx_payload_33_bytes :
    (write_tx_payload ScriptHost (scripted [0x0E, 0x11] true) (fun _ => 0x55) 33 true).1 = true ∧
    (write_tx_payload ScriptHost (scripted [0x0E, 0x11] true) (fun _ => 0x55) 33 true).2.trace
      = [Event.spi [0x17, 0], Event.spi (0xA0 :: List.replicate 33 0x55)] := by
  decide

/-- C29 (amended): `write_tx_payload` checks the FIFO only.  For every payload
length `n ≤ 254`, lengths above 32 included, it returns false exactly when
FIFO_STATUS has TX_FIFO_FULL set, and otherwise sends one write-TX-payload
transaction of `n + 1` bytes carrying the whole payload. -/
theorem write_tx_payload_unbounded (H : Host σ) (s : nrf σ) (buff : Nat → Nat) (n : Nat)
    (auto_ack : Bool) (hn : n ≤ 254) (h_bytes : ∀ i, i < n → buff i < 256) :
    ((write_tx_payload H s buff n auto_ack).1 = false ↔ (get_fifo_status H s).1 &&& 0x20 ≠ 0) ∧
    ((get_fifo_status H s).1 &&& 0x20 = 0 →
      ((if auto_ack then 0xA0 else 0xB0) :: (List.range n).map buff).length = n + 1 ∧
      (write_tx_payload H s buff n auto_ack).2.trace
        = s.trace ++ [Event.spi [0x17, H.uninit s.world 1 % 256],
            Event.spi ((if auto_ack then 0xA0 else 0xB0) :: (List.range n).map buff)]) := by
  have hfull : TX_FIFO_FULL = 0x20 := by decide
  have hn256 : n % 256 = n := Nat.mod_eq_of_lt (by omega)
  constructor
  · by_cases hf : (get_fifo_status H s).1 &&& 0x20 = 0
    · simp [write_tx_payload, hfull, hf]
    · simp [write_tx_payload, hfull, hf]
  · intro hf
    refine ⟨by simp, ?_⟩
    have htake : ∀ c : Nat, List.take ((n + 1) % 256) (c :: (List.range n).map buff)
        = c :: (List.range n).map buff := fun c => take_whole c n _ (by simp) hn
    cases auto_ack <;>
      simp [write_tx_payload, hfull, hf, hn256, map_bytes buff n h_bytes, htake, W_TX_PAYLOAD,
        W_TX_PAYLOAD_NOACK]

theorem write_tx_payload_unbounded_witness :
    (write_tx_payload ScriptHost (scripted [0x0E, 0x11] true) (fun _ => 0x55) 40 false).2.trace
      = (scripted [0x0E, 0x11] true).trace ++ [Event.spi [0x17,
          ScriptHost.uninit (scripted [0x0E, 0x11] true).world 1 % 256],
        Event.spi ((if false then 0xA0 else 0xB0) :: (List.range 40).map fun _ => 0x55)] :=
  ((write_tx_payload_unbounded ScriptHost (scripted [0x0E, 0x11] true) (fun _ => 0x55) 40 false
    (by decide) (by intro i _; show 0x55 < 256; decide)).2 (by decide)).2

/-- C28 fails on the code: with TX_DS and MAX_RT both pending (status 0x30),
`clear_int_flag(NRF_MAX_RT)` writes the byte 0x30 to STATUS, and under
write-1-to-clear semantics the pending TX_DS flag is cleared as well. -/
theorem clear_int_flag_clears_pending :
    (clear_int_flag ScriptHost (scripted [0x30, 0x30, 0x00] true) NRF_MAX_RT).trace
      = [Event.spi [0xFF], Event.spi [0x27, 0x30]] ∧
    0x30 &&& flag_bit NRF_TX_DS ≠ 0 ∧
    write_one_to_clear 0x30 0x30 &&& flag_bit NRF_TX_DS = 0 := by
  decide

/-! ## Waiting for a packet with a timeout -/

theorem available_eq (H : Host σ) (s : nrf σ) :
    (available H s).2 = (get_fifo_status H s).2 ∧
    ((available H s).1 = true ↔ (get_fifo_status H s).1 &&& 0x01 = 0) := by
  have hrx : RX_EMPTY = 0x01 := by decide
  simp only [available, hrx]
  split <;> simp_all

/-- The loop test of the code, `(millis() - currentTime) < timeout` on 32-bit
unsigned values, is the comparison `(reading - start) mod 2^32 < t`. -/
theorem within_timeout_iff (c t m : Nat) (ht : t < 2 ^ 32) :
    within_timeout c t m = true ↔ elapsed c m < (t : Int) := by
  unfold within_timeout elapsed
  rw [decide_eq_true_iff, Nat.mod_eq_of_lt ht]
  omega

theorem packet_at_poll_zero (H : Host σ) (c t m : Nat) (tl : List Nat) (s : nrf σ) :
    packet_at_poll H c t (m :: tl) s 0 ↔
      elapsed c m < (t : Int) ∧ (get_fifo_status H s).1 &&& 0x01 = 0 := by
  constructor
  · intro h
    exact ⟨by simpa using h.2.1 0 (Nat.le_refl 0), h.2.2.2⟩
  · intro h
    refine ⟨by simp, ?_, ?_, h.2⟩
    · intro i hi
      have : i = 0 := by omega
      subst this
      simpa using h.1
    · intro i hi
      omega

theorem packet_at_poll_succ (H : Host σ) (c t m : Nat) (tl : List Nat) (s : nrf σ) (k : Nat) :
    packet_at_poll H c t (m :: tl) s (k + 1) ↔
      elapsed c m < (t : Int) ∧ (get_fifo_status H s).1 &&& 0x01 ≠ 0 ∧
      packet_at_poll H c t tl (get_fifo_status H s).2 k := by
  constructor
  · intro h
    refine ⟨by simpa using h.2.1 0 (Nat.zero_le _), h.2.2.1 0 (Nat.succ_pos k), ?_, ?_, ?_, ?_⟩
    · have := h.1
      simp only [List.length_cons] at this
      omega
    · intro i hi
      have := h.2.1 (i + 1) (by omega)
      simpa using this
    · intro i hi
      exact h.2.2.1 (i + 1) (by omega)
    · exact h.2.2.2
  · intro h
    obtain ⟨hw, he, hk, hwin, hemp, hfull⟩ := h
    refine ⟨by simp only [List.length_cons]; omega, ?_, ?_, hfull⟩
    · intro i hi
      cases i with
      | zero => simpa using hw
      | succ j => simpa using hwin j (by omega)
    · intro i hi
      cases i with
      | zero => exact he
      | succ j => exact hemp j (by omega)

theorem timeout_at_reading_zero (H : Host σ) (c t m : Nat) (tl : List Nat) (s : nrf σ) :
    timeout_at_reading H c t (m :: tl) s 0 ↔ (t : Int) ≤ elapsed c m := by
  constructor
  · intro h
    simpa using h.2.2
  · intro h
    refine ⟨by simp, ?_, by simpa using h⟩
    intro i hi
    omega

theorem timeout_at_reading_succ (H : Host σ) (c t m : Nat) (tl : List Nat) (s : nrf σ)
    (k : Nat) :
    timeout_at_reading H c t (m :: tl) s (k + 1) ↔
      elapsed c m < (t : Int) ∧ (get_fifo_status H s).1 &&& 0x01 ≠ 0 ∧
      timeout_at_reading H c t tl (get_fifo_status H s).2 k := by
  constructor
  · intro h
    have h0 := h.2.1 0 (Nat.succ_pos k)
    refine ⟨by simpa using h0.1, h0.2, ?_, ?_, ?_⟩
    · have := h.1
      simp only [List.length_cons] at this
      omega
    · intro i hi
      have := h.2.1 (i + 1) (by omega)
      exact ⟨by simpa using this.1, this.2⟩
    · simpa using h.2.2
  · intro h
    obtain ⟨hw, he, hk, hbefore, hout⟩ := h
    refine ⟨by simp only [List.length_cons]; omega, ?_, by simpa using hout⟩
    intro i hi
    cases i with
    | zero => exact ⟨by simpa using hw, he⟩
    | succ j =>
      have := hbefore j (by omega)
      exact ⟨by simpa using this.1, this.2⟩

theorem wait_available_timeout_loop_cons (H : Host σ) (c t m : Nat) (tl : List Nat)
    (s : nrf σ) :
    wait_available_timeout_loop H c t (m :: tl) s =
      if within_timeout c t m = true then
        if (get_fifo_status H s).1 &&& 0x01 = 0 then some (true, (get_fifo_status H s).2)
        else wait_available_timeout_loop H c t tl (get_fifo_status H s).2
      else some (false, s) := by
  obtain ⟨h2, h1⟩ := available_eq H s
  simp only [wait_available_timeout_loop]
  by_cases hw : within_timeout c t m = true
  · rw [if_pos hw, if_pos hw]
    by_cases ha : (get_fifo_status H s).1 &&& 0x01 = 0
    · rw [if_pos (h1.mpr ha), if_pos ha, h2]
    · rw [if_neg (fun hh => ha (h1.mp hh)), if_neg ha, h2]
  · rw [if_neg hw, if_neg hw]

theorem wait_available_timeout_loop_true (H : Host σ) (c t : Nat) (clock : List Nat)
    (s s1 : nrf σ) (ht : t < 2 ^ 32) :
    wait_available_timeout_loop H c t clock s = some (true, s1) ↔
      ∃ k, packet_at_poll H c t clock s k ∧ s1 = fifo_polls H (k + 1) s := by
  induction clock generalizing s with
  | nil =>
    constructor
    · intro h
      simp [wait_available_timeout_loop] at h
    · rintro ⟨k, hk, -⟩
      exact absurd hk.1 (by simp)
  | cons m tl ih =>
    rw [wait_available_timeout_loop_cons]
    have he := within_timeout_iff c t m ht
    by_cases hw : within_timeout c t m = true
    · rw [if_pos hw]
      by_cases ha : (get_fifo_status H s).1 &&& 0x01 = 0
      · rw [if_pos ha]
        constructor
        · intro h
          injection h with h
          injection h with _ h
          exact ⟨0, (packet_at_poll_zero H c t m tl s).mpr ⟨he.mp hw, ha⟩, h.symm⟩
        · rintro ⟨k, hk, hs1⟩
          cases k with
          | zero => rw [hs1]; rfl
          | succ j => exact absurd ha ((packet_at_poll_succ H c t m tl s j).mp hk).2.1
      · rw [if_neg ha, ih]
        constructor
        · rintro ⟨k, hk, hs1⟩
          exact ⟨k + 1, (packet_at_poll_succ H c t m tl s k).mpr ⟨he.mp hw, ha, hk⟩, hs1⟩
        · rintro ⟨k, hk, hs1⟩
          cases k with
          | zero => exact absurd ((packet_at_poll_zero H c t m tl s).mp hk).2 ha
          | succ j => exact ⟨j, ((packet_at_poll_succ H c t m tl s j).mp hk).2.2, hs1⟩
    · rw [if_neg hw]
      constructor
      · intro h
        injection h with h
        injection h with h _
        exact absurd h (by simp)
      · rintro ⟨k, hk, -⟩
        cases k with
        | zero => exact absurd (he.mpr ((packet_at_poll_zero H c t m tl s).mp hk).1) hw
        | succ j => exact absurd (he.mpr ((packet_at_poll_succ H c t m tl s j).mp hk).1) hw

theorem wait_available_timeout_loop_false (H : Host σ) (c t : Nat) (clock : List Nat)
    (s s1 : nrf σ) (ht : t < 2 ^ 32) :
    wait_available_timeout_loop H c t clock s = some (false, s1) ↔
      ∃ k, timeout_at_reading H c t clock s k ∧ s1 = fifo_polls H k s := by
  induction clock generalizing s with
  | nil =>
    constructor
    · intro h
      simp [wait_available_timeout_loop] at h
    · rintro ⟨k, hk, -⟩
      exact absurd hk.1 (by simp)
  | cons m tl ih =>
    rw [wait_available_timeout_loop_cons]
    have he := within_timeout_iff c t m ht
    by_cases hw : within_timeout c t m = true
    · rw [if_pos hw]
      by_cases ha : (get_fifo_status H s).1 &&& 0x01 = 0
      · rw [if_pos ha]
        constructor
        · intro h
          injection h with h
          injection h with h _
          exact absurd h (by simp)
        · rintro ⟨k, hk, -⟩
          cases k with
          | zero =>
            have := (timeout_at_reading_zero H c t m tl s).mp hk
            exact absurd (he.mp hw) (by omega)
          | succ j => exact absurd ha ((timeout_at_reading_succ H c t m tl s j).mp hk).2.1
      · rw [if_neg ha, ih]
        constructor
        · rintro ⟨k, hk, hs1⟩
          exact ⟨k + 1, (timeout_at_reading_succ H c t m tl s k).mpr ⟨he.mp hw, ha, hk⟩, hs1⟩
        · rintro ⟨k, hk, hs1⟩
          cases k with
          | zero =>
            have := (timeout_at_reading_zero H c t m tl s).mp hk
            exact absurd (he.mp hw) (by omega)
          | succ j => exact ⟨j, ((timeout_at_reading_succ H c t m tl s j).mp hk).2.2, hs1⟩
    · rw [if_neg hw]
      have hwf : (t : Int) ≤ elapsed c m := by
        by_contra hlt
        exact hw (he.mpr (by omega))
      constructor
      · intro h
        injection h with h
        injection h with _ h
        exact ⟨0, (timeout_at_reading_zero H c t m tl s).mpr hwf, h.symm⟩
      · rintro ⟨k, hk, hs1⟩
        cases k with
        | zero => rw [hs1]; rfl
        | succ j => exact absurd (he.mpr ((timeout_at_reading_succ H c t m tl s j).mp hk).1) hw

theorem fifo_polls_trace (H : Host σ) (n : Nat) (s : nrf σ) :
    ∃ evs, (fifo_polls H n s).trace = s.trace ++ evs ∧ evs.length = n := by
  induction n generalizing s with
  | zero => exact ⟨[], by simp [fifo_polls], rfl⟩
  | succ k ih =>
    obtain ⟨evs, h, hl⟩ := ih (get_fifo_status H s).2
    refine ⟨Event.spi [0x17, H.uninit s.world 1 % 256] :: evs, ?_, by simp [hl]⟩
    show (fifo_polls H k (get_fifo_status H s).2).trace = _
    rw [h, get_fifo_status_trace]
    simp

/-- C27: with `clock` the readings `millis()` returns after the start reading
`start` and `t` a 32-bit timeout, `wait_available_timeout(t)` returns true
exactly when some poll of FIFO_STATUS, made after readings that all have
`(reading - start) mod 2^32 < t`, reported RX_EMPTY clear, the state being the
one after that poll; it returns false exactly at the first reading with
`(reading - start) mod 2^32 >= t`, having made one poll per earlier reading;
each poll is one bus transaction; for `t = 0` it returns false at the first
reading with the state untouched, whatever the device would have answered. -/
theorem wait_available_timeout_spec (H : Host σ) (s : nrf σ) (start : Nat) (clock : List Nat)
    (t : Nat) (ht : t < 2 ^ 32) :
    (∀ s1, wait_available_timeout H s (start :: clock) t = some (true, s1) ↔
      ∃ k, packet_at_poll H start t clock s k ∧ s1 = fifo_polls H (k + 1) s) ∧
    (∀ s1, wait_available_timeout H s (start :: clock) t = some (false, s1) ↔
      ∃ k, timeout_at_reading H start t clock s k ∧ s1 = fifo_polls H k s) ∧
    (∀ n, ∃ evs, (fifo_polls H n s).trace = s.trace ++ evs ∧ evs.length = n) ∧
    (t = 0 → clock ≠ [] → wait_available_timeout H s (start :: clock) t = some (false, s)) := by
  refine ⟨fun s1 => wait_available_timeout_loop_true H start t clock s s1 ht,
    fun s1 => wait_available_timeout_loop_false H start t clock s s1 ht,
    fun n => fifo_polls_trace H n s, ?_⟩
  intro ht0 hc
  cases clock with
  | nil => exact absurd rfl hc
  | cons m tl =>
    show wait_available_timeout_loop H start t (m :: tl) s = _
    rw [wait_available_timeout_loop_cons]
    have hw : ¬ within_timeout start t m = true := by
      simp [within_timeout, ht0]
    rw [if_neg hw]

theorem wait_available_timeout_spec_witness :
    (1000 < 2 ^ 32) ∧
    wait_available_timeout ScriptHost (scripted [0x0E, 0x01, 0x0E, 0x00] true)
        [4294967295, 0, 1] 1000
      = some (true, fifo_polls ScriptHost 2 (scripted [0x0E, 0x01, 0x0E, 0x00] true)) ∧
    wait_available_timeout ScriptHost (scripted [0x0E, 0x01, 0x0E, 0x00] true)
        [10, 500, 1010] 1000
      = some (false, fifo_polls ScriptHost 1 (scripted [0x0E, 0x01, 0x0E, 0x00] true)) :=
  ⟨by decide,
    ((wait_available_timeout_spec ScriptHost (scripted [0x0E, 0x01, 0x0E, 0x00] true)
      4294967295 [0, 1] 1000 (by decide)).1 _).mpr
      ⟨1, ⟨by decide,
        fun i hi => by
          have hi2 : i = 0 ∨ i = 1 := by omega
          rcases hi2 with h | h <;> subst h <;> simp [elapsed],
        fun i hi => by
          have hi2 : i = 0 := by omega
          subst hi2
          decide,
        by decide⟩, rfl⟩,
    ((wait_available_timeout_spec ScriptHost (scripted [0x0E, 0x01, 0x0E, 0x00] true)
      10 [500, 1010] 1000 (by decide)).2.1 _).mpr
      ⟨1, ⟨by decide,
        fun i hi => by
          have hi2 : i = 0 := by omega
          subst hi2
          exact ⟨by simp [elapsed], by decide⟩,
        by simp [elapsed]⟩, rfl⟩⟩

/-! ## The tracked mode agrees with the hardware -/

theorem sim_loop_frame (junk : Nat → Nat) (d : SimDevice) (l : List Nat)
    (h1 : d.phase ≠ SimPhase.command) (h2 : d.phase ≠ SimPhase.write_reg CONFIG) :
    (spi_loop (SimHost junk) d l).1.regs CONFIG = d.regs CONFIG := by
  induction l generalizing d with
  | nil => rfl
  | cons b bs ih =>
    show (spi_loop (SimHost junk) (sim_transfer d b).1 bs).1.regs CONFIG = _
    cases hph : d.phase with
    | command => exact absurd hph h1
    | write_reg a =>
      have ha : ¬ (CONFIG = a) := by
        intro h
        rw [hph, ← h] at h2
        exact h2 rfl
      have hd : sim_transfer d b
          = ({ regs := fun r => if r = a then b else d.regs r, phase := SimPhase.ignore }, 0) := by
        simp [sim_transfer, hph]
      rw [hd, ih _ (by simp) (by simp)]
      simp [ha]
    | read_reg a =>
      have hd : sim_transfer d b = (d, d.regs a) := by simp [sim_transfer, hph]
      rw [hd]
      exact ih d h1 h2
    | ignore =>
      have hd : sim_transfer d b = (d, 0) := by simp [sim_transfer, hph]
      rw [hd]
      exact ih d h1 h2

/-- A transaction whose command byte is not a write to CONFIG leaves CONFIG,
the CE level and the tracked mode as they were. -/
theorem sim_transfer_frame (junk : Nat → Nat) (s : nrf SimDevice) (data : List Nat) (n : Nat)
    (h : ∀ b, (data.take (n % 256)).head? = some b →
      ¬ (b &&& 0xE0 = W_REGISTER ∧ b &&& 0x1F = CONFIG)) :
    config_frame s (spi_transfer (SimHost junk) s data n).1 := by
  refine ⟨?_, rfl, rfl⟩
  show (spi_loop (SimHost junk) { s.world with phase := SimPhase.command }
    (data.take (n % 256))).1.regs CONFIG = _
  cases hl : data.take (n % 256) with
  | nil => rfl
  | cons b bs =>
    have hb := h b (by rw [hl]; rfl)
    show (spi_loop (SimHost junk)
      (sim_transfer { s.world with phase := SimPhase.command } b).1 bs).1.regs CONFIG = _
    by_cases hw : b &&& 0xE0 = W_REGISTER
    · have ha : ¬ (b &&& 0x1F = CONFIG) := fun h0 => hb ⟨hw, h0⟩
      have hd : (sim_transfer { s.world with phase := SimPhase.command } b).1
          = { regs := s.world.regs, phase := SimPhase.write_reg (b &&& 0x1F) } := by
        simp [sim_transfer, hw]
      rw [hd, sim_loop_frame junk _ bs (by simp) (by simpa using ha)]
    · by_cases hr : b &&& 0xE0 = R_REGISTER
      · have hd : (sim_transfer { s.world with phase := SimPhase.command } b).1
            = { regs := s.world.regs, phase := SimPhase.read_reg (b &&& 0x1F) } := by
          have hRW : ¬ (R_REGISTER = W_REGISTER) := by decide
          simp [sim_transfer, hr, hRW]
        rw [hd, sim_loop_frame junk _ bs (by simp) (by simp)]
      · have hd : (sim_transfer { s.world with phase := SimPhase.command } b).1
            = { regs := s.world.regs, phase := SimPhase.ignore } := by
          simp [sim_transfer, hw, hr]
        rw [hd, sim_loop_frame junk _ bs (by simp) (by simp)]

theorem config_frame_refl (s : nrf SimDevice) : config_frame s s := ⟨rfl, rfl, rfl⟩

theorem config_frame_trans (s s1 s2 : nrf SimDevice) (h1 : config_frame s s1)
    (h2 : config_frame s1 s2) : config_frame s s2 :=
  ⟨h2.1.trans h1.1, h2.2.1.trans h1.2.1, h2.2.2.trans h1.2.2⟩

set_option maxRecDepth 100000 in
theorem command_kinds (x : Nat) (hx : x < 256) :
    ((R_REGISTER ||| (x &&& 0x1F)) % 256) &&& 0xE0 ≠ W_REGISTER ∧
    (x &&& 0x1F ≠ 0 → ((W_REGISTER ||| (x &&& 0x1F)) % 256) &&& 0x1F ≠ CONFIG) := by
  revert x
  decide

/-- Commands of the driver that carry no register write to CONFIG: a register
read, a register write to another address, and the payload, width, flush
and no-op commands. -/
theorem head_not_config_write (c : Nat) (l : List Nat) (n : Nat)
    (hc : ¬ (c &&& 0xE0 = W_REGISTER ∧ c &&& 0x1F = CONFIG)) :
    ∀ b, ((c :: l).take (n % 256)).head? = some b →
      ¬ (b &&& 0xE0 = W_REGISTER ∧ b &&& 0x1F = CONFIG) := by
  intro b hb
  cases hn : n % 256 with
  | zero => rw [hn] at hb; simp at hb
  | succ k =>
    rw [hn] at hb
    simp only [List.take_succ_cons, List.head?_cons, Option.some.injEq] at hb
    rw [← hb]
    exact hc

theorem frame_read (junk : Nat → Nat) (s : nrf SimDevice) (a : Nat) :
    config_frame s (spi_read_register (SimHost junk) s a).2.2 :=
  sim_transfer_frame junk s _ 2 (head_not_config_write _ _ 2
    (fun h => (command_kinds (a % 256) (Nat.mod_lt _ (by norm_num))).1 h.1))

theorem frame_write (junk : Nat → Nat) (s : nrf SimDevice) (a v : Nat)
    (ha : a % 256 &&& 0x1F ≠ 0) :
    config_frame s (spi_write_register (SimHost junk) s a v).2 :=
  sim_transfer_frame junk s _ 2 (head_not_config_write _ _ 2
    (fun h => (command_kinds (a % 256) (Nat.mod_lt _ (by norm_num))).2 ha h.2))

theorem frame_write_block (junk : Nat → Nat) (s : nrf SimDevice) (a : Nat) (buff : Nat → Nat)
    (n : Nat) (ha : a % 256 &&& 0x1F ≠ 0) :
    config_frame s (spi_write_multibyte_register (SimHost junk) s a buff n).2 :=
  sim_transfer_frame junk s _ _ (head_not_config_write _ _ _
    (fun h => (command_kinds (a % 256) (Nat.mod_lt _ (by norm_num))).2 ha h.2))

theorem frame_read_block (junk : Nat → Nat) (s : nrf SimDevice) (a : Nat) (buff : Nat → Nat)
    (n : Nat) :
    config_frame s (spi_read_multibyte_register (SimHost junk) s a buff n).2.2 :=
  sim_transfer_frame junk s _ _ (head_not_config_write _ _ _
    (fun h => (command_kinds (a % 256) (Nat.mod_lt _ (by norm_num))).1 h.1))

theorem frame_command (junk : Nat → Nat) (s : nrf SimDevice) (c : Nat) (l : List Nat) (n : Nat)
    (hc : c &&& 0xE0 ≠ W_REGISTER) :
    config_frame s (spi_transfer (SimHost junk) s (c :: l) n).1 :=
  sim_transfer_frame junk s _ n (head_not_config_write _ _ n (fun h => hc h.1))

theorem frame_get_status (junk : Nat → Nat) (s : nrf SimDevice) :
    config_frame s (get_status (SimHost junk) s).2 :=
  frame_command junk s NOP [] 1 (by decide)

theorem frame_flush_rx_fifo (junk : Nat → Nat) (s : nrf SimDevice) :
    config_frame s (flush_rx_fifo (SimHost junk) s) :=
  frame_command junk s FLUSH_RX [] 1 (by decide)

theorem frame_flush_tx_fifo (junk : Nat → Nat) (s : nrf SimDevice) :
    config_frame s (flush_tx_fifo (SimHost junk) s) :=
  frame_command junk s FLUSH_TX [] 1 (by decide)

theorem frame_get_fifo_status (junk : Nat → Nat) (s : nrf SimDevice) :
    config_frame s (get_fifo_status (SimHost junk) s).2 :=
  frame_read junk s FIFO_STATUS

theorem frame_available (junk : Nat → Nat) (s : nrf SimDevice) :
    config_frame s (available (SimHost junk) s).2 := by
  rw [(available_eq (SimHost junk) s).1]
  exact frame_get_fifo_status junk s

theorem frame_get_received_payload_width (junk : Nat → Nat) (s : nrf SimDevice) :
    config_frame s (get_received_payload_width (SimHost junk) s).2 :=
  frame_command junk s R_RX_PL_WID _ 2 (by decide)

theorem frame_clear_int_flag (junk : Nat → Nat) (s : nrf SimDevice) (src : nrf_int_source_t) :
    config_frame s (clear_int_flag (SimHost junk) s src) := by
  cases src <;>
    exact config_frame_trans _ _ _ (frame_get_status junk s)
      (frame_write junk _ STATUS _ (by decide))

theorem frame_clear_all_int_flags (junk : Nat → Nat) (s : nrf SimDevice) :
    config_frame s (clear_all_int_flags (SimHost junk) s) :=
  config_frame_trans _ _ _ (frame_get_status junk s) (frame_write junk _ STATUS _ (by decide))

theorem frame_read_received_payload (junk : Nat → Nat) (s : nrf SimDevice) (buff : Nat → Nat)
    (n : Nat) :
    config_frame s (read_received_payload (SimHost junk) s buff n).2.2.2 := by
  have ha := frame_available junk s
  have hw := frame_get_received_payload_width junk (available (SimHost junk) s).2
  unfold read_received_payload
  by_cases h1 : (available (SimHost junk) s).1 = true
  · by_cases h2 : (get_received_payload_width (SimHost junk)
        (available (SimHost junk) s).2).1 % 256 > 32
    · simp only [h1, h2, Bool.not_true, Bool.false_eq_true, if_false, if_true]
      exact config_frame_trans _ _ _ ha (config_frame_trans _ _ _ hw
        (config_frame_trans _ _ _ (frame_flush_rx_fifo junk _) (frame_clear_int_flag junk _ _)))
    · simp only [h1, h2, Bool.not_true, Bool.false_eq_true, if_false]
      exact config_frame_trans _ _ _ ha (config_frame_trans _ _ _ hw
        (frame_command junk _ R_RX_PAYLOAD _ _ (by decide)))
  · simp only [h1, Bool.not_false, if_true]
    exact ha

theorem frame_write_tx_payload (junk : Nat → Nat) (s : nrf SimDevice) (buff : Nat → Nat)
    (n : Nat) (a : Bool) :
    config_frame s (write_tx_payload (SimHost junk) s buff n a).2 := by
  have hf := frame_get_fifo_status junk s
  simp only [write_tx_payload]
  split
  · exact hf
  · cases a
    · exact config_frame_trans _ _ _ hf (frame_command junk _ W_TX_PAYLOAD_NOACK _ _ (by decide))
    · exact config_frame_trans _ _ _ hf (frame_command junk _ W_TX_PAYLOAD _ _ (by decide))

theorem frame_wait_flag (junk : Nat → Nat) (fuel : Nat) (s s1 : nrf SimDevice)
    (h : wait_flag (SimHost junk) fuel s = some s1) : config_frame s s1 := by
  induction fuel generalizing s with
  | zero => simp [wait_flag] at h
  | succ f ih =>
    simp only [wait_flag] at h
    split at h
    · exact config_frame_trans _ _ _ (frame_get_status junk s) (ih _ h)
    · injection h with h
      rw [← h]
      exact frame_get_status junk s

theorem frame_wait_packet_sent_loop (junk : Nat → Nat) (fuel : Nat) (s : nrf SimDevice)
    (r : Bool × nrf SimDevice) (h : wait_packet_sent_loop (SimHost junk) fuel s = some r) :
    config_frame s r.2 := by
  induction fuel generalizing s with
  | zero => simp [wait_packet_sent_loop] at h
  | succ f ih =>
    simp only [wait_packet_sent_loop] at h
    split at h
    · exact absurd h (by simp)
    · rename_i s1 hs1
      have h1 := config_frame_trans _ _ _ (frame_wait_flag junk _ s s1 hs1)
        (frame_get_status junk s1)
      split at h
      · injection h with h
        rw [← h]
        exact config_frame_trans _ _ _ h1 (config_frame_trans _ _ _
          (frame_clear_int_flag junk _ _) (frame_flush_tx_fifo junk _))
      · have h2 := config_frame_trans _ _ _ h1 (config_frame_trans _ _ _
          (frame_clear_int_flag junk _ NRF_TX_DS) (frame_get_fifo_status junk _))
        split at h
        · exact config_frame_trans _ _ _ h2 (ih _ h)
        · injection h with h
          rw [← h]
          exact h2

theorem frame_wait_packet_sent (junk : Nat → Nat) (fuel : Nat) (s : nrf SimDevice)
    (r : Bool × nrf SimDevice) (h : wait_packet_sent (SimHost junk) fuel s = some r) :
    config_frame s r.2 := by
  have hc := frame_read junk s CONFIG
  by_cases hx : (spi_read_register (SimHost junk) s CONFIG).2.1 &&& 0x01 ≠ 0 ∨
      (spi_read_register (SimHost junk) s CONFIG).2.1 &&& 0x02 = 0 ∨ s.ce_level = false
  · rw [wait_packet_sent_not_tx (SimHost junk) fuel s hx] at h
    injection h with h
    rw [← h]
    exact hc
  · rw [wait_packet_sent_tx (SimHost junk) fuel s hx] at h
    exact config_frame_trans _ _ _ hc (frame_wait_packet_sent_loop junk fuel _ r h)

theorem frame_wait_available (junk : Nat → Nat) (fuel : Nat) (s s1 : nrf SimDevice)
    (h : wait_available (SimHost junk) fuel s = some s1) : config_frame s s1 := by
  induction fuel generalizing s with
  | zero => simp [wait_available] at h
  | succ f ih =>
    simp only [wait_available] at h
    split at h
    · injection h with h
      rw [← h]
      exact frame_available junk s
    · exact config_frame_trans _ _ _ (frame_available junk s) (ih _ h)

theorem frame_wait_available_timeout_loop (junk : Nat → Nat) (c t : Nat) (clock : List Nat)
    (s : nrf SimDevice) (r : Bool × nrf SimDevice)
    (h : wait_available_timeout_loop (SimHost junk) c t clock s = some r) :
    config_frame s r.2 := by
  induction clock generalizing s with
  | nil => simp [wait_available_timeout_loop] at h
  | cons m tl ih =>
    rw [wait_available_timeout_loop_cons] at h
    split at h
    · split at h
      · injection h with h
        rw [← h]
        exact frame_get_fifo_status junk s
      · exact config_frame_trans _ _ _ (frame_get_fifo_status junk s) (ih _ h)
    · injection h with h
      rw [← h]
      exact config_frame_refl s

theorem frame_read_registers (junk : Nat → Nat) (l : List Nat) (s : nrf SimDevice) :
    config_frame s (read_registers (SimHost junk) l s) := by
  induction l generalizing s with
  | nil => exact config_frame_refl s
  | cons a rest ih =>
    exact config_frame_trans _ _ _ (frame_read junk s a) (ih _)

theorem frame_print_registers (junk : Nat → Nat) (s s1 : nrf SimDevice)
    (h : print_registers (SimHost junk) s = some s1) : config_frame s s1 := by
  simp only [print_registers] at h
  split at h
  · exact absurd h (by simp)
  · rw [← Option.some.inj h]
    exact config_frame_trans _ _ _ (frame_read_registers junk _ s)
      (config_frame_trans _ _ _ (frame_read junk _ SETUP_AW)
      (config_frame_trans _ _ _ (frame_read_registers junk _ _)
      (config_frame_trans _ _ _ (frame_get_status junk _)
      (config_frame_trans _ _ _ (frame_read_registers junk _ _)
      (config_frame_trans _ _ _ (frame_read_block junk _ _ _ _)
      (config_frame_trans _ _ _ (frame_read_block junk _ _ _ _)
      (config_frame_trans _ _ _ (frame_read_registers junk _ _)
      (config_frame_trans _ _ _ (frame_read_block junk _ _ _ _)
      (frame_read_registers junk _ _)))))))))

/-- Register reads that are only printed change no register. -/
theorem sim_read_registers (junk : Nat → Nat) (l : List Nat) (s : nrf SimDevice)
    (hl : ∀ a, a ∈ l → a < 32) :
    (read_registers (SimHost junk) l s).world.regs = s.world.regs := by
  induction l generalizing s with
  | nil => rfl
  | cons a rest ih =>
    show (read_registers (SimHost junk) rest (spi_read_register (SimHost junk) s a).2.2).world.regs
      = _
    rw [ih _ (fun b hb => hl b (List.mem_cons_of_mem a hb)),
      (sim_read_register junk s a (hl a (List.mem_cons_self a rest))).2]

/-- Over the simulated register file `print_registers` has a result exactly
when the block length `SETUP_AW + 2` (as a byte) fits the 5-byte local buffer;
otherwise the first block read overruns it. -/
theorem print_registers_defined (junk : Nat → Nat) (s : nrf SimDevice) :
    (print_registers (SimHost junk) s).isSome = true ↔
      (s.world.regs SETUP_AW % 256 + 2) % 256 ≤ 5 := by
  have hreg : (spi_read_register (SimHost junk)
      (read_registers (SimHost junk) [CONFIG, EN_AA, EN_RXADDR] s) SETUP_AW).2.1
        = s.world.regs SETUP_AW % 256 := by
    rw [(sim_read_register junk _ SETUP_AW (by decide)).1,
      sim_read_registers junk _ s (by decide)]
  simp only [print_registers, hreg]
  split
  · simp only [Option.isSome_none]
    constructor
    · intro h
      exact absurd h (by simp)
    · intro h
      omega
  · simp only [Option.isSome_some, true_iff]
    omega

theorem frame_rmw (junk : Nat → Nat) (s : nrf SimDevice) (a : Nat) (f : Nat → Nat)
    (ha : a % 256 &&& 0x1F ≠ 0) :
    config_frame s (spi_write_register (SimHost junk) (spi_read_register (SimHost junk) s a).2.2
      a (f (spi_read_register (SimHost junk) s a).2.1)).2 :=
  config_frame_trans _ _ _ (frame_read junk s a) (frame_write junk _ a _ ha)

theorem frame_set_rf_datarate (junk : Nat → Nat) (s : nrf SimDevice) (r : nrf_datarate_t) :
    config_frame s (set_rf_datarate (SimHost junk) s r) := by
  cases r
  · exact frame_rmw junk s RF_SETUP (fun x => (x &&& NOT RF_DR_HIGH) ||| RF_DR_LOW) (by decide)
  · exact frame_rmw junk s RF_SETUP (fun x => x &&& NOT (RF_DR_HIGH ||| RF_DR_LOW)) (by decide)
  · exact frame_rmw junk s RF_SETUP (fun x => (x &&& NOT RF_DR_LOW) ||| RF_DR_HIGH) (by decide)

theorem frame_enable_rx_pipe (junk : Nat → Nat) (s : nrf SimDevice) (p : nrf_address_t)
    (a : Bool) : config_frame s (enable_rx_pipe (SimHost junk) s p a) := by
  have h1 := frame_rmw junk s EN_RXADDR (fun x => x ||| BIT p.val) (by decide)
  cases a
  · exact config_frame_trans _ _ _ h1
      (frame_rmw junk _ EN_AA (fun x => x &&& NOT (BIT p.val)) (by decide))
  · exact config_frame_trans _ _ _ h1
      (frame_rmw junk _ EN_AA (fun x => x ||| BIT p.val) (by decide))

theorem frame_disable_rx_pipe (junk : Nat → Nat) (s : nrf SimDevice) (p : nrf_address_t) :
    config_frame s (disable_rx_pipe (SimHost junk) s p) :=
  config_frame_trans _ _ _
    (frame_rmw junk s EN_RXADDR (fun x => x &&& NOT (BIT p.val)) (by decide))
    (frame_rmw junk _ EN_AA (fun x => x &&& NOT (BIT p.val)) (by decide))

theorem pipe_registers (p : nrf_address_t) :
    (RX_ADDR_P0 + p.val) % 256 &&& 0x1F ≠ 0 ∧ (RX_PW_P0 + p.val) % 256 &&& 0x1F ≠ 0 := by
  cases p <;> decide

theorem frame_set_rx_address (junk : Nat → Nat) (s : nrf SimDevice) (p : nrf_address_t)
    (addr : Nat → Nat) (n : Nat) :
    config_frame s (set_rx_address (SimHost junk) s p addr n) := by
  have hp := (pipe_registers p).1
  cases p
  · exact frame_write_block junk s _ addr n hp
  · exact frame_write_block junk s _ addr n hp
  all_goals exact frame_write junk s _ _ hp

theorem frame_set_dynamic_payload (junk : Nat → Nat) (s : nrf SimDevice) (p : nrf_address_t)
    (b : Bool) : config_frame s (set_dynamic_payload (SimHost junk) s p b) := by
  have hf : ∀ s1 : nrf SimDevice, config_frame s1
      (if (spi_read_register (SimHost junk) s1 DYNPD).2.1 ≠ 0 then
        (spi_write_register (SimHost junk)
          (spi_read_register (SimHost junk) (spi_read_register (SimHost junk) s1 DYNPD).2.2
            FEATURE).2.2 FEATURE
          ((spi_read_register (SimHost junk) (spi_read_register (SimHost junk) s1 DYNPD).2.2
            FEATURE).2.1 ||| EN_DPL)).2
      else
        (spi_write_register (SimHost junk)
          (spi_read_register (SimHost junk) (spi_read_register (SimHost junk) s1 DYNPD).2.2
            FEATURE).2.2 FEATURE
          ((spi_read_register (SimHost junk) (spi_read_register (SimHost junk) s1 DYNPD).2.2
            FEATURE).2.1 &&& NOT EN_DPL)).2) := by
    intro s1
    split
    · exact config_frame_trans _ _ _ (frame_read junk s1 DYNPD)
        (frame_rmw junk _ FEATURE (fun x => x ||| EN_DPL) (by decide))
    · exact config_frame_trans _ _ _ (frame_read junk s1 DYNPD)
        (frame_rmw junk _ FEATURE (fun x => x &&& NOT EN_DPL) (by decide))
  cases b
  · exact config_frame_trans _ _ _
      (frame_rmw junk s DYNPD (fun x => x &&& NOT (BIT p.val)) (by decide)) (hf _)
  · exact config_frame_trans _ _ _
      (frame_rmw junk s DYNPD (fun x => x ||| BIT p.val) (by decide)) (hf _)

theorem frame_get_crc_mode (junk : Nat → Nat) (s : nrf SimDevice) :
    config_frame s (get_crc_mode (SimHost junk) s).2 := by
  simp only [get_crc_mode]
  split
  · split <;> exact frame_read junk s CONFIG
  · exact frame_read junk s CONFIG

/-- Every public operation other than `set_crc_mode`, `set_int_source`,
`set_mode` and `retrieve_last_mode` leaves CONFIG, CE and the tracked mode as
they were. -/
theorem run_op_cases (junk : Nat → Nat) (op : Op) (s s1 : nrf SimDevice)
    (h : run_op (SimHost junk) op s = some s1) :
    config_frame s s1 ∨ (∃ m, s1 = set_crc_mode (SimHost junk) s m) ∨
    (∃ src e, s1 = set_int_source (SimHost junk) s src e) ∨
    (∃ m, s1 = set_mode (SimHost junk) s m) := by
  cases op
  case set_crc_mode m => exact Or.inr (Or.inl ⟨m, (Option.some.inj h).symm⟩)
  case set_int_source src e => exact Or.inr (Or.inr (Or.inl ⟨src, e, (Option.some.inj h).symm⟩))
  case set_mode m => exact Or.inr (Or.inr (Or.inr ⟨m, (Option.some.inj h).symm⟩))
  case retrieve_last_mode =>
    exact Or.inr (Or.inr (Or.inr ⟨s._last_mode, (Option.some.inj h).symm⟩))
  case wait_available fuel => exact Or.inl (frame_wait_available junk fuel s s1 h)
  case wait_available_timeout clock t =>
    left
    cases hr : wait_available_timeout (SimHost junk) s clock t with
    | none =>
      have h0 : (wait_available_timeout (SimHost junk) s clock t).map Prod.snd = some s1 := h
      rw [hr] at h0
      exact absurd h0 (by simp)
    | some r =>
      have h0 : (wait_available_timeout (SimHost junk) s clock t).map Prod.snd = some s1 := h
      rw [hr] at h0
      have hs : r.2 = s1 := Option.some.inj h0
      rw [← hs]
      cases clock with
      | nil => exact absurd hr (by simp [wait_available_timeout])
      | cons c rest => exact frame_wait_available_timeout_loop junk c t rest s r hr
  case wait_packet_sent fuel =>
    left
    cases hr : wait_packet_sent (SimHost junk) fuel s with
    | none =>
      have h0 : (wait_packet_sent (SimHost junk) fuel s).map Prod.snd = some s1 := h
      rw [hr] at h0
      exact absurd h0 (by simp)
    | some r =>
      have h0 : (wait_packet_sent (SimHost junk) fuel s).map Prod.snd = some s1 := h
      rw [hr] at h0
      have hs : r.2 = s1 := Option.some.inj h0
      rw [← hs]
      exact frame_wait_packet_sent junk fuel s r hr
  case print_registers => exact Or.inl (frame_print_registers junk s s1 h)
  all_goals
    left
    rw [← Option.some.inj h]
  case set_rf_channel c => exact frame_write junk s RF_CH _ (by decide)
  case get_rf_channel => exact frame_read junk s RF_CH
  case set_rf_power p =>
    exact frame_rmw junk s RF_SETUP (fun x => (x &&& NOT RF_PWR) ||| (p.val <<< 1)) (by decide)
  case get_rf_power => exact frame_read junk s RF_SETUP
  case set_rf_datarate r => exact frame_set_rf_datarate junk s r
  case get_rf_datarate => exact frame_read junk s RF_SETUP
  case set_address_width w => exact frame_write junk s SETUP_AW _ (by decide)
  case get_address_width => exact frame_read junk s SETUP_AW
  case enable_rx_pipe p a => exact frame_enable_rx_pipe junk s p a
  case disable_rx_pipe p => exact frame_disable_rx_pipe junk s p
  case set_rx_address p addr n => exact frame_set_rx_address junk s p addr n
  case set_static_payload_width p w => exact frame_write junk s _ _ (pipe_registers p).2
  case get_static_payload_width p => exact frame_read junk s _
  case set_tx_address addr n => exact frame_write_block junk s TX_ADDR addr n (by decide)
  case set_retr_param c d => exact frame_write junk s SETUP_RETR _ (by decide)
  case get_retr_param => exact frame_read junk s SETUP_RETR
  case get_crc_mode => exact frame_get_crc_mode junk s
  case available => exact frame_available junk s
  case write_tx_payload buff n a => exact frame_write_tx_payload junk s buff n a
  case read_received_payload buff n => exact frame_read_received_payload junk s buff n
  case set_irq_pin irq => exact config_frame_refl s
  case set_dynamic_payload p b => exact frame_set_dynamic_payload junk s p b
  case clear_all_int_flags => exact frame_clear_all_int_flags junk s
  case clear_int_flag src => exact frame_clear_int_flag junk s src
  case get_received_payload_width => exact frame_get_received_payload_width junk s
  case get_data_source => exact frame_get_status junk s
  case get_current_mode => exact config_frame_refl s
  case print_buffer buff n => exact config_frame_refl s

/-- World and CE level after `set_mode`, for each target. -/
theorem set_mode_state (H : Host σ) (s : nrf σ) (m : nrf_operation_mode_t) :
    (set_mode H s m).world = (match m with
      | NRF_POWER_DOWN =>
        set_power_up H (chip_disable { s with _last_mode := s._current_mode }) false
      | NRF_STANDBY =>
        set_power_up H (chip_disable { s with _last_mode := s._current_mode }) true
      | NRF_TX_MODE =>
        set_primary_rx H (set_power_up H
          (chip_disable { s with _last_mode := s._current_mode }) true) false
      | NRF_RX_MODE =>
        set_primary_rx H (set_power_up H
          (chip_disable { s with _last_mode := s._current_mode }) true) true).world ∧
    (set_mode H s m).ce_level = (match m with
      | NRF_POWER_DOWN => false
      | NRF_STANDBY => false
      | NRF_TX_MODE => true
      | NRF_RX_MODE => true) := by
  cases m
  · exact ⟨rfl, (set_power_up_frame H _ false).2.2⟩
  · generalize hs1 : set_power_up H (chip_disable { s with _last_mode := s._current_mode })
      true = s1
    have hce : s1.ce_level = false := by
      rw [← hs1]; exact (set_power_up_frame H _ true).2.2
    have hsm : set_mode H s NRF_STANDBY
        = { (if s1._current_mode = NRF_POWER_DOWN then delay s1 5 else s1)
            with _current_mode := NRF_STANDBY } := by
      rw [← hs1]; rfl
    rw [hsm]
    constructor
    · show (if _ then _ else _ : nrf σ).world = _
      split <;> rfl
    · show (if _ then _ else _ : nrf σ).ce_level = _
      split <;> exact hce
  · generalize hs1 : chip_enable (set_primary_rx H (set_power_up H
        (chip_disable { s with _last_mode := s._current_mode }) true) false) = s1
    have hw : s1.world = (set_primary_rx H (set_power_up H
        (chip_disable { s with _last_mode := s._current_mode }) true) false).world := by
      rw [← hs1]; rfl
    have hce : s1.ce_level = true := by rw [← hs1]; rfl
    have hsm : set_mode H s NRF_TX_MODE
        = { (if (if s1._current_mode = NRF_STANDBY then delayMicroseconds s1 150
              else s1)._current_mode = NRF_POWER_DOWN then
              delay (if s1._current_mode = NRF_STANDBY then delayMicroseconds s1 150 else s1) 5
            else (if s1._current_mode = NRF_STANDBY then delayMicroseconds s1 150 else s1))
            with _current_mode := NRF_TX_MODE } := by
      rw [← hs1]; rfl
    rw [hsm, ← hw]
    constructor
    · show (if _ then _ else _ : nrf σ).world = _
      split <;> split <;> rfl
    · show (if _ then _ else _ : nrf σ).ce_level = _
      split <;> split <;> exact hce
  · exact set_mode_rx_state H s

set_option maxRecDepth 100000 in
theorem mode_config_bits (x : Nat) (hx : x < 256) :
    ((x &&& NOT PWR_UP) % 256 < 256 ∧ (x &&& NOT PWR_UP) % 256 &&& 0x02 = 0 ∧
      (x &&& NOT PWR_UP) % 256 &&& 0xFC = x &&& 0xFC) ∧
    ((x ||| PWR_UP) % 256 < 256 ∧ (x ||| PWR_UP) % 256 &&& 0x02 = 0x02 ∧
      (x ||| PWR_UP) % 256 &&& 0xFC = x &&& 0xFC) ∧
    (((x ||| PWR_UP) % 256 % 256 &&& NOT PRIM_RX) % 256 < 256 ∧
      ((x ||| PWR_UP) % 256 % 256 &&& NOT PRIM_RX) % 256 &&& 0x02 = 0x02 ∧
      ((x ||| PWR_UP) % 256 % 256 &&& NOT PRIM_RX) % 256 &&& 0x01 = 0 ∧
      ((x ||| PWR_UP) % 256 % 256 &&& NOT PRIM_RX) % 256 &&& 0xFC = x &&& 0xFC) ∧
    (((x ||| PWR_UP) % 256 % 256 ||| PRIM_RX) % 256 < 256 ∧
      ((x ||| PWR_UP) % 256 % 256 ||| PRIM_RX) % 256 &&& 0x02 = 0x02 ∧
      ((x ||| PWR_UP) % 256 % 256 ||| PRIM_RX) % 256 &&& 0x01 = 0x01 ∧
      ((x ||| PWR_UP) % 256 % 256 ||| PRIM_RX) % 256 &&& 0xFC = x &&& 0xFC) := by
  revert x
  decide

/-- CONFIG after `set_mode` over the simulated register file. -/
theorem sim_set_mode_config (junk : Nat → Nat) (s : nrf SimDevice) (m : nrf_operation_mode_t) :
    (set_mode (SimHost junk) s m).world.regs CONFIG = (match m with
      | NRF_POWER_DOWN => (s.world.regs CONFIG % 256 &&& NOT PWR_UP) % 256
      | NRF_STANDBY => (s.world.regs CONFIG % 256 ||| PWR_UP) % 256
      | NRF_TX_MODE => ((s.world.regs CONFIG % 256 ||| PWR_UP) % 256 % 256 &&& NOT PRIM_RX) % 256
      | NRF_RX_MODE => ((s.world.regs CONFIG % 256 ||| PWR_UP) % 256 % 256 ||| PRIM_RX) % 256) := by
  have h0 : (chip_disable { s with _last_mode := s._current_mode }).world.regs CONFIG
      = s.world.regs CONFIG := rfl
  rw [(set_mode_state (SimHost junk) s m).1]
  cases m
  · show (set_power_up (SimHost junk) _ false).world.regs CONFIG = _
    rw [sim_set_power_up, h0]
    simp
  · show (set_power_up (SimHost junk) _ true).world.regs CONFIG = _
    rw [sim_set_power_up, h0]
    simp
  · show (set_primary_rx (SimHost junk) _ false).world.regs CONFIG = _
    rw [sim_set_primary_rx, sim_set_power_up, h0]
    simp
  · show (set_primary_rx (SimHost junk) _ true).world.regs CONFIG = _
    rw [sim_set_primary_rx, sim_set_power_up, h0]
    simp

/-- `set_mode` establishes the agreement whatever the state before. -/
theorem mode_agrees_set_mode (junk : Nat → Nat) (s : nrf SimDevice) (m : nrf_operation_mode_t) :
    (set_mode (SimHost junk) s m).world.regs CONFIG < 256 ∧
    mode_agrees (set_mode (SimHost junk) s m) := by
  have hb := mode_config_bits (s.world.regs CONFIG % 256) (Nat.mod_lt _ (by norm_num))
  have hcfg := sim_set_mode_config junk s m
  have hce := (set_mode_state (SimHost junk) s m).2
  have hmode := (set_mode_modes (SimHost junk) s m).1
  unfold mode_agrees
  rw [hmode, hcfg, hce]
  cases m
  · exact ⟨hb.1.1, hb.1.2.1, rfl⟩
  · exact ⟨hb.2.1.1, hb.2.1.2.1, rfl⟩
  · exact ⟨hb.2.2.1.1, hb.2.2.1.2.1, hb.2.2.1.2.2.1, rfl⟩
  · exact ⟨hb.2.2.2.1, hb.2.2.2.2.1, hb.2.2.2.2.2.1, rfl⟩

/-- The agreement only looks at bits 0 and 1 of CONFIG, the CE level and the
tracked mode. -/
theorem mode_agrees_of_bits (s s1 : nrf SimDevice)
    (h2 : s1.world.regs CONFIG &&& 0x02 = s.world.regs CONFIG &&& 0x02)
    (h1 : s1.world.regs CONFIG &&& 0x01 = s.world.regs CONFIG &&& 0x01)
    (hce : s1.ce_level = s.ce_level) (hmode : s1._current_mode = s._current_mode)
    (h : mode_agrees s) : mode_agrees s1 := by
  unfold mode_agrees at h ⊢
  rw [hmode, h2, h1, hce]
  exact h

set_option maxRecDepth 100000 in
theorem config_field_bits (c : Nat) (hc : c < 256) :
    (((c &&& NOT CRCO) ||| EN_CRC) % 256 < 256 ∧
      ((c &&& NOT CRCO) ||| EN_CRC) % 256 &&& 0x02 = c &&& 0x02 ∧
      ((c &&& NOT CRCO) ||| EN_CRC) % 256 &&& 0x01 = c &&& 0x01) ∧
    ((c ||| CRCO ||| EN_CRC) % 256 < 256 ∧
      (c ||| CRCO ||| EN_CRC) % 256 &&& 0x02 = c &&& 0x02 ∧
      (c ||| CRCO ||| EN_CRC) % 256 &&& 0x01 = c &&& 0x01) ∧
    (∀ src : nrf_int_source_t,
      ((c &&& NOT (mask_bit src)) % 256 < 256 ∧
        (c &&& NOT (mask_bit src)) % 256 &&& 0x02 = c &&& 0x02 ∧
        (c &&& NOT (mask_bit src)) % 256 &&& 0x01 = c &&& 0x01) ∧
      ((c ||| mask_bit src) % 256 < 256 ∧
        (c ||| mask_bit src) % 256 &&& 0x02 = c &&& 0x02 ∧
        (c ||| mask_bit src) % 256 &&& 0x01 = c &&& 0x01)) := by
  refine ⟨?_, ?_, ?_⟩
  · revert c; decide
  · revert c; decide
  · intro src
    cases src <;> revert c <;> decide

theorem reachable_mode_agrees (junk : Nat → Nat) (d : SimDevice) (s : nrf SimDevice)
    (h : reachable (SimHost junk) d s) : s.world.regs CONFIG < 256 ∧ mode_agrees s := by
  induction h with
  | construct =>
    have h8 : (nrf_new (SimHost junk) d).world.regs CONFIG = 8 := rfl
    have hm : (nrf_new (SimHost junk) d)._current_mode = NRF_POWER_DOWN := rfl
    have hce : (nrf_new (SimHost junk) d).ce_level = false := rfl
    unfold mode_agrees
    rw [hm, h8, hce]
    decide
  | step s s1 op _ hrun ih =>
    have hcm : s.world.regs CONFIG % 256 = s.world.regs CONFIG := Nat.mod_eq_of_lt ih.1
    have hb := config_field_bits _ ih.1
    rcases run_op_cases junk op s s1 hrun with hf | ⟨m, hm⟩ | ⟨src, e, hse⟩ | ⟨m, hm⟩
    · refine ⟨by rw [hf.1]; exact ih.1, ?_⟩
      exact mode_agrees_of_bits s s1 (by rw [hf.1]) (by rw [hf.1]) hf.2.1 hf.2.2 ih.2
    · have hcfg := sim_set_crc_mode junk s m
      rw [hcm] at hcfg
      have hce : (set_crc_mode (SimHost junk) s m).ce_level = s.ce_level := by
        cases m <;> rfl
      have hmode : (set_crc_mode (SimHost junk) s m)._current_mode = s._current_mode := by
        cases m <;> rfl
      rw [hm]
      cases m
      · refine ⟨by rw [hcfg]; exact hb.1.1, ?_⟩
        exact mode_agrees_of_bits s _ (by rw [hcfg]; exact hb.1.2.1)
          (by rw [hcfg]; exact hb.1.2.2) hce hmode ih.2
      · refine ⟨by rw [hcfg]; exact hb.2.1.1, ?_⟩
        exact mode_agrees_of_bits s _ (by rw [hcfg]; exact hb.2.1.2.1)
          (by rw [hcfg]; exact hb.2.1.2.2) hce hmode ih.2
    · have hcfg := sim_set_int_source junk s src e
      rw [hcm] at hcfg
      have hce : (set_int_source (SimHost junk) s src e).ce_level = s.ce_level := by
        cases src <;> cases e <;> rfl
      have hmode : (set_int_source (SimHost junk) s src e)._current_mode = s._current_mode := by
        cases src <;> cases e <;> rfl
      have hs := hb.2.2 src
      rw [hse]
      cases e
      · simp only [Bool.false_eq_true, if_false] at hcfg
        refine ⟨by rw [hcfg]; exact hs.2.1, ?_⟩
        exact mode_agrees_of_bits s _ (by rw [hcfg]; exact hs.2.2.1)
          (by rw [hcfg]; exact hs.2.2.2) hce hmode ih.2
      · simp only [if_true] at hcfg
        refine ⟨by rw [hcfg]; exact hs.1.1, ?_⟩
        exact mode_agrees_of_bits s _ (by rw [hcfg]; exact hs.1.2.1)
          (by rw [hcfg]; exact hs.1.2.2) hce hmode ih.2
    · rw [hm]
      exact mode_agrees_set_mode junk s m

/-- C30: over the simulated register file, in every state reachable from the
constructor by public operations the tracked current mode agrees with the
hardware: PowerDown, PWR_UP clear and CE low; Standby, PWR_UP set and CE low;
RX, PWR_UP and PRIM_RX set and CE high; TX, PWR_UP set, PRIM_RX clear and CE
high.  A call of `print_registers` that overruns its 5-byte local buffer
(SETUP_AW + 2 above 5) has undefined behaviour and yields no state, so no
reachable state lies behind it. -/
theorem tracked_mode_agrees (junk : Nat → Nat) (d : SimDevice) (s : nrf SimDevice)
    (h : reachable (SimHost junk) d s) :
    (get_current_mode s = NRF_POWER_DOWN →
      s.world.regs CONFIG &&& PWR_UP = 0 ∧ s.ce_level = false) ∧
    (get_current_mode s = NRF_STANDBY →
      s.world.regs CONFIG &&& PWR_UP = PWR_UP ∧ s.ce_level = false) ∧
    (get_current_mode s = NRF_RX_MODE →
      s.world.regs CONFIG &&& PWR_UP = PWR_UP ∧ s.world.regs CONFIG &&& PRIM_RX = PRIM_RX ∧
        s.ce_level = true) ∧
    (get_current_mode s = NRF_TX_MODE →
      s.world.regs CONFIG &&& PWR_UP = PWR_UP ∧ s.world.regs CONFIG &&& PRIM_RX = 0 ∧
        s.ce_level = true) := by
  have hagree := (reachable_mode_agrees junk d s h).2
  have hp : PWR_UP = 0x02 := by decide
  have hr : PRIM_RX = 0x01 := by decide
  unfold mode_agrees at hagree
  rw [hp, hr]
  refine ⟨?_, ?_, ?_, ?_⟩ <;>
    · intro hm
      have hm2 : s._current_mode = _ := hm
      rw [hm2] at hagree
      exact hagree

theorem tracked_mode_agrees_witness :
    (set_mode (SimHost fun _ => 0)
      (nrf_new (SimHost fun _ => 0) { regs := fun _ => 0xFF, phase := SimPhase.ignore })
      NRF_TX_MODE).world.regs CONFIG &&& PWR_UP = PWR_UP ∧
    (set_mode (SimHost fun _ => 0)
      (nrf_new (SimHost fun _ => 0) { regs := fun _ => 0xFF, phase := SimPhase.ignore })
      NRF_TX_MODE).world.regs CONFIG &&& PRIM_RX = 0 ∧
    (set_mode (SimHost fun _ => 0)
      (nrf_new (SimHost fun _ => 0) { regs := fun _ => 0xFF, phase := SimPhase.ignore })
      NRF_TX_MODE).ce_level = true :=
  (tracked_mode_agrees (fun _ => 0) { regs := fun _ => 0xFF, phase := SimPhase.ignore } _
    (reachable.step _ _ (Op.set_mode NRF_TX_MODE) reachable.construct rfl)).2.2.2 (by decide)

/-! ## Each CONFIG operation changes only its own field -/

set_option maxRecDepth 100000 in
theorem crc_field_frame (c : Nat) (hc : c < 256) :
    ((c &&& NOT CRCO) ||| EN_CRC) % 256 &&& (0xFF ^^^ (EN_CRC ||| CRCO))
      = c &&& (0xFF ^^^ (EN_CRC ||| CRCO)) ∧
    (c ||| CRCO ||| EN_CRC) % 256 &&& (0xFF ^^^ (EN_CRC ||| CRCO))
      = c &&& (0xFF ^^^ (EN_CRC ||| CRCO)) := by
  revert c
  decide

/-- C31: over the simulated register file, for every CONFIG byte: `set_mode`,
for every target and every tracked mode, leaves bits 2 to 7 of CONFIG
unchanged, and so does `retrieve_last_mode`; `set_crc_mode` leaves every bit
other than EN_CRC and CRCO unchanged; `set_int_source` leaves every bit other
than the mask bit of its source unchanged. -/
theorem config_fields_independent (junk : Nat → Nat) (s : nrf SimDevice)
    (hc : s.world.regs CONFIG < 256) :
    (∀ m, (set_mode (SimHost junk) s m).world.regs CONFIG &&& 0xFC
      = s.world.regs CONFIG &&& 0xFC) ∧
    (retrieve_last_mode (SimHost junk) s).world.regs CONFIG &&& 0xFC
      = s.world.regs CONFIG &&& 0xFC ∧
    (∀ m, (set_crc_mode (SimHost junk) s m).world.regs CONFIG &&& (0xFF ^^^ (EN_CRC ||| CRCO))
      = s.world.regs CONFIG &&& (0xFF ^^^ (EN_CRC ||| CRCO))) ∧
    (∀ src e, (set_int_source (SimHost junk) s src e).world.regs CONFIG
        &&& (0xFF ^^^ mask_bit src)
      = s.world.regs CONFIG &&& (0xFF ^^^ mask_bit src)) := by
  have hcm : s.world.regs CONFIG % 256 = s.world.regs CONFIG := Nat.mod_eq_of_lt hc
  have hmode : ∀ m, (set_mode (SimHost junk) s m).world.regs CONFIG &&& 0xFC
      = s.world.regs CONFIG &&& 0xFC := by
    intro m
    have hb := mode_config_bits _ hc
    rw [sim_set_mode_config, hcm]
    cases m
    · exact hb.1.2.2
    · exact hb.2.1.2.2
    · exact hb.2.2.1.2.2.2
    · exact hb.2.2.2.2.2.2
  refine ⟨hmode, hmode s._last_mode, ?_, ?_⟩
  · intro m
    have hb := crc_field_frame _ hc
    rw [sim_set_crc_mode, hcm]
    cases m
    · exact hb.1
    · exact hb.2
  · intro src e
    have hb := mask_bit_facts _ hc src
    rw [sim_set_int_source, hcm]
    cases e
    · exact hb.2.2
    · exact hb.1.2

theorem config_fields_independent_witness :
    (set_mode (SimHost fun _ => 0)
      { world := { regs := fun _ => 0x7C, phase := SimPhase.ignore }, ce_level := false,
        _last_mode := NRF_POWER_DOWN, _current_mode := NRF_STANDBY, trace := [] }
      NRF_RX_MODE).world.regs CONFIG &&& 0xFC = 0x7C &&& 0xFC :=
  (config_fields_independent (fun _ => 0)
    { world := { regs := fun _ => 0x7C, phase := SimPhase.ignore }, ce_level := false,
      _last_mode := NRF_POWER_DOWN, _current_mode := NRF_STANDBY, trace := [] }
    (by decide)).1 NRF_RX_MODE

end Nrf
